import Mathlib

/-!
Verification of the AD2CP beam-angle calculation from the notebook
`AD2CP-angles.ipynb`.  The notebook defines a single pure function
`angle_from_vertical` computing the angles from vertical of the four
beams of a Nortek AD2CP in Janus configuration, as a function of the
two transducer mounting angles and the glider's pitch and roll.  All
angles are in degrees; the function converts to radians internally and
back to degrees at the end.  Real arithmetic models the floating-point
computation of the source.
-/

namespace AD2CP

/-- Embedding of `np.deg2rad`: degrees to radians. -/
noncomputable def deg2rad (x : ℝ) : ℝ := x * Real.pi / 180

/-- Embedding of `np.rad2deg`: radians to degrees. -/
noncomputable def rad2deg (x : ℝ) : ℝ := x * 180 / Real.pi

/-- Embedding of `angle_from_vertical` from the notebook.  The Python
defaults are `fore_aft_angle=47.5`, `port_starboard_angle=25`,
`pitch=0`, `roll=0`; here all four arguments are passed explicitly.
The body mirrors the source line by line: convert each input to
radians, form the four `arccos` of products of cosines, convert back
to degrees, and return the ordered tuple
`(theta_1, theta_2, theta_3, theta_4)`. -/
noncomputable def angle_from_vertical (fore_aft_angle port_starboard_angle pitch roll : ℝ) :
    ℝ × ℝ × ℝ × ℝ :=
  let phi_pitch := deg2rad pitch
  let phi_roll := deg2rad roll
  let angle_fa := deg2rad fore_aft_angle
  let angle_ps := deg2rad port_starboard_angle
  let theta_1 := rad2deg (Real.arccos (Real.cos (angle_fa - phi_pitch) * Real.cos phi_roll))
  let theta_2 := rad2deg (Real.arccos (Real.cos (angle_ps - phi_roll) * Real.cos phi_pitch))
  let theta_3 := rad2deg (Real.arccos (Real.cos (angle_fa + phi_pitch) * Real.cos phi_roll))
  let theta_4 := rad2deg (Real.arccos (Real.cos (angle_ps + phi_roll) * Real.cos phi_pitch))
  (theta_1, theta_2, theta_3, theta_4)

/-- The spec's core formulas, written directly from the specification
text: `theta_1 = arccos(cos(fore_aft - pitch) * cos(roll))` and so on,
with degree inputs converted to radians and results converted back to
degrees, returned in the order fore, port, aft, starboard. -/
noncomputable def angle_from_vertical_spec
    (fore_aft_angle port_starboard_angle pitch roll : ℝ) : ℝ × ℝ × ℝ × ℝ :=
  (rad2deg (Real.arccos (Real.cos (deg2rad fore_aft_angle - deg2rad pitch) *
      Real.cos (deg2rad roll))),
   rad2deg (Real.arccos (Real.cos (deg2rad port_starboard_angle - deg2rad roll) *
      Real.cos (deg2rad pitch))),
   rad2deg (Real.arccos (Real.cos (deg2rad fore_aft_angle + deg2rad pitch) *
      Real.cos (deg2rad roll))),
   rad2deg (Real.arccos (Real.cos (deg2rad port_starboard_angle + deg2rad roll) *
      Real.cos (deg2rad pitch))))

/-- Numeric content of Python's fixed-point format `:.3f`: round to
three decimal places. -/
noncomputable def fmt3 (x : ℝ) : ℝ := (round (1000 * x) : ℤ) / 1000

/-- Embedding of the `print` call in `angle_from_vertical`: the four
lines written to standard output, each modelled as the fixed label
paired with the printed numeric value (the corresponding theta rounded
to three decimal places). -/
noncomputable def angle_from_vertical_output
    (fore_aft_angle port_starboard_angle pitch roll : ℝ) : List (String × ℝ) :=
  let phi_pitch := deg2rad pitch
  let phi_roll := deg2rad roll
  let angle_fa := deg2rad fore_aft_angle
  let angle_ps := deg2rad port_starboard_angle
  let theta_1 := rad2deg (Real.arccos (Real.cos (angle_fa - phi_pitch) * Real.cos phi_roll))
  let theta_2 := rad2deg (Real.arccos (Real.cos (angle_ps - phi_roll) * Real.cos phi_pitch))
  let theta_3 := rad2deg (Real.arccos (Real.cos (angle_fa + phi_pitch) * Real.cos phi_roll))
  let theta_4 := rad2deg (Real.arccos (Real.cos (angle_ps + phi_roll) * Real.cos phi_pitch))
  [("fore angle: ", fmt3 theta_1), ("port angle: ", fmt3 theta_2),
   ("aft angle: ", fmt3 theta_3), ("stbd angle: ", fmt3 theta_4)]

/-! ## Helper lemmas -/

lemma deg2rad_zero : deg2rad 0 = 0 := by
  unfold deg2rad; ring

lemma deg2rad_neg (x : ℝ) : deg2rad (-x) = -deg2rad x := by
  unfold deg2rad; ring

lemma deg2rad_sub (a b : ℝ) : deg2rad a - deg2rad b = deg2rad (a - b) := by
  unfold deg2rad; ring

lemma deg2rad_add (a b : ℝ) : deg2rad a + deg2rad b = deg2rad (a + b) := by
  unfold deg2rad; ring

lemma rad2deg_deg2rad (x : ℝ) : rad2deg (deg2rad x) = x := by
  unfold deg2rad rad2deg
  field_simp

lemma deg2rad_nonneg {x : ℝ} (h : 0 ≤ x) : 0 ≤ deg2rad x := by
  unfold deg2rad
  positivity

lemma deg2rad_le_pi {x : ℝ} (h : x ≤ 180) : deg2rad x ≤ Real.pi := by
  unfold deg2rad
  rw [div_le_iff₀ (by norm_num : (0:ℝ) < 180)]
  nlinarith [Real.pi_pos]

/-- On `[0, 180]` degrees, `rad2deg (arccos (cos (deg2rad x))) = x`. -/
lemma arccos_cos_deg {x : ℝ} (h0 : 0 ≤ x) (h1 : x ≤ 180) :
    rad2deg (Real.arccos (Real.cos (deg2rad x))) = x := by
  rw [Real.arccos_cos (deg2rad_nonneg h0) (deg2rad_le_pi h1), rad2deg_deg2rad]

lemma rad2deg_nonneg {x : ℝ} (h : 0 ≤ x) : 0 ≤ rad2deg x := by
  unfold rad2deg
  positivity

lemma rad2deg_le_180 {x : ℝ} (h : x ≤ Real.pi) : rad2deg x ≤ 180 := by
  unfold rad2deg
  rw [div_le_iff₀ Real.pi_pos]
  nlinarith [Real.pi_pos]

lemma rad2deg_mono {x y : ℝ} (h : x ≤ y) : rad2deg x ≤ rad2deg y := by
  unfold rad2deg
  have hpi := Real.pi_pos
  gcongr

/-- Each `arccos` argument in the function is a product of two
cosines, hence lies in `[-1, 1]`. -/
lemma cos_mul_cos_mem {u v : ℝ} : -1 ≤ Real.cos u * Real.cos v ∧ Real.cos u * Real.cos v ≤ 1 := by
  have h : |Real.cos u * Real.cos v| ≤ 1 := by
    rw [abs_mul]
    exact mul_le_one₀ (Real.abs_cos_le_one u) (abs_nonneg _) (Real.abs_cos_le_one v)
  exact abs_le.mp h

/-- Lipschitz bound for cosine, with constant 1. -/
lemma abs_cos_sub_cos_le (x y : ℝ) : |Real.cos x - Real.cos y| ≤ |x - y| := by
  rw [Real.cos_sub_cos]
  rw [abs_mul, abs_mul]
  have h1 : |(-2 : ℝ)| = 2 := by norm_num
  rw [h1]
  have h2 : |Real.sin ((x + y) / 2)| ≤ 1 := Real.abs_sin_le_one _
  have h3 : |Real.sin ((x - y) / 2)| ≤ |(x - y) / 2| := Real.abs_sin_le_abs
  have h4 : |(x - y) / 2| = |x - y| / 2 := by
    rw [abs_div]
    norm_num
  nlinarith [abs_nonneg (Real.sin ((x - y) / 2)), abs_nonneg (x - y)]

/-! ## Interval bounds for cosine at concrete points

The chain below establishes two-sided rational bounds on
`Real.cos (deg2rad d)` for each concrete degree value `d` appearing in
the notebook's test evaluations.  The method: bound `d * pi / 180`
between rationals using the 20-digit bounds on `pi`, take the
fourth-order Taylor bound for cosine at the point divided by `2 ^ 10`,
then double the angle ten times with `cos (2 x) = 2 cos x ^ 2 - 1`. -/

/-- Initial Taylor step: two-sided bounds on `cos y` from
`|cos y - (1 - y ^ 2 / 2)| ≤ |y| ^ 4 * (5 / 96)`. -/
lemma cos_init_bounds (y lo hi : ℝ) (hy0 : 0 ≤ y) (hy1 : y ≤ 1)
    (hlo : lo ≤ 1 - y ^ 2 / 2 - y ^ 4 * (5 / 96))
    (hhi : 1 - y ^ 2 / 2 + y ^ 4 * (5 / 96) ≤ hi) :
    lo ≤ Real.cos y ∧ Real.cos y ≤ hi := by
  have hy : |y| ≤ 1 := abs_le.mpr ⟨by linarith, hy1⟩
  have hb := Real.cos_bound hy
  have habs : |y| ^ 4 = y ^ 4 := by
    rw [← abs_pow]
    exact abs_of_nonneg (by positivity)
  rw [habs] at hb
  have hb' := abs_le.mp hb
  constructor
  · linarith [hb'.1]
  · linarith [hb'.2]

/-- Doubling step: bounds on `cos z` with `z = 2 * y` from nonnegative
bounds on `cos y`, via `cos (2 y) = 2 cos y ^ 2 - 1`. -/
lemma cos_double_bounds (y z lo hi lo' hi' : ℝ) (hz : z = 2 * y)
    (h : lo ≤ Real.cos y ∧ Real.cos y ≤ hi) (h0 : 0 ≤ lo)
    (hlo : lo' ≤ 2 * lo ^ 2 - 1) (hhi : 2 * hi ^ 2 - 1 ≤ hi') :
    lo' ≤ Real.cos z ∧ Real.cos z ≤ hi' := by
  have hc : Real.cos z = 2 * Real.cos y ^ 2 - 1 := by
    rw [hz, Real.cos_two_mul]
  constructor
  · nlinarith [h.1, h.2]
  · nlinarith [h.1, h.2]

/-- Transport bounds on `cos y` to `cos x` when `|x - y| ≤ w`, using
the Lipschitz bound for cosine. -/
lemma cos_near_bounds (x y lo hi lo' hi' w : ℝ) (hxy : |x - y| ≤ w)
    (h : lo ≤ Real.cos y ∧ Real.cos y ≤ hi)
    (hlo : lo' ≤ lo - w) (hhi : hi + w ≤ hi') :
    lo' ≤ Real.cos x ∧ Real.cos x ≤ hi' := by
  have hl := abs_le.mp (le_trans (abs_cos_sub_cos_le x y) hxy)
  constructor
  · linarith [h.1, hl.1]
  · linarith [h.2, hl.2]

/-- Rational enclosure of `deg2rad d` for nonnegative `d`, from the
20-digit bounds on `pi`. -/
lemma deg2rad_near (d m : ℝ) (h0 : 0 ≤ d)
    (h1 : m ≤ d * 3.14159265358979323846 / 180)
    (h2 : d * 3.14159265358979323847 / 180 ≤ m + 1 / 10 ^ 20) :
    |deg2rad d - m| ≤ 1 / 10 ^ 20 := by
  unfold deg2rad
  have hgt := Real.pi_gt_d20
  have hlt := Real.pi_lt_d20
  have hb1 : d * 3.14159265358979323846 / 180 ≤ d * Real.pi / 180 := by
    gcongr
  have hb2 : d * Real.pi / 180 ≤ d * 3.14159265358979323847 / 180 := by
    gcongr
  rw [abs_le]
  constructor
  · linarith
  · linarith

/-- Multiply two nonnegative intervals. -/
lemma interval_mul (u v la ha lb hb : ℝ) (hu : la ≤ u ∧ u ≤ ha) (hv : lb ≤ v ∧ v ≤ hb)
    (h1 : 0 ≤ la) (h2 : 0 ≤ lb) : la * lb ≤ u * v ∧ u * v ≤ ha * hb := by
  have hu0 : 0 ≤ u := le_trans h1 hu.1
  have hv0 : 0 ≤ v := le_trans h2 hv.1
  constructor
  · exact mul_le_mul hu.1 hv.1 h2 hu0
  · exact mul_le_mul hu.2 hv.2 hv0 (le_trans hu0 hu.2)

/-- Bound the degree-valued `rad2deg (arccos P)` between two degree
values from bounds on `P` against the cosines of the edges. -/
lemma rad2deg_arccos_bounds (P vlo vhi : ℝ) (h0 : 0 ≤ vlo) (h180 : vhi ≤ 180) (hlv : vlo ≤ vhi)
    (hlo : Real.cos (deg2rad vhi) ≤ P) (hhi : P ≤ Real.cos (deg2rad vlo)) :
    vlo ≤ rad2deg (Real.arccos P) ∧ rad2deg (Real.arccos P) ≤ vhi := by
  have h0' : (0:ℝ) ≤ vhi := le_trans h0 hlv
  have h180' : vlo ≤ 180 := le_trans hlv h180
  have hP1 : P ≤ 1 := le_trans hhi (Real.cos_le_one _)
  have hPm1 : -1 ≤ P := le_trans (Real.neg_one_le_cos _) hlo
  have hmem : P ∈ Set.Icc (-1 : ℝ) 1 := ⟨hPm1, hP1⟩
  have hmemlo : Real.cos (deg2rad vlo) ∈ Set.Icc (-1 : ℝ) 1 :=
    ⟨Real.neg_one_le_cos _, Real.cos_le_one _⟩
  have hmemhi : Real.cos (deg2rad vhi) ∈ Set.Icc (-1 : ℝ) 1 :=
    ⟨Real.neg_one_le_cos _, Real.cos_le_one _⟩
  have anti := Real.strictAntiOn_arccos.antitoneOn
  have ha1 : Real.arccos P ≤ Real.arccos (Real.cos (deg2rad vhi)) := anti hmemhi hmem hlo
  have ha2 : Real.arccos (Real.cos (deg2rad vlo)) ≤ Real.arccos P := anti hmem hmemlo hhi
  rw [Real.arccos_cos (deg2rad_nonneg h0') (deg2rad_le_pi h180)] at ha1
  rw [Real.arccos_cos (deg2rad_nonneg h0) (deg2rad_le_pi h180')] at ha2
  constructor
  · calc vlo = rad2deg (deg2rad vlo) := (rad2deg_deg2rad vlo).symm
    _ ≤ rad2deg (Real.arccos P) := rad2deg_mono ha2
  · calc rad2deg (Real.arccos P) ≤ rad2deg (deg2rad vhi) := rad2deg_mono ha1
    _ = vhi := rad2deg_deg2rad vhi

lemma cosDeg_25 :
    ((906307783897791282993577888972540429624499117 : ℝ) / 1000000000000000000000000000000000000000000000) ≤ Real.cos (deg2rad 25) ∧
    Real.cos (deg2rad 25) ≤ ((453153893692706024214041929132853186831198261 : ℝ) / 500000000000000000000000000000000000000000000) := by
  have hm : |deg2rad (25 : ℝ) - ((157079632679489661923 : ℝ) / 360000000000000000000)| ≤ 1 / 10 ^ 20 :=
    deg2rad_near 25 ((157079632679489661923 : ℝ) / 360000000000000000000) (by norm_num) (by norm_num) (by norm_num)
  have h10 : ((49999995460846639454661409228449599841993181 : ℝ) / 50000000000000000000000000000000000000000000) ≤ Real.cos ((157079632679489661923 : ℝ) / 368640000000000000000000) ∧
      Real.cos ((157079632679489661923 : ℝ) / 368640000000000000000000) ≤ ((999999909216936223078636714690259342854471091 : ℝ) / 1000000000000000000000000000000000000000000000) :=
    cos_init_bounds ((157079632679489661923 : ℝ) / 368640000000000000000000) ((49999995460846639454661409228449599841993181 : ℝ) / 50000000000000000000000000000000000000000000) ((999999909216936223078636714690259342854471091 : ℝ) / 1000000000000000000000000000000000000000000000)
      (by norm_num) (by norm_num) (by norm_num) (by norm_num)
  have h9 : ((499999818433873819751748589154221423315791703 : ℝ) / 500000000000000000000000000000000000000000000) ≤ Real.cos ((157079632679489661923 : ℝ) / 184320000000000000000000) ∧
      Real.cos ((157079632679489661923 : ℝ) / 184320000000000000000000) ≤ ((499999818433880687721942153952260644835992469 : ℝ) / 500000000000000000000000000000000000000000000) :=
    cos_double_bounds ((157079632679489661923 : ℝ) / 368640000000000000000000) ((157079632679489661923 : ℝ) / 184320000000000000000000) ((49999995460846639454661409228449599841993181 : ℝ) / 50000000000000000000000000000000000000000000) ((999999909216936223078636714690259342854471091 : ℝ) / 1000000000000000000000000000000000000000000000)
      ((499999818433873819751748589154221423315791703 : ℝ) / 500000000000000000000000000000000000000000000) ((499999818433880687721942153952260644835992469 : ℝ) / 500000000000000000000000000000000000000000000)
      (by norm_num) h10 (by norm_num) (by norm_num) (by norm_num)
  have h8 : ((999998547471254288079397527869662362821820921 : ℝ) / 1000000000000000000000000000000000000000000000) ≤ Real.cos ((157079632679489661923 : ℝ) / 92160000000000000000000) ∧
      Real.cos ((157079632679489661923 : ℝ) / 92160000000000000000000) ≤ ((2499996368678273079552485486867641823929029 : ℝ) / 2500000000000000000000000000000000000000000) :=
    cos_double_bounds ((157079632679489661923 : ℝ) / 184320000000000000000000) ((157079632679489661923 : ℝ) / 92160000000000000000000) ((499999818433873819751748589154221423315791703 : ℝ) / 500000000000000000000000000000000000000000000) ((499999818433880687721942153952260644835992469 : ℝ) / 500000000000000000000000000000000000000000000)
      ((999998547471254288079397527869662362821820921 : ℝ) / 1000000000000000000000000000000000000000000000) ((2499996368678273079552485486867641823929029 : ℝ) / 2500000000000000000000000000000000000000000)
      (by norm_num) h9 (by norm_num) (by norm_num) (by norm_num)
  have h7 : ((124999273736154603978978625260832132835368809 : ℝ) / 125000000000000000000000000000000000000000000) ≤ Real.cos ((157079632679489661923 : ℝ) / 46080000000000000000000) ∧
      Real.cos ((157079632679489661923 : ℝ) / 46080000000000000000000) ≤ ((999994189889456606478986219369358342067595253 : ℝ) / 1000000000000000000000000000000000000000000000) :=
    cos_double_bounds ((157079632679489661923 : ℝ) / 92160000000000000000000) ((157079632679489661923 : ℝ) / 46080000000000000000000) ((999998547471254288079397527869662362821820921 : ℝ) / 1000000000000000000000000000000000000000000000) ((2499996368678273079552485486867641823929029 : ℝ) / 2500000000000000000000000000000000000000000)
      ((124999273736154603978978625260832132835368809 : ℝ) / 125000000000000000000000000000000000000000000) ((999994189889456606478986219369358342067595253 : ℝ) / 1000000000000000000000000000000000000000000000)
      (by norm_num) h8 (by norm_num) (by norm_num) (by norm_num)
  have h6 : ((499988379812231050743940597742960407428320559 : ℝ) / 500000000000000000000000000000000000000000000) ≤ Real.cos ((157079632679489661923 : ℝ) / 23040000000000000000000) ∧
      Real.cos ((157079632679489661923 : ℝ) / 23040000000000000000000) ≤ ((199995351925068238993769997907995729473619463 : ℝ) / 200000000000000000000000000000000000000000000) :=
    cos_double_bounds ((157079632679489661923 : ℝ) / 46080000000000000000000) ((157079632679489661923 : ℝ) / 23040000000000000000000) ((124999273736154603978978625260832132835368809 : ℝ) / 125000000000000000000000000000000000000000000) ((999994189889456606478986219369358342067595253 : ℝ) / 1000000000000000000000000000000000000000000000)
      ((499988379812231050743940597742960407428320559 : ℝ) / 500000000000000000000000000000000000000000000) ((199995351925068238993769997907995729473619463 : ℝ) / 200000000000000000000000000000000000000000000)
      (by norm_num) h7 (by norm_num) (by norm_num) (by norm_num)
  have h5 : ((249976759894519629059156973736386943561526893 : ℝ) / 250000000000000000000000000000000000000000000) ≤ Real.cos ((157079632679489661923 : ℝ) / 11520000000000000000000) ∧
      Real.cos ((157079632679489661923 : ℝ) / 11520000000000000000000) ≤ ((999907039581594808438654094239625505838026969 : ℝ) / 1000000000000000000000000000000000000000000000) :=
    cos_double_bounds ((157079632679489661923 : ℝ) / 23040000000000000000000) ((157079632679489661923 : ℝ) / 11520000000000000000000) ((499988379812231050743940597742960407428320559 : ℝ) / 500000000000000000000000000000000000000000000) ((199995351925068238993769997907995729473619463 : ℝ) / 200000000000000000000000000000000000000000000)
      ((249976759894519629059156973736386943561526893 : ℝ) / 250000000000000000000000000000000000000000000) ((999907039581594808438654094239625505838026969 : ℝ) / 1000000000000000000000000000000000000000000000)
      (by norm_num) h6 (by norm_num) (by norm_num) (by norm_num)
  have h4 : ((124953521949449269073383703623488185780894209 : ℝ) / 125000000000000000000000000000000000000000000) ≤ Real.cos ((157079632679489661923 : ℝ) / 5760000000000000000000) ∧
      Real.cos ((157079632679489661923 : ℝ) / 5760000000000000000000) ≤ ((499814087804829006945586178235536543650592739 : ℝ) / 500000000000000000000000000000000000000000000) :=
    cos_double_bounds ((157079632679489661923 : ℝ) / 11520000000000000000000) ((157079632679489661923 : ℝ) / 5760000000000000000000) ((249976759894519629059156973736386943561526893 : ℝ) / 250000000000000000000000000000000000000000000) ((999907039581594808438654094239625505838026969 : ℝ) / 1000000000000000000000000000000000000000000000)
      ((124953521949449269073383703623488185780894209 : ℝ) / 125000000000000000000000000000000000000000000) ((499814087804829006945586178235536543650592739 : ℝ) / 500000000000000000000000000000000000000000000)
      (by norm_num) h5 (by norm_num) (by norm_num) (by norm_num)
  have h3 : ((49925648944457601693730027824212369660812277 : ℝ) / 50000000000000000000000000000000000000000000) ≤ Real.cos ((157079632679489661923 : ℝ) / 2880000000000000000000) ∧
      Real.cos ((157079632679489661923 : ℝ) / 2880000000000000000000) ≤ ((998512978945386561943994873041970734137103639 : ℝ) / 1000000000000000000000000000000000000000000000) :=
    cos_double_bounds ((157079632679489661923 : ℝ) / 5760000000000000000000) ((157079632679489661923 : ℝ) / 2880000000000000000000) ((124953521949449269073383703623488185780894209 : ℝ) / 125000000000000000000000000000000000000000000) ((499814087804829006945586178235536543650592739 : ℝ) / 500000000000000000000000000000000000000000000)
      ((49925648944457601693730027824212369660812277 : ℝ) / 50000000000000000000000000000000000000000000) ((998512978945386561943994873041970734137103639 : ℝ) / 1000000000000000000000000000000000000000000000)
      (by norm_num) h4 (by norm_num) (by norm_num) (by norm_num)
  have h2 : ((994056338020176350536719799548849929729813203 : ℝ) / 1000000000000000000000000000000000000000000000) ≤ Real.cos ((157079632679489661923 : ℝ) / 1440000000000000000000) ∧
      Real.cos ((157079632679489661923 : ℝ) / 1440000000000000000000) ≤ ((198811267648955995019806132520010835443543277 : ℝ) / 200000000000000000000000000000000000000000000) :=
    cos_double_bounds ((157079632679489661923 : ℝ) / 2880000000000000000000) ((157079632679489661923 : ℝ) / 1440000000000000000000) ((49925648944457601693730027824212369660812277 : ℝ) / 50000000000000000000000000000000000000000000) ((998512978945386561943994873041970734137103639 : ℝ) / 1000000000000000000000000000000000000000000000)
      ((994056338020176350536719799548849929729813203 : ℝ) / 1000000000000000000000000000000000000000000000) ((198811267648955995019806132520010835443543277 : ℝ) / 200000000000000000000000000000000000000000000)
      (by norm_num) h3 (by norm_num) (by norm_num) (by norm_num)
  have h1 : ((976296006316166204515758244128456439721747807 : ℝ) / 1000000000000000000000000000000000000000000000) ≤ Real.cos ((157079632679489661923 : ℝ) / 720000000000000000000) ∧
      Real.cos ((157079632679489661923 : ℝ) / 720000000000000000000) ≤ ((244074001802310207692632225918664449627024411 : ℝ) / 250000000000000000000000000000000000000000000) :=
    cos_double_bounds ((157079632679489661923 : ℝ) / 1440000000000000000000) ((157079632679489661923 : ℝ) / 720000000000000000000) ((994056338020176350536719799548849929729813203 : ℝ) / 1000000000000000000000000000000000000000000000) ((198811267648955995019806132520010835443543277 : ℝ) / 200000000000000000000000000000000000000000000)
      ((976296006316166204515758244128456439721747807 : ℝ) / 1000000000000000000000000000000000000000000000) ((244074001802310207692632225918664449627024411 : ℝ) / 250000000000000000000000000000000000000000000)
      (by norm_num) h2 (by norm_num) (by norm_num) (by norm_num)
  have h0 : ((906307783897791283003577888972540429624499117 : ℝ) / 1000000000000000000000000000000000000000000000) ≤ Real.cos ((157079632679489661923 : ℝ) / 360000000000000000000) ∧
      Real.cos ((157079632679489661923 : ℝ) / 360000000000000000000) ≤ ((453153893692706024209041929132853186831198261 : ℝ) / 500000000000000000000000000000000000000000000) :=
    cos_double_bounds ((157079632679489661923 : ℝ) / 720000000000000000000) ((157079632679489661923 : ℝ) / 360000000000000000000) ((976296006316166204515758244128456439721747807 : ℝ) / 1000000000000000000000000000000000000000000000) ((244074001802310207692632225918664449627024411 : ℝ) / 250000000000000000000000000000000000000000000)
      ((906307783897791283003577888972540429624499117 : ℝ) / 1000000000000000000000000000000000000000000000) ((453153893692706024209041929132853186831198261 : ℝ) / 500000000000000000000000000000000000000000000)
      (by norm_num) h1 (by norm_num) (by norm_num) (by norm_num)
  exact cos_near_bounds (deg2rad 25) ((157079632679489661923 : ℝ) / 360000000000000000000) ((906307783897791283003577888972540429624499117 : ℝ) / 1000000000000000000000000000000000000000000000) ((453153893692706024209041929132853186831198261 : ℝ) / 500000000000000000000000000000000000000000000)
    ((906307783897791282993577888972540429624499117 : ℝ) / 1000000000000000000000000000000000000000000000) ((453153893692706024214041929132853186831198261 : ℝ) / 500000000000000000000000000000000000000000000) (1 / 10 ^ 20) hm h0 (by norm_num) (by norm_num)

lemma cosDeg_17_4 :
    ((954240327767449608600447972333855841900016729 : ℝ) / 1000000000000000000000000000000000000000000000) ≤ Real.cos (deg2rad 17.4) ∧
    Real.cos (deg2rad 17.4) ≤ ((477120164299739954296168120557123934113448633 : ℝ) / 500000000000000000000000000000000000000000000) := by
  have hm : |deg2rad (17.4 : ℝ) - ((4555309347705200195767 : ℝ) / 15000000000000000000000)| ≤ 1 / 10 ^ 20 :=
    deg2rad_near 17.4 ((4555309347705200195767 : ℝ) / 15000000000000000000000) (by norm_num) (by norm_num) (by norm_num)
  have h10 : ((249999989005807535698142657304805728998787399 : ℝ) / 250000000000000000000000000000000000000000000) ≤ Real.cos ((4555309347705200195767 : ℝ) / 15360000000000000000000000) ∧
      Real.cos ((4555309347705200195767 : ℝ) / 15360000000000000000000000) ≤ ((999999956023230948607675477820346580974221247 : ℝ) / 1000000000000000000000000000000000000000000000) :=
    cos_init_bounds ((4555309347705200195767 : ℝ) / 15360000000000000000000000) ((249999989005807535698142657304805728998787399 : ℝ) / 250000000000000000000000000000000000000000000) ((999999956023230948607675477820346580974221247 : ℝ) / 1000000000000000000000000000000000000000000000)
      (by norm_num) (by norm_num) (by norm_num) (by norm_num)
  have h9 : ((999999824092924439082856664452787363700869163 : ℝ) / 1000000000000000000000000000000000000000000000) ≤ Real.cos ((4555309347705200195767 : ℝ) / 7680000000000000000000000) ∧
      Real.cos ((4555309347705200195767 : ℝ) / 7680000000000000000000000) ≤ ((999999824092927662343134310276927145958904209 : ℝ) / 1000000000000000000000000000000000000000000000) :=
    cos_double_bounds ((4555309347705200195767 : ℝ) / 15360000000000000000000000) ((4555309347705200195767 : ℝ) / 7680000000000000000000000) ((249999989005807535698142657304805728998787399 : ℝ) / 250000000000000000000000000000000000000000000) ((999999956023230948607675477820346580974221247 : ℝ) / 1000000000000000000000000000000000000000000000)
      ((999999824092924439082856664452787363700869163 : ℝ) / 1000000000000000000000000000000000000000000000) ((999999824092927662343134310276927145958904209 : ℝ) / 1000000000000000000000000000000000000000000000)
      (by norm_num) h10 (by norm_num) (by norm_num) (by norm_num)
  have h8 : ((999999296371759642929891446237784758301649091 : ℝ) / 1000000000000000000000000000000000000000000000) ≤ Real.cos ((4555309347705200195767 : ℝ) / 3840000000000000000000000) ∧
      Real.cos ((4555309347705200195767 : ℝ) / 3840000000000000000000000) ≤ ((24999982409294313399218351309956832848461451 : ℝ) / 25000000000000000000000000000000000000000000) :=
    cos_double_bounds ((4555309347705200195767 : ℝ) / 7680000000000000000000000) ((4555309347705200195767 : ℝ) / 3840000000000000000000000) ((999999824092924439082856664452787363700869163 : ℝ) / 1000000000000000000000000000000000000000000000) ((999999824092927662343134310276927145958904209 : ℝ) / 1000000000000000000000000000000000000000000000)
      ((999999296371759642929891446237784758301649091 : ℝ) / 1000000000000000000000000000000000000000000000) ((24999982409294313399218351309956832848461451 : ℝ) / 25000000000000000000000000000000000000000000)
      (by norm_num) h9 (by norm_num) (by norm_num) (by norm_num)
  have h7 : ((124999648186003594640102719824943400242874703 : ℝ) / 125000000000000000000000000000000000000000000) ≤ Real.cos ((4555309347705200195767 : ℝ) / 1920000000000000000000000) ∧
      Real.cos ((4555309347705200195767 : ℝ) / 1920000000000000000000000) ≤ ((999997185488080329239904558639249011696787037 : ℝ) / 1000000000000000000000000000000000000000000000) :=
    cos_double_bounds ((4555309347705200195767 : ℝ) / 3840000000000000000000000) ((4555309347705200195767 : ℝ) / 1920000000000000000000000) ((999999296371759642929891446237784758301649091 : ℝ) / 1000000000000000000000000000000000000000000000) ((24999982409294313399218351309956832848461451 : ℝ) / 25000000000000000000000000000000000000000000)
      ((124999648186003594640102719824943400242874703 : ℝ) / 125000000000000000000000000000000000000000000) ((999997185488080329239904558639249011696787037 : ℝ) / 1000000000000000000000000000000000000000000000)
      (by norm_num) h8 (by norm_num) (by norm_num) (by norm_num)
  have h6 : ((999988741967957983755825989498975045571256739 : ℝ) / 1000000000000000000000000000000000000000000000) ≤ Real.cos ((4555309347705200195767 : ℝ) / 960000000000000000000000) ∧
      Real.cos ((4555309347705200195767 : ℝ) / 960000000000000000000000) ≤ ((999988741968164271651555808813533034595362637 : ℝ) / 1000000000000000000000000000000000000000000000) :=
    cos_double_bounds ((4555309347705200195767 : ℝ) / 1920000000000000000000000) ((4555309347705200195767 : ℝ) / 960000000000000000000000) ((124999648186003594640102719824943400242874703 : ℝ) / 125000000000000000000000000000000000000000000) ((999997185488080329239904558639249011696787037 : ℝ) / 1000000000000000000000000000000000000000000000)
      ((999988741967957983755825989498975045571256739 : ℝ) / 1000000000000000000000000000000000000000000000) ((999988741968164271651555808813533034595362637 : ℝ) / 1000000000000000000000000000000000000000000000)
      (by norm_num) h7 (by norm_num) (by norm_num) (by norm_num)
  have h5 : ((249988742031329626485358211812481221691262181 : ℝ) / 250000000000000000000000000000000000000000000) ≤ Real.cos ((4555309347705200195767 : ℝ) / 480000000000000000000000) ∧
      Real.cos ((4555309347705200195767 : ℝ) / 480000000000000000000000) ≤ ((999954968126143648234769249591901513579832797 : ℝ) / 1000000000000000000000000000000000000000000000) :=
    cos_double_bounds ((4555309347705200195767 : ℝ) / 960000000000000000000000) ((4555309347705200195767 : ℝ) / 480000000000000000000000) ((999988741967957983755825989498975045571256739 : ℝ) / 1000000000000000000000000000000000000000000000) ((999988741968164271651555808813533034595362637 : ℝ) / 1000000000000000000000000000000000000000000000)
      ((249988742031329626485358211812481221691262181 : ℝ) / 250000000000000000000000000000000000000000000) ((999954968126143648234769249591901513579832797 : ℝ) / 1000000000000000000000000000000000000000000000)
      (by norm_num) h6 (by norm_num) (by norm_num) (by norm_num)
  have h4 : ((199963975311402699685060525289315198452759817 : ℝ) / 200000000000000000000000000000000000000000000) ≤ Real.cos ((4555309347705200195767 : ℝ) / 240000000000000000000000) ∧
      Real.cos ((4555309347705200195767 : ℝ) / 240000000000000000000000) ≤ ((499909938280156959483916102916084985360353077 : ℝ) / 500000000000000000000000000000000000000000000) :=
    cos_double_bounds ((4555309347705200195767 : ℝ) / 480000000000000000000000) ((4555309347705200195767 : ℝ) / 240000000000000000000000) ((249988742031329626485358211812481221691262181 : ℝ) / 250000000000000000000000000000000000000000000) ((999954968126143648234769249591901513579832797 : ℝ) / 1000000000000000000000000000000000000000000000)
      ((199963975311402699685060525289315198452759817 : ℝ) / 200000000000000000000000000000000000000000000) ((499909938280156959483916102916084985360353077 : ℝ) / 500000000000000000000000000000000000000000000)
      (by norm_num) h5 (by norm_num) (by norm_num) (by norm_num)
  have h3 : ((124909946389620427540522142975143617482902163 : ℝ) / 125000000000000000000000000000000000000000000) ≤ Real.cos ((4555309347705200195767 : ℝ) / 120000000000000000000000) ∧
      Real.cos ((4555309347705200195767 : ℝ) / 120000000000000000000000) ≤ ((199855914226032544912374310334777499697324203 : ℝ) / 200000000000000000000000000000000000000000000) :=
    cos_double_bounds ((4555309347705200195767 : ℝ) / 240000000000000000000000) ((4555309347705200195767 : ℝ) / 120000000000000000000000) ((199963975311402699685060525289315198452759817 : ℝ) / 200000000000000000000000000000000000000000000) ((499909938280156959483916102916084985360353077 : ℝ) / 500000000000000000000000000000000000000000000)
      ((124909946389620427540522142975143617482902163 : ℝ) / 125000000000000000000000000000000000000000000) ((199855914226032544912374310334777499697324203 : ℝ) / 200000000000000000000000000000000000000000000)
      (by norm_num) h4 (by norm_num) (by norm_num) (by norm_num)
  have h2 : ((199423864500680941592861310426065991528784141 : ℝ) / 200000000000000000000000000000000000000000000) ≤ Real.cos ((4555309347705200195767 : ℝ) / 60000000000000000000000) ∧
      Real.cos ((4555309347705200195767 : ℝ) / 60000000000000000000000) ≤ ((124639915319520486034424667273235725625901787 : ℝ) / 125000000000000000000000000000000000000000000) :=
    cos_double_bounds ((4555309347705200195767 : ℝ) / 120000000000000000000000) ((4555309347705200195767 : ℝ) / 60000000000000000000000) ((124909946389620427540522142975143617482902163 : ℝ) / 125000000000000000000000000000000000000000000) ((199855914226032544912374310334777499697324203 : ℝ) / 200000000000000000000000000000000000000000000)
      ((199423864500680941592861310426065991528784141 : ℝ) / 200000000000000000000000000000000000000000000) ((124639915319520486034424667273235725625901787 : ℝ) / 125000000000000000000000000000000000000000000)
      (by norm_num) h3 (by norm_num) (by norm_num) (by norm_num)
  have h1 : ((15445216978426525201480343716291665331280467 : ℝ) / 15625000000000000000000000000000000000000000) ≤ Real.cos ((4555309347705200195767 : ℝ) / 30000000000000000000000) ∧
      Real.cos ((4555309347705200195767 : ℝ) / 30000000000000000000000) ≤ ((247123471707431601352707078443319490246452687 : ℝ) / 250000000000000000000000000000000000000000000) :=
    cos_double_bounds ((4555309347705200195767 : ℝ) / 60000000000000000000000) ((4555309347705200195767 : ℝ) / 30000000000000000000000) ((199423864500680941592861310426065991528784141 : ℝ) / 200000000000000000000000000000000000000000000) ((124639915319520486034424667273235725625901787 : ℝ) / 125000000000000000000000000000000000000000000)
      ((15445216978426525201480343716291665331280467 : ℝ) / 15625000000000000000000000000000000000000000) ((247123471707431601352707078443319490246452687 : ℝ) / 250000000000000000000000000000000000000000000)
      (by norm_num) h2 (by norm_num) (by norm_num) (by norm_num)
  have h0 : ((954240327767449608610447972333855841900016729 : ℝ) / 1000000000000000000000000000000000000000000000) ≤ Real.cos ((4555309347705200195767 : ℝ) / 15000000000000000000000) ∧
      Real.cos ((4555309347705200195767 : ℝ) / 15000000000000000000000) ≤ ((477120164299739954291168120557123934113448633 : ℝ) / 500000000000000000000000000000000000000000000) :=
    cos_double_bounds ((4555309347705200195767 : ℝ) / 30000000000000000000000) ((4555309347705200195767 : ℝ) / 15000000000000000000000) ((15445216978426525201480343716291665331280467 : ℝ) / 15625000000000000000000000000000000000000000) ((247123471707431601352707078443319490246452687 : ℝ) / 250000000000000000000000000000000000000000000)
      ((954240327767449608610447972333855841900016729 : ℝ) / 1000000000000000000000000000000000000000000000) ((477120164299739954291168120557123934113448633 : ℝ) / 500000000000000000000000000000000000000000000)
      (by norm_num) h1 (by norm_num) (by norm_num) (by norm_num)
  exact cos_near_bounds (deg2rad 17.4) ((4555309347705200195767 : ℝ) / 15000000000000000000000) ((954240327767449608610447972333855841900016729 : ℝ) / 1000000000000000000000000000000000000000000000) ((477120164299739954291168120557123934113448633 : ℝ) / 500000000000000000000000000000000000000000000)
    ((954240327767449608600447972333855841900016729 : ℝ) / 1000000000000000000000000000000000000000000000) ((477120164299739954296168120557123934113448633 : ℝ) / 500000000000000000000000000000000000000000000) (1 / 10 ^ 20) hm h0 (by norm_num) (by norm_num)

lemma cosDeg_22 :
    ((92718385267074984853396213609179094709591887 : ℝ) / 100000000000000000000000000000000000000000000) ≤ Real.cos (deg2rad 22) ∧
    Real.cos (deg2rad 22) ≤ ((231795963694364561105452328705435776599109191 : ℝ) / 250000000000000000000000000000000000000000000) := by
  have hm : |deg2rad (22 : ℝ) - ((1727875959474386281153 : ℝ) / 4500000000000000000000)| ≤ 1 / 10 ^ 20 :=
    deg2rad_near 22 ((1727875959474386281153 : ℝ) / 4500000000000000000000) (by norm_num) (by norm_num) (by norm_num)
  have h10 : ((999999929697593051840388187384109986367409103 : ℝ) / 1000000000000000000000000000000000000000000000) ≤ Real.cos ((1727875959474386281153 : ℝ) / 4608000000000000000000000) ∧
      Real.cos ((1727875959474386281153 : ℝ) / 4608000000000000000000000) ≤ ((999999929697595111185503990602254251091883697 : ℝ) / 1000000000000000000000000000000000000000000000) :=
    cos_init_bounds ((1727875959474386281153 : ℝ) / 4608000000000000000000000) ((999999929697593051840388187384109986367409103 : ℝ) / 1000000000000000000000000000000000000000000000) ((999999929697595111185503990602254251091883697 : ℝ) / 1000000000000000000000000000000000000000000000)
      (by norm_num) (by norm_num) (by norm_num) (by norm_num)
  have h9 : ((999999718790382092218398158818167770441468871 : ℝ) / 1000000000000000000000000000000000000000000000) ≤ Real.cos ((1727875959474386281153 : ℝ) / 2304000000000000000000000) ∧
      Real.cos ((1727875959474386281153 : ℝ) / 2304000000000000000000000) ≤ ((124999964848798791199785283003214377882080123 : ℝ) / 125000000000000000000000000000000000000000000) :=
    cos_double_bounds ((1727875959474386281153 : ℝ) / 4608000000000000000000000) ((1727875959474386281153 : ℝ) / 2304000000000000000000000) ((999999929697593051840388187384109986367409103 : ℝ) / 1000000000000000000000000000000000000000000000) ((999999929697595111185503990602254251091883697 : ℝ) / 1000000000000000000000000000000000000000000000)
      ((999999718790382092218398158818167770441468871 : ℝ) / 1000000000000000000000000000000000000000000000) ((124999964848798791199785283003214377882080123 : ℝ) / 125000000000000000000000000000000000000000000)
      (by norm_num) h10 (by norm_num) (by norm_num) (by norm_num)
  have h8 : ((999998875161686526572000316318612837590632697 : ℝ) / 1000000000000000000000000000000000000000000000) ≤ Real.cos ((1727875959474386281153 : ℝ) / 1152000000000000000000000) ∧
      Real.cos ((1727875959474386281153 : ℝ) / 1152000000000000000000000) ≤ ((99999887516171947608227101548542881592850031 : ℝ) / 100000000000000000000000000000000000000000000) :=
    cos_double_bounds ((1727875959474386281153 : ℝ) / 2304000000000000000000000) ((1727875959474386281153 : ℝ) / 1152000000000000000000000) ((999999718790382092218398158818167770441468871 : ℝ) / 1000000000000000000000000000000000000000000000) ((124999964848798791199785283003214377882080123 : ℝ) / 125000000000000000000000000000000000000000000)
      ((999998875161686526572000316318612837590632697 : ℝ) / 1000000000000000000000000000000000000000000000) ((99999887516171947608227101548542881592850031 : ℝ) / 100000000000000000000000000000000000000000000)
      (by norm_num) h9 (by norm_num) (by norm_num) (by norm_num)
  have h7 : ((999995500649276628750916757022864245324960829 : ℝ) / 1000000000000000000000000000000000000000000000) ≤ Real.cos ((1727875959474386281153 : ℝ) / 576000000000000000000000) ∧
      Real.cos ((1727875959474386281153 : ℝ) / 576000000000000000000000) ≤ ((999995500649408426643748069610794033355032337 : ℝ) / 1000000000000000000000000000000000000000000000) :=
    cos_double_bounds ((1727875959474386281153 : ℝ) / 1152000000000000000000000) ((1727875959474386281153 : ℝ) / 576000000000000000000000) ((999998875161686526572000316318612837590632697 : ℝ) / 1000000000000000000000000000000000000000000000) ((99999887516171947608227101548542881592850031 : ℝ) / 100000000000000000000000000000000000000000000)
      ((999995500649276628750916757022864245324960829 : ℝ) / 1000000000000000000000000000000000000000000000) ((999995500649408426643748069610794033355032337 : ℝ) / 1000000000000000000000000000000000000000000000)
      (by norm_num) h8 (by norm_num) (by norm_num) (by norm_num)
  have h6 : ((999982002637594828867469792874142138505181883 : ℝ) / 1000000000000000000000000000000000000000000000) ≤ Real.cos ((1727875959474386281153 : ℝ) / 288000000000000000000000) ∧
      Real.cos ((1727875959474386281153 : ℝ) / 288000000000000000000000) ≤ ((199996400527624403613355060033947954892457771 : ℝ) / 200000000000000000000000000000000000000000000) :=
    cos_double_bounds ((1727875959474386281153 : ℝ) / 576000000000000000000000) ((1727875959474386281153 : ℝ) / 288000000000000000000000) ((999995500649276628750916757022864245324960829 : ℝ) / 1000000000000000000000000000000000000000000000) ((999995500649408426643748069610794033355032337 : ℝ) / 1000000000000000000000000000000000000000000000)
      ((999982002637594828867469792874142138505181883 : ℝ) / 1000000000000000000000000000000000000000000000) ((199996400527624403613355060033947954892457771 : ℝ) / 200000000000000000000000000000000000000000000)
      (by norm_num) h7 (by norm_num) (by norm_num) (by norm_num)
  have h5 : ((999928011198189422556013676208316141816037079 : ℝ) / 1000000000000000000000000000000000000000000000) ≤ Real.cos ((1727875959474386281153 : ℝ) / 144000000000000000000000) ∧
      Real.cos ((1727875959474386281153 : ℝ) / 144000000000000000000000) ≤ ((499964005600149070700587978637388541569855281 : ℝ) / 500000000000000000000000000000000000000000000) :=
    cos_double_bounds ((1727875959474386281153 : ℝ) / 288000000000000000000000) ((1727875959474386281153 : ℝ) / 144000000000000000000000) ((999982002637594828867469792874142138505181883 : ℝ) / 1000000000000000000000000000000000000000000000) ((199996400527624403613355060033947954892457771 : ℝ) / 200000000000000000000000000000000000000000000)
      ((999928011198189422556013676208316141816037079 : ℝ) / 1000000000000000000000000000000000000000000000) ((499964005600149070700587978637388541569855281 : ℝ) / 500000000000000000000000000000000000000000000)
      (by norm_num) h6 (by norm_num) (by norm_num) (by norm_num)
  have h4 : ((15620500861836450976082050934145165788231301 : ℝ) / 15625000000000000000000000000000000000000000) ≤ Real.cos ((1727875959474386281153 : ℝ) / 72000000000000000000000) ∧
      Real.cos ((1727875959474386281153 : ℝ) / 72000000000000000000000) ≤ ((999712055165967130633337202972686272995107071 : ℝ) / 1000000000000000000000000000000000000000000000) :=
    cos_double_bounds ((1727875959474386281153 : ℝ) / 144000000000000000000000) ((1727875959474386281153 : ℝ) / 72000000000000000000000) ((999928011198189422556013676208316141816037079 : ℝ) / 1000000000000000000000000000000000000000000000) ((499964005600149070700587978637388541569855281 : ℝ) / 500000000000000000000000000000000000000000000)
      ((15620500861836450976082050934145165788231301 : ℝ) / 15625000000000000000000000000000000000000000) ((999712055165967130633337202972686272995107071 : ℝ) / 1000000000000000000000000000000000000000000000)
      (by norm_num) h5 (by norm_num) (by norm_num) (by norm_num)
  have h3 : ((249712096613649014181575852610169751003158867 : ℝ) / 250000000000000000000000000000000000000000000) ≤ Real.cos ((1727875959474386281153 : ℝ) / 36000000000000000000000) ∧
      Real.cos ((1727875959474386281153 : ℝ) / 36000000000000000000000) ≤ ((499424193244161707483359061834215821892783421 : ℝ) / 500000000000000000000000000000000000000000000) :=
    cos_double_bounds ((1727875959474386281153 : ℝ) / 72000000000000000000000) ((1727875959474386281153 : ℝ) / 36000000000000000000000) ((15620500861836450976082050934145165788231301 : ℝ) / 15625000000000000000000000000000000000000000) ((999712055165967130633337202972686272995107071 : ℝ) / 1000000000000000000000000000000000000000000000)
      ((249712096613649014181575852610169751003158867 : ℝ) / 250000000000000000000000000000000000000000000) ((499424193244161707483359061834215821892783421 : ℝ) / 500000000000000000000000000000000000000000000)
      (by norm_num) h4 (by norm_num) (by norm_num) (by norm_num)
  have h2 : ((6221226239036875891159034816513000150288717 : ℝ) / 6250000000000000000000000000000000000000000) ≤ Real.cos ((1727875959474386281153 : ℝ) / 18000000000000000000000) ∧
      Real.cos ((1727875959474386281153 : ℝ) / 18000000000000000000000) ≤ ((6221226239879088825118613008638503488481377 : ℝ) / 6250000000000000000000000000000000000000000) :=
    cos_double_bounds ((1727875959474386281153 : ℝ) / 36000000000000000000000) ((1727875959474386281153 : ℝ) / 18000000000000000000000) ((249712096613649014181575852610169751003158867 : ℝ) / 250000000000000000000000000000000000000000000) ((499424193244161707483359061834215821892783421 : ℝ) / 500000000000000000000000000000000000000000000)
      ((6221226239036875891159034816513000150288717 : ℝ) / 6250000000000000000000000000000000000000000) ((6221226239879088825118613008638503488481377 : ℝ) / 6250000000000000000000000000000000000000000)
      (by norm_num) h3 (by norm_num) (by norm_num) (by norm_num)
  have h1 : ((981627182964782676189775404859352423491450271 : ℝ) / 1000000000000000000000000000000000000000000000) ≤ Real.cos ((1727875959474386281153 : ℝ) / 9000000000000000000000) ∧
      Real.cos ((1727875959474386281153 : ℝ) / 9000000000000000000000) ≤ ((490813591750658714937651001234063526458068391 : ℝ) / 500000000000000000000000000000000000000000000) :=
    cos_double_bounds ((1727875959474386281153 : ℝ) / 18000000000000000000000) ((1727875959474386281153 : ℝ) / 9000000000000000000000) ((6221226239036875891159034816513000150288717 : ℝ) / 6250000000000000000000000000000000000000000) ((6221226239879088825118613008638503488481377 : ℝ) / 6250000000000000000000000000000000000000000)
      ((981627182964782676189775404859352423491450271 : ℝ) / 1000000000000000000000000000000000000000000000) ((490813591750658714937651001234063526458068391 : ℝ) / 500000000000000000000000000000000000000000000)
      (by norm_num) h2 (by norm_num) (by norm_num) (by norm_num)
  have h0 : ((92718385267074984854396213609179094709591887 : ℝ) / 100000000000000000000000000000000000000000000) ≤ Real.cos ((1727875959474386281153 : ℝ) / 4500000000000000000000) ∧
      Real.cos ((1727875959474386281153 : ℝ) / 4500000000000000000000) ≤ ((231795963694364561102952328705435776599109191 : ℝ) / 250000000000000000000000000000000000000000000) :=
    cos_double_bounds ((1727875959474386281153 : ℝ) / 9000000000000000000000) ((1727875959474386281153 : ℝ) / 4500000000000000000000) ((981627182964782676189775404859352423491450271 : ℝ) / 1000000000000000000000000000000000000000000000) ((490813591750658714937651001234063526458068391 : ℝ) / 500000000000000000000000000000000000000000000)
      ((92718385267074984854396213609179094709591887 : ℝ) / 100000000000000000000000000000000000000000000) ((231795963694364561102952328705435776599109191 : ℝ) / 250000000000000000000000000000000000000000000)
      (by norm_num) h1 (by norm_num) (by norm_num) (by norm_num)
  exact cos_near_bounds (deg2rad 22) ((1727875959474386281153 : ℝ) / 4500000000000000000000) ((92718385267074984854396213609179094709591887 : ℝ) / 100000000000000000000000000000000000000000000) ((231795963694364561102952328705435776599109191 : ℝ) / 250000000000000000000000000000000000000000000)
    ((92718385267074984853396213609179094709591887 : ℝ) / 100000000000000000000000000000000000000000000) ((231795963694364561105452328705435776599109191 : ℝ) / 250000000000000000000000000000000000000000000) (1 / 10 ^ 20) hm h0 (by norm_num) (by norm_num)

lemma cosDeg_13_2 :
    ((121697362827939044525233182651683083399213673 : ℝ) / 125000000000000000000000000000000000000000000) ≤ Real.cos (deg2rad 13.2) ∧
    Real.cos (deg2rad 13.2) ≤ ((38943156116035956899201276634900433307448313 : ℝ) / 40000000000000000000000000000000000000000000) := by
  have hm : |deg2rad (13.2 : ℝ) - ((1727875959474386281153 : ℝ) / 7500000000000000000000)| ≤ 1 / 10 ^ 20 :=
    deg2rad_near 13.2 ((1727875959474386281153 : ℝ) / 7500000000000000000000) (by norm_num) (by norm_num) (by norm_num)
  have h10 : ((3999999898764534943596388351956039257554107 : ℝ) / 4000000000000000000000000000000000000000000) ≤ Real.cos ((1727875959474386281153 : ℝ) / 7680000000000000000000000) ∧
      Real.cos ((1727875959474386281153 : ℝ) / 7680000000000000000000000) ≤ ((499999987345567001395112048043040655548409329 : ℝ) / 500000000000000000000000000000000000000000000) :=
    cos_init_bounds ((1727875959474386281153 : ℝ) / 7680000000000000000000000) ((3999999898764534943596388351956039257554107 : ℝ) / 4000000000000000000000000000000000000000000) ((499999987345567001395112048043040655548409329 : ℝ) / 500000000000000000000000000000000000000000000)
      (by norm_num) (by norm_num) (by norm_num) (by norm_num)
  have h9 : ((499999949382268112336905750122813936255854709 : ℝ) / 500000000000000000000000000000000000000000000) ≤ Real.cos ((1727875959474386281153 : ℝ) / 3840000000000000000000000) ∧
      Real.cos ((1727875959474386281153 : ℝ) / 3840000000000000000000000) ≤ ((39999995950581491689531700551467769148118007 : ℝ) / 40000000000000000000000000000000000000000000) :=
    cos_double_bounds ((1727875959474386281153 : ℝ) / 7680000000000000000000000) ((1727875959474386281153 : ℝ) / 3840000000000000000000000) ((3999999898764534943596388351956039257554107 : ℝ) / 4000000000000000000000000000000000000000000) ((499999987345567001395112048043040655548409329 : ℝ) / 500000000000000000000000000000000000000000000)
      ((499999949382268112336905750122813936255854709 : ℝ) / 500000000000000000000000000000000000000000000) ((39999995950581491689531700551467769148118007 : ℝ) / 40000000000000000000000000000000000000000000)
      (by norm_num) h10 (by norm_num) (by norm_num) (by norm_num)
  have h8 : ((999999595058165395933497611744388943080979187 : ℝ) / 1000000000000000000000000000000000000000000000) ≤ Real.cos ((1727875959474386281153 : ℝ) / 1920000000000000000000000) ∧
      Real.cos ((1727875959474386281153 : ℝ) / 1920000000000000000000000) ≤ ((999999595058169666190989364369551870731529519 : ℝ) / 1000000000000000000000000000000000000000000000) :=
    cos_double_bounds ((1727875959474386281153 : ℝ) / 3840000000000000000000000) ((1727875959474386281153 : ℝ) / 1920000000000000000000000) ((499999949382268112336905750122813936255854709 : ℝ) / 500000000000000000000000000000000000000000000) ((39999995950581491689531700551467769148118007 : ℝ) / 40000000000000000000000000000000000000000000)
      ((999999595058165395933497611744388943080979187 : ℝ) / 1000000000000000000000000000000000000000000000) ((999999595058169666190989364369551870731529519 : ℝ) / 1000000000000000000000000000000000000000000000)
      (by norm_num) h9 (by norm_num) (by norm_num) (by norm_num)
  have h7 : ((499999190116494769756407730639812913715670313 : ℝ) / 500000000000000000000000000000000000000000000) ≤ Real.cos ((1727875959474386281153 : ℝ) / 960000000000000000000000) ∧
      Real.cos ((1727875959474386281153 : ℝ) / 960000000000000000000000) ≤ ((499999190116503310267932824102489733232378949 : ℝ) / 500000000000000000000000000000000000000000000) :=
    cos_double_bounds ((1727875959474386281153 : ℝ) / 1920000000000000000000000) ((1727875959474386281153 : ℝ) / 960000000000000000000000) ((999999595058165395933497611744388943080979187 : ℝ) / 1000000000000000000000000000000000000000000000) ((999999595058169666190989364369551870731529519 : ℝ) / 1000000000000000000000000000000000000000000000)
      ((499999190116494769756407730639812913715670313 : ℝ) / 500000000000000000000000000000000000000000000) ((499999190116503310267932824102489733232378949 : ℝ) / 500000000000000000000000000000000000000000000)
      (by norm_num) h8 (by norm_num) (by norm_num) (by norm_num)
  have h6 : ((99999352093720544838761405311910181193840963 : ℝ) / 100000000000000000000000000000000000000000000) ≤ Real.cos ((1727875959474386281153 : ℝ) / 480000000000000000000000) ∧
      Real.cos ((1727875959474386281153 : ℝ) / 480000000000000000000000) ≤ ((999993520937273772369145690837607272015798217 : ℝ) / 1000000000000000000000000000000000000000000000) :=
    cos_double_bounds ((1727875959474386281153 : ℝ) / 960000000000000000000000) ((1727875959474386281153 : ℝ) / 480000000000000000000000) ((499999190116494769756407730639812913715670313 : ℝ) / 500000000000000000000000000000000000000000000) ((499999190116503310267932824102489733232378949 : ℝ) / 500000000000000000000000000000000000000000000)
      ((99999352093720544838761405311910181193840963 : ℝ) / 100000000000000000000000000000000000000000000) ((999993520937273772369145690837607272015798217 : ℝ) / 1000000000000000000000000000000000000000000000)
      (by norm_num) h7 (by norm_num) (by norm_num) (by norm_num)
  have h5 : ((249993520958194575735485527623751954538374207 : ℝ) / 250000000000000000000000000000000000000000000) ≤ Real.cos ((1727875959474386281153 : ℝ) / 240000000000000000000000) ∧
      Real.cos ((1727875959474386281153 : ℝ) / 240000000000000000000000) ≤ ((99997408383305159709736720383630084183087933 : ℝ) / 100000000000000000000000000000000000000000000) :=
    cos_double_bounds ((1727875959474386281153 : ℝ) / 480000000000000000000000) ((1727875959474386281153 : ℝ) / 240000000000000000000000) ((99999352093720544838761405311910181193840963 : ℝ) / 100000000000000000000000000000000000000000000) ((999993520937273772369145690837607272015798217 : ℝ) / 1000000000000000000000000000000000000000000000)
      ((249993520958194575735485527623751954538374207 : ℝ) / 250000000000000000000000000000000000000000000) ((99997408383305159709736720383630084183087933 : ℝ) / 100000000000000000000000000000000000000000000)
      (by norm_num) h6 (by norm_num) (by norm_num) (by norm_num)
  have h4 : ((199979267334881731738739692085408538271864163 : ℝ) / 200000000000000000000000000000000000000000000) ≤ Real.cos ((1727875959474386281153 : ℝ) / 120000000000000000000000) ∧
      Real.cos ((1727875959474386281153 : ℝ) / 120000000000000000000000) ≤ ((999896336675501806984450852334864502311826913 : ℝ) / 1000000000000000000000000000000000000000000000) :=
    cos_double_bounds ((1727875959474386281153 : ℝ) / 240000000000000000000000) ((1727875959474386281153 : ℝ) / 120000000000000000000000) ((249993520958194575735485527623751954538374207 : ℝ) / 250000000000000000000000000000000000000000000) ((99997408383305159709736720383630084183087933 : ℝ) / 100000000000000000000000000000000000000000000)
      ((199979267334881731738739692085408538271864163 : ℝ) / 200000000000000000000000000000000000000000000) ((999896336675501806984450852334864502311826913 : ℝ) / 1000000000000000000000000000000000000000000000)
      (by norm_num) h5 (by norm_num) (by norm_num) (by norm_num)
  have h3 : ((999585368189804780087668625321430849598561951 : ℝ) / 1000000000000000000000000000000000000000000000) ≤ Real.cos ((1727875959474386281153 : ℝ) / 60000000000000000000000) ∧
      Real.cos ((1727875959474386281153 : ℝ) / 60000000000000000000000) ≤ ((999585368194176919973131847365348832292285153 : ℝ) / 1000000000000000000000000000000000000000000000) :=
    cos_double_bounds ((1727875959474386281153 : ℝ) / 120000000000000000000000) ((1727875959474386281153 : ℝ) / 60000000000000000000000) ((199979267334881731738739692085408538271864163 : ℝ) / 200000000000000000000000000000000000000000000) ((999896336675501806984450852334864502311826913 : ℝ) / 1000000000000000000000000000000000000000000000)
      ((999585368189804780087668625321430849598561951 : ℝ) / 1000000000000000000000000000000000000000000000) ((999585368194176919973131847365348832292285153 : ℝ) / 1000000000000000000000000000000000000000000000)
      (by norm_num) h4 (by norm_num) (by norm_num) (by norm_num)
  have h2 : ((499170908299147585940208484752081396456821411 : ℝ) / 500000000000000000000000000000000000000000000) ≤ Real.cos ((1727875959474386281153 : ℝ) / 30000000000000000000000) ∧
      Real.cos ((1727875959474386281153 : ℝ) / 30000000000000000000000) ≤ ((998341816615776480109207543545352271403714553 : ℝ) / 1000000000000000000000000000000000000000000000) :=
    cos_double_bounds ((1727875959474386281153 : ℝ) / 60000000000000000000000) ((1727875959474386281153 : ℝ) / 30000000000000000000000) ((999585368189804780087668625321430849598561951 : ℝ) / 1000000000000000000000000000000000000000000000) ((999585368194176919973131847365348832292285153 : ℝ) / 1000000000000000000000000000000000000000000000)
      ((499170908299147585940208484752081396456821411 : ℝ) / 500000000000000000000000000000000000000000000) ((998341816615776480109207543545352271403714553 : ℝ) / 1000000000000000000000000000000000000000000000)
      (by norm_num) h3 (by norm_num) (by norm_num) (by norm_num)
  have h1 : ((496686382768784033156212337039422688890799979 : ℝ) / 500000000000000000000000000000000000000000000) ≤ Real.cos ((1727875959474386281153 : ℝ) / 15000000000000000000000) ∧
      Real.cos ((1727875959474386281153 : ℝ) / 15000000000000000000000) ≤ ((124171595700922168795952237035904350876338071 : ℝ) / 125000000000000000000000000000000000000000000) :=
    cos_double_bounds ((1727875959474386281153 : ℝ) / 30000000000000000000000) ((1727875959474386281153 : ℝ) / 15000000000000000000000) ((499170908299147585940208484752081396456821411 : ℝ) / 500000000000000000000000000000000000000000000) ((998341816615776480109207543545352271403714553 : ℝ) / 1000000000000000000000000000000000000000000000)
      ((496686382768784033156212337039422688890799979 : ℝ) / 500000000000000000000000000000000000000000000) ((124171595700922168795952237035904350876338071 : ℝ) / 125000000000000000000000000000000000000000000)
      (by norm_num) h2 (by norm_num) (by norm_num) (by norm_num)
  have h0 : ((121697362827939044526483182651683083399213673 : ℝ) / 125000000000000000000000000000000000000000000) ≤ Real.cos ((1727875959474386281153 : ℝ) / 7500000000000000000000) ∧
      Real.cos ((1727875959474386281153 : ℝ) / 7500000000000000000000) ≤ ((38943156116035956898801276634900433307448313 : ℝ) / 40000000000000000000000000000000000000000000) :=
    cos_double_bounds ((1727875959474386281153 : ℝ) / 15000000000000000000000) ((1727875959474386281153 : ℝ) / 7500000000000000000000) ((496686382768784033156212337039422688890799979 : ℝ) / 500000000000000000000000000000000000000000000) ((124171595700922168795952237035904350876338071 : ℝ) / 125000000000000000000000000000000000000000000)
      ((121697362827939044526483182651683083399213673 : ℝ) / 125000000000000000000000000000000000000000000) ((38943156116035956898801276634900433307448313 : ℝ) / 40000000000000000000000000000000000000000000)
      (by norm_num) h1 (by norm_num) (by norm_num) (by norm_num)
  exact cos_near_bounds (deg2rad 13.2) ((1727875959474386281153 : ℝ) / 7500000000000000000000) ((121697362827939044526483182651683083399213673 : ℝ) / 125000000000000000000000000000000000000000000) ((38943156116035956898801276634900433307448313 : ℝ) / 40000000000000000000000000000000000000000000)
    ((121697362827939044525233182651683083399213673 : ℝ) / 125000000000000000000000000000000000000000000) ((38943156116035956899201276634900433307448313 : ℝ) / 40000000000000000000000000000000000000000000) (1 / 10 ^ 20) hm h0 (by norm_num) (by norm_num)

lemma cosDeg_21_1 :
    ((932953533217994579805966615014418114797125743 : ℝ) / 1000000000000000000000000000000000000000000000) ≤ Real.cos (deg2rad 21.1) ∧
    Real.cos (deg2rad 21.1) ≤ ((466476767502049780699648306570507991045382321 : ℝ) / 500000000000000000000000000000000000000000000) := by
  have hm : |deg2rad (21.1 : ℝ) - ((33143802495372318665753 : ℝ) / 90000000000000000000000)| ≤ 1 / 10 ^ 20 :=
    deg2rad_near 21.1 ((33143802495372318665753 : ℝ) / 90000000000000000000000) (by norm_num) (by norm_num) (by norm_num)
  have h10 : ((499999967665976693543183133815326237556108153 : ℝ) / 500000000000000000000000000000000000000000000) ≤ Real.cos ((33143802495372318665753 : ℝ) / 92160000000000000000000000) ∧
      Real.cos ((33143802495372318665753 : ℝ) / 92160000000000000000000000) ≤ ((199999987066391025913618257449617117440057461 : ℝ) / 200000000000000000000000000000000000000000000) :=
    cos_init_bounds ((33143802495372318665753 : ℝ) / 92160000000000000000000000) ((499999967665976693543183133815326237556108153 : ℝ) / 500000000000000000000000000000000000000000000) ((199999987066391025913618257449617117440057461 : ℝ) / 200000000000000000000000000000000000000000000)
      (by norm_num) (by norm_num) (by norm_num) (by norm_num)
  have h9 : ((39999989653112876490318821218544086189772567 : ℝ) / 40000000000000000000000000000000000000000000) ≤ Real.cos ((33143802495372318665753 : ℝ) / 46080000000000000000000000) ∧
      Real.cos ((33143802495372318665753 : ℝ) / 46080000000000000000000000) ≤ ((499999870663914441092209938690872106556604597 : ℝ) / 500000000000000000000000000000000000000000000) :=
    cos_double_bounds ((33143802495372318665753 : ℝ) / 92160000000000000000000000) ((33143802495372318665753 : ℝ) / 46080000000000000000000000) ((499999967665976693543183133815326237556108153 : ℝ) / 500000000000000000000000000000000000000000000) ((199999987066391025913618257449617117440057461 : ℝ) / 200000000000000000000000000000000000000000000)
      ((39999989653112876490318821218544086189772567 : ℝ) / 40000000000000000000000000000000000000000000) ((499999870663914441092209938690872106556604597 : ℝ) / 500000000000000000000000000000000000000000000)
      (by norm_num) h10 (by norm_num) (by norm_num) (by norm_num)
  have h8 : ((999998965311421471623315434909884116963451193 : ℝ) / 1000000000000000000000000000000000000000000000) ≤ Real.cos ((33143802495372318665753 : ℝ) / 23040000000000000000000000) ∧
      Real.cos ((33143802495372318665753 : ℝ) / 23040000000000000000000000) ≤ ((62499935331965584457618819903534773869774409 : ℝ) / 62500000000000000000000000000000000000000000) :=
    cos_double_bounds ((33143802495372318665753 : ℝ) / 46080000000000000000000000) ((33143802495372318665753 : ℝ) / 23040000000000000000000000) ((39999989653112876490318821218544086189772567 : ℝ) / 40000000000000000000000000000000000000000000) ((499999870663914441092209938690872106556604597 : ℝ) / 500000000000000000000000000000000000000000000)
      ((999998965311421471623315434909884116963451193 : ℝ) / 1000000000000000000000000000000000000000000000) ((62499935331965584457618819903534773869774409 : ℝ) / 62500000000000000000000000000000000000000000)
      (by norm_num) h9 (by norm_num) (by norm_num) (by norm_num)
  have h7 : ((499997930623913523701167942544849431128584131 : ℝ) / 500000000000000000000000000000000000000000000) ≤ Real.cos ((33143802495372318665753 : ℝ) / 11520000000000000000000000) ∧
      Real.cos ((33143802495372318665753 : ℝ) / 11520000000000000000000000) ≤ ((99999586124793856608129139803326109744725613 : ℝ) / 100000000000000000000000000000000000000000000) :=
    cos_double_bounds ((33143802495372318665753 : ℝ) / 23040000000000000000000000) ((33143802495372318665753 : ℝ) / 11520000000000000000000000) ((999998965311421471623315434909884116963451193 : ℝ) / 1000000000000000000000000000000000000000000000) ((62499935331965584457618819903534773869774409 : ℝ) / 62500000000000000000000000000000000000000000)
      ((499997930623913523701167942544849431128584131 : ℝ) / 500000000000000000000000000000000000000000000) ((99999586124793856608129139803326109744725613 : ℝ) / 100000000000000000000000000000000000000000000)
      (by norm_num) h8 (by norm_num) (by norm_num) (by norm_num)
  have h6 : ((999983445025566728707583238134201179513703443 : ℝ) / 1000000000000000000000000000000000000000000000) ≤ Real.cos ((33143802495372318665753 : ℝ) / 5760000000000000000000000) ∧
      Real.cos ((33143802495372318665753 : ℝ) / 5760000000000000000000000) ≤ ((499991722513006400788606307686776176878759837 : ℝ) / 500000000000000000000000000000000000000000000) :=
    cos_double_bounds ((33143802495372318665753 : ℝ) / 11520000000000000000000000) ((33143802495372318665753 : ℝ) / 5760000000000000000000000) ((499997930623913523701167942544849431128584131 : ℝ) / 500000000000000000000000000000000000000000000) ((99999586124793856608129139803326109744725613 : ℝ) / 100000000000000000000000000000000000000000000)
      ((999983445025566728707583238134201179513703443 : ℝ) / 1000000000000000000000000000000000000000000000) ((499991722513006400788606307686776176878759837 : ℝ) / 500000000000000000000000000000000000000000000)
      (by norm_num) h7 (by norm_num) (by norm_num) (by norm_num)
  have h5 : ((124991722581300158975358156451048724125124981 : ℝ) / 125000000000000000000000000000000000000000000) ≤ Real.cos ((33143802495372318665753 : ℝ) / 2880000000000000000000000) ∧
      Real.cos ((33143802495372318665753 : ℝ) / 2880000000000000000000000) ≤ ((124991722581523191717810418770826281081646089 : ℝ) / 125000000000000000000000000000000000000000000) :=
    cos_double_bounds ((33143802495372318665753 : ℝ) / 5760000000000000000000000) ((33143802495372318665753 : ℝ) / 2880000000000000000000000) ((999983445025566728707583238134201179513703443 : ℝ) / 1000000000000000000000000000000000000000000000) ((499991722513006400788606307686776176878759837 : ℝ) / 500000000000000000000000000000000000000000000)
      ((124991722581300158975358156451048724125124981 : ℝ) / 125000000000000000000000000000000000000000000) ((124991722581523191717810418770826281081646089 : ℝ) / 125000000000000000000000000000000000000000000)
      (by norm_num) h6 (by norm_num) (by norm_num) (by norm_num)
  have h4 : ((499867565685804804884314746105641172678070287 : ℝ) / 500000000000000000000000000000000000000000000) ≤ Real.cos ((33143802495372318665753 : ℝ) / 1440000000000000000000000) ∧
      Real.cos ((33143802495372318665753 : ℝ) / 1440000000000000000000000) ≤ ((999735131378746184916447632522584639880720023 : ℝ) / 1000000000000000000000000000000000000000000000) :=
    cos_double_bounds ((33143802495372318665753 : ℝ) / 2880000000000000000000000) ((33143802495372318665753 : ℝ) / 1440000000000000000000000) ((124991722581300158975358156451048724125124981 : ℝ) / 125000000000000000000000000000000000000000000) ((124991722581523191717810418770826281081646089 : ℝ) / 125000000000000000000000000000000000000000000)
      ((499867565685804804884314746105641172678070287 : ℝ) / 500000000000000000000000000000000000000000000) ((999735131378746184916447632522584639880720023 : ℝ) / 1000000000000000000000000000000000000000000000)
      (by norm_num) h5 (by norm_num) (by norm_num) (by norm_num)
  have h3 : ((998940665797219049887786144490025524298029057 : ℝ) / 1000000000000000000000000000000000000000000000) ≤ Real.cos ((33143802495372318665753 : ℝ) / 720000000000000000000000) ∧
      Real.cos ((33143802495372318665753 : ℝ) / 720000000000000000000000) ≤ ((499470332912878894729838668497975974966881629 : ℝ) / 500000000000000000000000000000000000000000000) :=
    cos_double_bounds ((33143802495372318665753 : ℝ) / 1440000000000000000000000) ((33143802495372318665753 : ℝ) / 720000000000000000000000) ((499867565685804804884314746105641172678070287 : ℝ) / 500000000000000000000000000000000000000000000) ((999735131378746184916447632522584639880720023 : ℝ) / 1000000000000000000000000000000000000000000000)
      ((998940665797219049887786144490025524298029057 : ℝ) / 1000000000000000000000000000000000000000000000) ((499470332912878894729838668497975974966881629 : ℝ) / 500000000000000000000000000000000000000000000)
      (by norm_num) h4 (by norm_num) (by norm_num) (by norm_num)
  have h2 : ((124470613445847820331676186653322204914521831 : ℝ) / 125000000000000000000000000000000000000000000) ≤ Real.cos ((33143802495372318665753 : ℝ) / 360000000000000000000000) ∧
      Real.cos ((33143802495372318665753 : ℝ) / 360000000000000000000000) ≤ ((199152981536163318538174426504665396185373589 : ℝ) / 200000000000000000000000000000000000000000000) :=
    cos_double_bounds ((33143802495372318665753 : ℝ) / 720000000000000000000000) ((33143802495372318665753 : ℝ) / 360000000000000000000000) ((998940665797219049887786144490025524298029057 : ℝ) / 1000000000000000000000000000000000000000000000) ((499470332912878894729838668497975974966881629 : ℝ) / 500000000000000000000000000000000000000000000)
      ((124470613445847820331676186653322204914521831 : ℝ) / 125000000000000000000000000000000000000000000) ((199152981536163318538174426504665396185373589 : ℝ) / 200000000000000000000000000000000000000000000)
      (by norm_num) h3 (by norm_num) (by norm_num) (by norm_num)
  have h1 : ((983095502282966041801660855678652967046013983 : ℝ) / 1000000000000000000000000000000000000000000000) ≤ Real.cos ((33143802495372318665753 : ℝ) / 180000000000000000000000) ∧
      Real.cos ((33143802495372318665753 : ℝ) / 180000000000000000000000) ≤ ((491547751368585191673277570465173619008378841 : ℝ) / 500000000000000000000000000000000000000000000) :=
    cos_double_bounds ((33143802495372318665753 : ℝ) / 360000000000000000000000) ((33143802495372318665753 : ℝ) / 180000000000000000000000) ((124470613445847820331676186653322204914521831 : ℝ) / 125000000000000000000000000000000000000000000) ((199152981536163318538174426504665396185373589 : ℝ) / 200000000000000000000000000000000000000000000)
      ((983095502282966041801660855678652967046013983 : ℝ) / 1000000000000000000000000000000000000000000000) ((491547751368585191673277570465173619008378841 : ℝ) / 500000000000000000000000000000000000000000000)
      (by norm_num) h2 (by norm_num) (by norm_num) (by norm_num)
  have h0 : ((932953533217994579815966615014418114797125743 : ℝ) / 1000000000000000000000000000000000000000000000) ≤ Real.cos ((33143802495372318665753 : ℝ) / 90000000000000000000000) ∧
      Real.cos ((33143802495372318665753 : ℝ) / 90000000000000000000000) ≤ ((466476767502049780694648306570507991045382321 : ℝ) / 500000000000000000000000000000000000000000000) :=
    cos_double_bounds ((33143802495372318665753 : ℝ) / 180000000000000000000000) ((33143802495372318665753 : ℝ) / 90000000000000000000000) ((983095502282966041801660855678652967046013983 : ℝ) / 1000000000000000000000000000000000000000000000) ((491547751368585191673277570465173619008378841 : ℝ) / 500000000000000000000000000000000000000000000)
      ((932953533217994579815966615014418114797125743 : ℝ) / 1000000000000000000000000000000000000000000000) ((466476767502049780694648306570507991045382321 : ℝ) / 500000000000000000000000000000000000000000000)
      (by norm_num) h1 (by norm_num) (by norm_num) (by norm_num)
  exact cos_near_bounds (deg2rad 21.1) ((33143802495372318665753 : ℝ) / 90000000000000000000000) ((932953533217994579815966615014418114797125743 : ℝ) / 1000000000000000000000000000000000000000000000) ((466476767502049780694648306570507991045382321 : ℝ) / 500000000000000000000000000000000000000000000)
    ((932953533217994579805966615014418114797125743 : ℝ) / 1000000000000000000000000000000000000000000000) ((466476767502049780699648306570507991045382321 : ℝ) / 500000000000000000000000000000000000000000000) (1 / 10 ^ 20) hm h0 (by norm_num) (by norm_num)

lemma cosDeg_30_1355 :
    ((864840516012567514438388904508519304225822407 : ℝ) / 1000000000000000000000000000000000000000000000) ≤ Real.cos (deg2rad 30.1355) ∧
    Real.cos (deg2rad 30.1355) ≤ ((432420261634643042863204341653962240999376213 : ℝ) / 500000000000000000000000000000000000000000000) := by
  have hm : |deg2rad (30.1355 : ℝ) - ((9467346541225521413761133 : ℝ) / 18000000000000000000000000)| ≤ 1 / 10 ^ 20 :=
    deg2rad_near 30.1355 ((9467346541225521413761133 : ℝ) / 18000000000000000000000000) (by norm_num) (by norm_num) (by norm_num)
  have h10 : ((199999973617761813611357594886356782910594891 : ℝ) / 200000000000000000000000000000000000000000000) ≤ Real.cos ((9467346541225521413761133 : ℝ) / 18432000000000000000000000000) ∧
      Real.cos ((9467346541225521413761133 : ℝ) / 18432000000000000000000000000) ≤ ((99999986808881631829067826468312895550466683 : ℝ) / 100000000000000000000000000000000000000000000) :=
    cos_init_bounds ((9467346541225521413761133 : ℝ) / 18432000000000000000000000000) ((199999973617761813611357594886356782910594891 : ℝ) / 200000000000000000000000000000000000000000000) ((99999986808881631829067826468312895550466683 : ℝ) / 100000000000000000000000000000000000000000000)
      (by norm_num) (by norm_num) (by norm_num) (by norm_num)
  have h9 : ((24999986808881776833793451622032888864200473 : ℝ) / 25000000000000000000000000000000000000000000) ≤ Real.cos ((9467346541225521413761133 : ℝ) / 9216000000000000000000000000) ∧
      Real.cos ((9467346541225521413761133 : ℝ) / 9216000000000000000000000000) ≤ ((999999472355300074283473678043814210262706323 : ℝ) / 1000000000000000000000000000000000000000000000) :=
    cos_double_bounds ((9467346541225521413761133 : ℝ) / 18432000000000000000000000000) ((9467346541225521413761133 : ℝ) / 9216000000000000000000000000) ((199999973617761813611357594886356782910594891 : ℝ) / 200000000000000000000000000000000000000000000) ((99999986808881631829067826468312895550466683 : ℝ) / 100000000000000000000000000000000000000000000)
      ((24999986808881776833793451622032888864200473 : ℝ) / 25000000000000000000000000000000000000000000) ((999999472355300074283473678043814210262706323 : ℝ) / 1000000000000000000000000000000000000000000000)
      (by norm_num) h10 (by norm_num) (by norm_num) (by norm_num)
  have h8 : ((999997889421641111326880411775461286082378143 : ℝ) / 1000000000000000000000000000000000000000000000) ≤ Real.cos ((9467346541225521413761133 : ℝ) / 4608000000000000000000000000) ∧
      Real.cos ((9467346541225521413761133 : ℝ) / 4608000000000000000000000000) ≤ ((999997889421757114992614111050532639820005327 : ℝ) / 1000000000000000000000000000000000000000000000) :=
    cos_double_bounds ((9467346541225521413761133 : ℝ) / 9216000000000000000000000000) ((9467346541225521413761133 : ℝ) / 4608000000000000000000000000) ((24999986808881776833793451622032888864200473 : ℝ) / 25000000000000000000000000000000000000000000) ((999999472355300074283473678043814210262706323 : ℝ) / 1000000000000000000000000000000000000000000000)
      ((999997889421641111326880411775461286082378143 : ℝ) / 1000000000000000000000000000000000000000000000) ((999997889421757114992614111050532639820005327 : ℝ) / 1000000000000000000000000000000000000000000000)
      (by norm_num) h9 (by norm_num) (by norm_num) (by norm_num)
  have h7 : ((62499472355967095457846253527848852155542901 : ℝ) / 62500000000000000000000000000000000000000000) ≤ Real.cos ((9467346541225521413761133 : ℝ) / 2304000000000000000000000000) ∧
      Real.cos ((9467346541225521413761133 : ℝ) / 2304000000000000000000000000) ≤ ((999991557695937541009135574662363093722368833 : ℝ) / 1000000000000000000000000000000000000000000000) :=
    cos_double_bounds ((9467346541225521413761133 : ℝ) / 4608000000000000000000000000) ((9467346541225521413761133 : ℝ) / 2304000000000000000000000000) ((999997889421641111326880411775461286082378143 : ℝ) / 1000000000000000000000000000000000000000000000) ((999997889421757114992614111050532639820005327 : ℝ) / 1000000000000000000000000000000000000000000000)
      ((62499472355967095457846253527848852155542901 : ℝ) / 62500000000000000000000000000000000000000000) ((999991557695937541009135574662363093722368833 : ℝ) / 1000000000000000000000000000000000000000000000)
      (by norm_num) h8 (by norm_num) (by norm_num) (by norm_num)
  have h6 : ((49998311546221956036878112103239884046384467 : ℝ) / 50000000000000000000000000000000000000000000) ≤ Real.cos ((9467346541225521413761133 : ℝ) / 1152000000000000000000000000) ∧
      Real.cos ((9467346541225521413761133 : ℝ) / 1152000000000000000000000000) ≤ ((199993246185259031960513092018901879405565713 : ℝ) / 200000000000000000000000000000000000000000000) :=
    cos_double_bounds ((9467346541225521413761133 : ℝ) / 2304000000000000000000000000) ((9467346541225521413761133 : ℝ) / 1152000000000000000000000000) ((62499472355967095457846253527848852155542901 : ℝ) / 62500000000000000000000000000000000000000000) ((999991557695937541009135574662363093722368833 : ℝ) / 1000000000000000000000000000000000000000000000)
      ((49998311546221956036878112103239884046384467 : ℝ) / 50000000000000000000000000000000000000000000) ((199993246185259031960513092018901879405565713 : ℝ) / 200000000000000000000000000000000000000000000)
      (by norm_num) h7 (by norm_num) (by norm_num) (by norm_num)
  have h5 : ((499932462989228705711497557125803485963223987 : ℝ) / 500000000000000000000000000000000000000000000) ≤ Real.cos ((9467346541225521413761133 : ℝ) / 576000000000000000000000000) ∧
      Real.cos ((9467346541225521413761133 : ℝ) / 576000000000000000000000000) ≤ ((39994597039435252679044846239320343477391733 : ℝ) / 40000000000000000000000000000000000000000000) :=
    cos_double_bounds ((9467346541225521413761133 : ℝ) / 1152000000000000000000000000) ((9467346541225521413761133 : ℝ) / 576000000000000000000000000) ((49998311546221956036878112103239884046384467 : ℝ) / 50000000000000000000000000000000000000000000) ((199993246185259031960513092018901879405565713 : ℝ) / 200000000000000000000000000000000000000000000)
      ((499932462989228705711497557125803485963223987 : ℝ) / 500000000000000000000000000000000000000000000) ((39994597039435252679044846239320343477391733 : ℝ) / 40000000000000000000000000000000000000000000)
      (by norm_num) h6 (by norm_num) (by norm_num) (by norm_num)
  have h4 : ((99945974040381223706734642468337440424181601 : ℝ) / 100000000000000000000000000000000000000000000) ≤ Real.cos ((9467346541225521413761133 : ℝ) / 288000000000000000000000000) ∧
      Real.cos ((9467346541225521413761133 : ℝ) / 288000000000000000000000000) ≤ ((999459740433503848172846367996598881449156571 : ℝ) / 1000000000000000000000000000000000000000000000) :=
    cos_double_bounds ((9467346541225521413761133 : ℝ) / 576000000000000000000000000) ((9467346541225521413761133 : ℝ) / 288000000000000000000000000) ((499932462989228705711497557125803485963223987 : ℝ) / 500000000000000000000000000000000000000000000) ((39994597039435252679044846239320343477391733 : ℝ) / 40000000000000000000000000000000000000000000)
      ((99945974040381223706734642468337440424181601 : ℝ) / 100000000000000000000000000000000000000000000) ((999459740433503848172846367996598881449156571 : ℝ) / 1000000000000000000000000000000000000000000000)
      (by norm_num) h5 (by norm_num) (by norm_num) (by norm_num)
  have h3 : ((997839545376111494198722326026569437175174127 : ℝ) / 1000000000000000000000000000000000000000000000) ≤ Real.cos ((9467346541225521413761133 : ℝ) / 144000000000000000000000000) ∧
      Real.cos ((9467346541225521413761133 : ℝ) / 144000000000000000000000000) ≤ ((997839545494813773911181196832632626367009797 : ℝ) / 1000000000000000000000000000000000000000000000) :=
    cos_double_bounds ((9467346541225521413761133 : ℝ) / 288000000000000000000000000) ((9467346541225521413761133 : ℝ) / 144000000000000000000000000) ((99945974040381223706734642468337440424181601 : ℝ) / 100000000000000000000000000000000000000000000) ((999459740433503848172846367996598881449156571 : ℝ) / 1000000000000000000000000000000000000000000000)
      ((997839545376111494198722326026569437175174127 : ℝ) / 1000000000000000000000000000000000000000000000) ((997839545494813773911181196832632626367009797 : ℝ) / 1000000000000000000000000000000000000000000000)
      (by norm_num) h4 (by norm_num) (by norm_num) (by norm_num)
  have h2 : ((991367516632809739245012613671565896218140929 : ℝ) / 1000000000000000000000000000000000000000000000) ≤ Real.cos ((9467346541225521413761133 : ℝ) / 72000000000000000000000000) ∧
      Real.cos ((9467346541225521413761133 : ℝ) / 72000000000000000000000000) ≤ ((49568375855329652728337250257228470370549649 : ℝ) / 50000000000000000000000000000000000000000000) :=
    cos_double_bounds ((9467346541225521413761133 : ℝ) / 144000000000000000000000000) ((9467346541225521413761133 : ℝ) / 72000000000000000000000000) ((997839545376111494198722326026569437175174127 : ℝ) / 1000000000000000000000000000000000000000000000) ((997839545494813773911181196832632626367009797 : ℝ) / 1000000000000000000000000000000000000000000000)
      ((991367516632809739245012613671565896218140929 : ℝ) / 1000000000000000000000000000000000000000000000) ((49568375855329652728337250257228470370549649 : ℝ) / 50000000000000000000000000000000000000000000)
      (by norm_num) h3 (by norm_num) (by norm_num) (by norm_num)
  have h1 : ((193123821213881717996927962596734680802655363 : ℝ) / 200000000000000000000000000000000000000000000) ≤ Real.cos ((9467346541225521413761133 : ℝ) / 36000000000000000000000000) ∧
      Real.cos ((9467346541225521413761133 : ℝ) / 36000000000000000000000000) ≤ ((965619107948182145363842184653034154229611297 : ℝ) / 1000000000000000000000000000000000000000000000) :=
    cos_double_bounds ((9467346541225521413761133 : ℝ) / 72000000000000000000000000) ((9467346541225521413761133 : ℝ) / 36000000000000000000000000) ((991367516632809739245012613671565896218140929 : ℝ) / 1000000000000000000000000000000000000000000000) ((49568375855329652728337250257228470370549649 : ℝ) / 50000000000000000000000000000000000000000000)
      ((193123821213881717996927962596734680802655363 : ℝ) / 200000000000000000000000000000000000000000000) ((965619107948182145363842184653034154229611297 : ℝ) / 1000000000000000000000000000000000000000000000)
      (by norm_num) h2 (by norm_num) (by norm_num) (by norm_num)
  have h0 : ((864840516012567514448388904508519304225822407 : ℝ) / 1000000000000000000000000000000000000000000000) ≤ Real.cos ((9467346541225521413761133 : ℝ) / 18000000000000000000000000) ∧
      Real.cos ((9467346541225521413761133 : ℝ) / 18000000000000000000000000) ≤ ((432420261634643042858204341653962240999376213 : ℝ) / 500000000000000000000000000000000000000000000) :=
    cos_double_bounds ((9467346541225521413761133 : ℝ) / 36000000000000000000000000) ((9467346541225521413761133 : ℝ) / 18000000000000000000000000) ((193123821213881717996927962596734680802655363 : ℝ) / 200000000000000000000000000000000000000000000) ((965619107948182145363842184653034154229611297 : ℝ) / 1000000000000000000000000000000000000000000000)
      ((864840516012567514448388904508519304225822407 : ℝ) / 1000000000000000000000000000000000000000000000) ((432420261634643042858204341653962240999376213 : ℝ) / 500000000000000000000000000000000000000000000)
      (by norm_num) h1 (by norm_num) (by norm_num) (by norm_num)
  exact cos_near_bounds (deg2rad 30.1355) ((9467346541225521413761133 : ℝ) / 18000000000000000000000000) ((864840516012567514448388904508519304225822407 : ℝ) / 1000000000000000000000000000000000000000000000) ((432420261634643042858204341653962240999376213 : ℝ) / 500000000000000000000000000000000000000000000)
    ((864840516012567514438388904508519304225822407 : ℝ) / 1000000000000000000000000000000000000000000000) ((432420261634643042863204341653962240999376213 : ℝ) / 500000000000000000000000000000000000000000000) (1 / 10 ^ 20) hm h0 (by norm_num) (by norm_num)

lemma cosDeg_30_1365 :
    ((864831753512404956760473868090886205733385181 : ℝ) / 1000000000000000000000000000000000000000000000) ≤ Real.cos (deg2rad 30.1365) ∧
    Real.cos (deg2rad 30.1365) ≤ ((216207940192516039735003448792569578184399499 : ℝ) / 250000000000000000000000000000000000000000000) := by
  have hm : |deg2rad (30.1365 : ℝ) - ((1051962300054542265898331 : ℝ) / 2000000000000000000000000)| ≤ 1 / 10 ^ 20 :=
    deg2rad_near 30.1365 ((1051962300054542265898331 : ℝ) / 2000000000000000000000000) (by norm_num) (by norm_num) (by norm_num)
  have h10 : ((15624997938750849757782339144655178689154433 : ℝ) / 15625000000000000000000000000000000000000000) ≤ Real.cos ((1051962300054542265898331 : ℝ) / 2048000000000000000000000000) ∧
      Real.cos ((1051962300054542265898331 : ℝ) / 2048000000000000000000000000) ≤ ((199999973616012327138871826016582895941310253 : ℝ) / 200000000000000000000000000000000000000000000) :=
    cos_init_bounds ((1051962300054542265898331 : ℝ) / 2048000000000000000000000000) ((15624997938750849757782339144655178689154433 : ℝ) / 15625000000000000000000000000000000000000000) ((199999973616012327138871826016582895941310253 : ℝ) / 200000000000000000000000000000000000000000000)
      (by norm_num) (by norm_num) (by norm_num) (by norm_num)
  have h9 : ((199999894464050468747276243001130186901164899 : ℝ) / 200000000000000000000000000000000000000000000) ≤ Real.cos ((1051962300054542265898331 : ℝ) / 1024000000000000000000000000) ∧
      Real.cos ((1051962300054542265898331 : ℝ) / 1024000000000000000000000000) ≤ ((499999736160140674258856302365074897469046127 : ℝ) / 500000000000000000000000000000000000000000000) :=
    cos_double_bounds ((1051962300054542265898331 : ℝ) / 2048000000000000000000000000) ((1051962300054542265898331 : ℝ) / 1024000000000000000000000000) ((15624997938750849757782339144655178689154433 : ℝ) / 15625000000000000000000000000000000000000000) ((199999973616012327138871826016582895941310253 : ℝ) / 200000000000000000000000000000000000000000000)
      ((199999894464050468747276243001130186901164899 : ℝ) / 200000000000000000000000000000000000000000000) ((499999736160140674258856302365074897469046127 : ℝ) / 500000000000000000000000000000000000000000000)
      (by norm_num) h10 (by norm_num) (by norm_num) (by norm_num)
  have h8 : ((999997889281566266777698016122768182960024771 : ℝ) / 1000000000000000000000000000000000000000000000) ≤ Real.cos ((1051962300054542265898331 : ℝ) / 512000000000000000000000000) ∧
      Real.cos ((1051962300054542265898331 : ℝ) / 512000000000000000000000000) ≤ ((999997889281682285841802633928226961890309 : ℝ) / 1000000000000000000000000000000000000000000) :=
    cos_double_bounds ((1051962300054542265898331 : ℝ) / 1024000000000000000000000000) ((1051962300054542265898331 : ℝ) / 512000000000000000000000000) ((199999894464050468747276243001130186901164899 : ℝ) / 200000000000000000000000000000000000000000000) ((499999736160140674258856302365074897469046127 : ℝ) / 500000000000000000000000000000000000000000000)
      ((999997889281566266777698016122768182960024771 : ℝ) / 1000000000000000000000000000000000000000000000) ((999997889281682285841802633928226961890309 : ℝ) / 1000000000000000000000000000000000000000000)
      (by norm_num) h9 (by norm_num) (by norm_num) (by norm_num)
  have h7 : ((999991557135175331723794518783284210296373117 : ℝ) / 1000000000000000000000000000000000000000000000) ≤ Real.cos ((1051962300054542265898331 : ℝ) / 256000000000000000000000000) ∧
      Real.cos ((1051962300054542265898331 : ℝ) / 256000000000000000000000000) ≤ ((499995778567819703500339353922796483402859567 : ℝ) / 500000000000000000000000000000000000000000000) :=
    cos_double_bounds ((1051962300054542265898331 : ℝ) / 512000000000000000000000000) ((1051962300054542265898331 : ℝ) / 256000000000000000000000000) ((999997889281566266777698016122768182960024771 : ℝ) / 1000000000000000000000000000000000000000000000) ((999997889281682285841802633928226961890309 : ℝ) / 1000000000000000000000000000000000000000000)
      ((999991557135175331723794518783284210296373117 : ℝ) / 1000000000000000000000000000000000000000000000) ((499995778567819703500339353922796483402859567 : ℝ) / 500000000000000000000000000000000000000000000)
      (by norm_num) h8 (by norm_num) (by norm_num) (by norm_num)
  have h6 : ((999966228683265259790419839757924269768963991 : ℝ) / 1000000000000000000000000000000000000000000000) ≤ Real.cos ((1051962300054542265898331 : ℝ) / 128000000000000000000000000) ∧
      Real.cos ((1051962300054542265898331 : ℝ) / 128000000000000000000000000) ≤ ((199993245737024309045091540384808408395202481 : ℝ) / 200000000000000000000000000000000000000000000) :=
    cos_double_bounds ((1051962300054542265898331 : ℝ) / 256000000000000000000000000) ((1051962300054542265898331 : ℝ) / 128000000000000000000000000) ((999991557135175331723794518783284210296373117 : ℝ) / 1000000000000000000000000000000000000000000000) ((499995778567819703500339353922796483402859567 : ℝ) / 500000000000000000000000000000000000000000000)
      ((999966228683265259790419839757924269768963991 : ℝ) / 1000000000000000000000000000000000000000000000) ((199993245737024309045091540384808408395202481 : ℝ) / 200000000000000000000000000000000000000000000)
      (by norm_num) h7 (by norm_num) (by norm_num) (by norm_num)
  have h5 : ((499932458507032353578983810634661844987687477 : ℝ) / 500000000000000000000000000000000000000000000) ≤ Real.cos ((1051962300054542265898331 : ℝ) / 64000000000000000000000000) ∧
      Real.cos ((1051962300054542265898331 : ℝ) / 64000000000000000000000000) ≤ ((999864917021489598141312454530368419311742141 : ℝ) / 1000000000000000000000000000000000000000000000) :=
    cos_double_bounds ((1051962300054542265898331 : ℝ) / 128000000000000000000000000) ((1051962300054542265898331 : ℝ) / 64000000000000000000000000) ((999966228683265259790419839757924269768963991 : ℝ) / 1000000000000000000000000000000000000000000000) ((199993245737024309045091540384808408395202481 : ℝ) / 200000000000000000000000000000000000000000000)
      ((499932458507032353578983810634661844987687477 : ℝ) / 500000000000000000000000000000000000000000000) ((999864917021489598141312454530368419311742141 : ℝ) / 1000000000000000000000000000000000000000000000)
      (by norm_num) h6 (by norm_num) (by norm_num) (by norm_num)
  have h4 : ((999459704551085007020918038091437834977915603 : ℝ) / 1000000000000000000000000000000000000000000000) ≤ Real.cos ((1051962300054542265898331 : ℝ) / 32000000000000000000000000) ∧
      Real.cos ((1051962300054542265898331 : ℝ) / 32000000000000000000000000) ≤ ((124932463072597569881078816517105321702395877 : ℝ) / 125000000000000000000000000000000000000000000) :=
    cos_double_bounds ((1051962300054542265898331 : ℝ) / 64000000000000000000000000) ((1051962300054542265898331 : ℝ) / 32000000000000000000000000) ((499932458507032353578983810634661844987687477 : ℝ) / 500000000000000000000000000000000000000000000) ((999864917021489598141312454530368419311742141 : ℝ) / 1000000000000000000000000000000000000000000000)
      ((999459704551085007020918038091437834977915603 : ℝ) / 1000000000000000000000000000000000000000000000) ((124932463072597569881078816517105321702395877 : ℝ) / 125000000000000000000000000000000000000000000)
      (by norm_num) h5 (by norm_num) (by norm_num) (by norm_num)
  have h3 : ((249459850510671066147812006640751825149693443 : ℝ) / 250000000000000000000000000000000000000000000) ≤ Real.cos ((1051962300054542265898331 : ℝ) / 16000000000000000000000000) ∧
      Real.cos ((1051962300054542265898331 : ℝ) / 16000000000000000000000000) ≤ ((498919701080701147608703644278542148528192467 : ℝ) / 500000000000000000000000000000000000000000000) :=
    cos_double_bounds ((1051962300054542265898331 : ℝ) / 32000000000000000000000000) ((1051962300054542265898331 : ℝ) / 16000000000000000000000000) ((999459704551085007020918038091437834977915603 : ℝ) / 1000000000000000000000000000000000000000000000) ((124932463072597569881078816517105321702395877 : ℝ) / 125000000000000000000000000000000000000000000)
      ((249459850510671066147812006640751825149693443 : ℝ) / 250000000000000000000000000000000000000000000) ((498919701080701147608703644278542148528192467 : ℝ) / 500000000000000000000000000000000000000000000)
      (by norm_num) h4 (by norm_num) (by norm_num) (by norm_num)
  have h2 : ((991366944537803372221806713924636620724784773 : ℝ) / 1000000000000000000000000000000000000000000000) ≤ Real.cos ((1051962300054542265898331 : ℝ) / 8000000000000000000000000) ∧
      Real.cos ((1051962300054542265898331 : ℝ) / 8000000000000000000000000) ≤ ((495683472505824743508380998509931971369614223 : ℝ) / 500000000000000000000000000000000000000000000) :=
    cos_double_bounds ((1051962300054542265898331 : ℝ) / 16000000000000000000000000) ((1051962300054542265898331 : ℝ) / 8000000000000000000000000) ((249459850510671066147812006640751825149693443 : ℝ) / 250000000000000000000000000000000000000000000) ((498919701080701147608703644278542148528192467 : ℝ) / 500000000000000000000000000000000000000000000)
      ((991366944537803372221806713924636620724784773 : ℝ) / 1000000000000000000000000000000000000000000000) ((495683472505824743508380998509931971369614223 : ℝ) / 500000000000000000000000000000000000000000000)
      (by norm_num) h3 (by norm_num) (by norm_num) (by norm_num)
  have h1 : ((241404209361110053737043245728722843703924983 : ℝ) / 250000000000000000000000000000000000000000000) ≤ Real.cos ((1051962300054542265898331 : ℝ) / 4000000000000000000000000) ∧
      Real.cos ((1051962300054542265898331 : ℝ) / 4000000000000000000000000) ≤ ((965616839323461715418769440206233897582245049 : ℝ) / 1000000000000000000000000000000000000000000000) :=
    cos_double_bounds ((1051962300054542265898331 : ℝ) / 8000000000000000000000000) ((1051962300054542265898331 : ℝ) / 4000000000000000000000000) ((991366944537803372221806713924636620724784773 : ℝ) / 1000000000000000000000000000000000000000000000) ((495683472505824743508380998509931971369614223 : ℝ) / 500000000000000000000000000000000000000000000)
      ((241404209361110053737043245728722843703924983 : ℝ) / 250000000000000000000000000000000000000000000) ((965616839323461715418769440206233897582245049 : ℝ) / 1000000000000000000000000000000000000000000000)
      (by norm_num) h2 (by norm_num) (by norm_num) (by norm_num)
  have h0 : ((864831753512404956770473868090886205733385181 : ℝ) / 1000000000000000000000000000000000000000000000) ≤ Real.cos ((1051962300054542265898331 : ℝ) / 2000000000000000000000000) ∧
      Real.cos ((1051962300054542265898331 : ℝ) / 2000000000000000000000000) ≤ ((216207940192516039732503448792569578184399499 : ℝ) / 250000000000000000000000000000000000000000000) :=
    cos_double_bounds ((1051962300054542265898331 : ℝ) / 4000000000000000000000000) ((1051962300054542265898331 : ℝ) / 2000000000000000000000000) ((241404209361110053737043245728722843703924983 : ℝ) / 250000000000000000000000000000000000000000000) ((965616839323461715418769440206233897582245049 : ℝ) / 1000000000000000000000000000000000000000000000)
      ((864831753512404956770473868090886205733385181 : ℝ) / 1000000000000000000000000000000000000000000000) ((216207940192516039732503448792569578184399499 : ℝ) / 250000000000000000000000000000000000000000000)
      (by norm_num) h1 (by norm_num) (by norm_num) (by norm_num)
  exact cos_near_bounds (deg2rad 30.1365) ((1051962300054542265898331 : ℝ) / 2000000000000000000000000) ((864831753512404956770473868090886205733385181 : ℝ) / 1000000000000000000000000000000000000000000000) ((216207940192516039732503448792569578184399499 : ℝ) / 250000000000000000000000000000000000000000000)
    ((864831753512404956760473868090886205733385181 : ℝ) / 1000000000000000000000000000000000000000000000) ((216207940192516039735003448792569578184399499 : ℝ) / 250000000000000000000000000000000000000000000) (1 / 10 ^ 20) hm h0 (by norm_num) (by norm_num)

lemma cosDeg_32_8265 :
    ((420157978899769124209616722122460813674218417 : ℝ) / 500000000000000000000000000000000000000000000) ≤ Real.cos (deg2rad 32.8265) ∧
    Real.cos (deg2rad 32.8265) ≤ ((840315967927257704950340253222623645465921889 : ℝ) / 1000000000000000000000000000000000000000000000) := by
  have hm : |deg2rad (32.8265 : ℝ) - ((10312749124306534774230719 : ℝ) / 18000000000000000000000000)| ≤ 1 / 10 ^ 20 :=
    deg2rad_near 32.8265 ((10312749124306534774230719 : ℝ) / 18000000000000000000000000) (by norm_num) (by norm_num) (by norm_num)
  have h10 : ((199999968695700030590077207929434313848206219 : ℝ) / 200000000000000000000000000000000000000000000) ≤ Real.cos ((10312749124306534774230719 : ℝ) / 18432000000000000000000000000) ∧
      Real.cos ((10312749124306534774230719 : ℝ) / 18432000000000000000000000000) ≤ ((249999960869627590214504490429035407143714621 : ℝ) / 250000000000000000000000000000000000000000000) :=
    cos_init_bounds ((10312749124306534774230719 : ℝ) / 18432000000000000000000000000) ((199999968695700030590077207929434313848206219 : ℝ) / 200000000000000000000000000000000000000000000) ((249999960869627590214504490429035407143714621 : ℝ) / 250000000000000000000000000000000000000000000)
      (by norm_num) (by norm_num) (by norm_num) (by norm_num)
  have h9 : ((499999686957024804880686449246669523033122317 : ℝ) / 500000000000000000000000000000000000000000000) ≤ Real.cos ((10312749124306534774230719 : ℝ) / 9216000000000000000000000000) ∧
      Real.cos ((10312749124306534774230719 : ℝ) / 9216000000000000000000000000) ≤ ((999999373914090441385509558926227693023909431 : ℝ) / 1000000000000000000000000000000000000000000000) :=
    cos_double_bounds ((10312749124306534774230719 : ℝ) / 18432000000000000000000000000) ((10312749124306534774230719 : ℝ) / 9216000000000000000000000000) ((199999968695700030590077207929434313848206219 : ℝ) / 200000000000000000000000000000000000000000000) ((249999960869627590214504490429035407143714621 : ℝ) / 250000000000000000000000000000000000000000000)
      ((499999686957024804880686449246669523033122317 : ℝ) / 500000000000000000000000000000000000000000000) ((999999373914090441385509558926227693023909431 : ℝ) / 1000000000000000000000000000000000000000000000)
      (by norm_num) h10 (by norm_num) (by norm_num) (by norm_num)
  have h8 : ((999997495656982406280043690659962926814161359 : ℝ) / 1000000000000000000000000000000000000000000000) ≤ Real.cos ((10312749124306534774230719 : ℝ) / 4608000000000000000000000000) ∧
      Real.cos ((10312749124306534774230719 : ℝ) / 4608000000000000000000000000) ≤ ((499998747828572866337166955455824179164091347 : ℝ) / 500000000000000000000000000000000000000000000) :=
    cos_double_bounds ((10312749124306534774230719 : ℝ) / 9216000000000000000000000000) ((10312749124306534774230719 : ℝ) / 4608000000000000000000000000) ((499999686957024804880686449246669523033122317 : ℝ) / 500000000000000000000000000000000000000000000) ((999999373914090441385509558926227693023909431 : ℝ) / 1000000000000000000000000000000000000000000000)
      ((999997495656982406280043690659962926814161359 : ℝ) / 1000000000000000000000000000000000000000000000) ((499998747828572866337166955455824179164091347 : ℝ) / 500000000000000000000000000000000000000000000)
      (by norm_num) h9 (by norm_num) (by norm_num) (by norm_num)
  have h7 : ((999989982640473093019715600925104077284576381 : ℝ) / 1000000000000000000000000000000000000000000000) ≤ Real.cos ((10312749124306534774230719 : ℝ) / 2304000000000000000000000000) ∧
      Real.cos ((10312749124306534774230719 : ℝ) / 2304000000000000000000000000) ≤ ((499994991320563198480387637382490176749732283 : ℝ) / 500000000000000000000000000000000000000000000) :=
    cos_double_bounds ((10312749124306534774230719 : ℝ) / 4608000000000000000000000000) ((10312749124306534774230719 : ℝ) / 2304000000000000000000000000) ((999997495656982406280043690659962926814161359 : ℝ) / 1000000000000000000000000000000000000000000000) ((499998747828572866337166955455824179164091347 : ℝ) / 500000000000000000000000000000000000000000000)
      ((999989982640473093019715600925104077284576381 : ℝ) / 1000000000000000000000000000000000000000000000) ((499994991320563198480387637382490176749732283 : ℝ) / 500000000000000000000000000000000000000000000)
      (by norm_num) h8 (by norm_num) (by norm_num) (by norm_num)
  have h6 : ((199991986152517471172298096684267716797583653 : ℝ) / 200000000000000000000000000000000000000000000) ≤ Real.cos ((10312749124306534774230719 : ℝ) / 1152000000000000000000000000) ∧
      Real.cos ((10312749124306534774230719 : ℝ) / 1152000000000000000000000000) ≤ ((199991986153040109089641640126584444531047499 : ℝ) / 200000000000000000000000000000000000000000000) :=
    cos_double_bounds ((10312749124306534774230719 : ℝ) / 2304000000000000000000000000) ((10312749124306534774230719 : ℝ) / 1152000000000000000000000000) ((999989982640473093019715600925104077284576381 : ℝ) / 1000000000000000000000000000000000000000000000) ((499994991320563198480387637382490176749732283 : ℝ) / 500000000000000000000000000000000000000000000)
      ((199991986152517471172298096684267716797583653 : ℝ) / 200000000000000000000000000000000000000000000) ((199991986153040109089641640126584444531047499 : ℝ) / 200000000000000000000000000000000000000000000)
      (by norm_num) h7 (by norm_num) (by norm_num) (by norm_num)
  have h5 : ((999839726261436997107643404630310611727562947 : ℝ) / 1000000000000000000000000000000000000000000000) ≤ Real.cos ((10312749124306534774230719 : ℝ) / 576000000000000000000000000) ∧
      Real.cos ((10312749124306534774230719 : ℝ) / 576000000000000000000000000) ≤ ((9998397262718893366204721132297621338400097 : ℝ) / 10000000000000000000000000000000000000000000) :=
    cos_double_bounds ((10312749124306534774230719 : ℝ) / 1152000000000000000000000000) ((10312749124306534774230719 : ℝ) / 576000000000000000000000000) ((199991986152517471172298096684267716797583653 : ℝ) / 200000000000000000000000000000000000000000000) ((199991986153040109089641640126584444531047499 : ℝ) / 200000000000000000000000000000000000000000000)
      ((999839726261436997107643404630310611727562947 : ℝ) / 1000000000000000000000000000000000000000000000) ((9998397262718893366204721132297621338400097 : ℝ) / 10000000000000000000000000000000000000000000)
      (by norm_num) h6 (by norm_num) (by norm_num) (by norm_num)
  have h4 : ((199871791284218106870834900735686293027021421 : ℝ) / 200000000000000000000000000000000000000000000) ≤ Real.cos ((10312749124306534774230719 : ℝ) / 288000000000000000000000000) ∧
      Real.cos ((10312749124306534774230719 : ℝ) / 288000000000000000000000000) ≤ ((24983973911572329786589650936624654600882029 : ℝ) / 25000000000000000000000000000000000000000000) :=
    cos_double_bounds ((10312749124306534774230719 : ℝ) / 576000000000000000000000000) ((10312749124306534774230719 : ℝ) / 288000000000000000000000000) ((999839726261436997107643404630310611727562947 : ℝ) / 1000000000000000000000000000000000000000000000) ((9998397262718893366204721132297621338400097 : ℝ) / 10000000000000000000000000000000000000000000)
      ((199871791284218106870834900735686293027021421 : ℝ) / 200000000000000000000000000000000000000000000) ((24983973911572329786589650936624654600882029 : ℝ) / 25000000000000000000000000000000000000000000)
      (by norm_num) h5 (by norm_num) (by norm_num) (by norm_num)
  have h3 : ((997436647558102259529314341196950150643305979 : ℝ) / 1000000000000000000000000000000000000000000000) ≤ Real.cos ((10312749124306534774230719 : ℝ) / 144000000000000000000000000) ∧
      Real.cos ((10312749124306534774230719 : ℝ) / 144000000000000000000000000) ≤ ((12467958096565071233384625388442877011229573 : ℝ) / 12500000000000000000000000000000000000000000) :=
    cos_double_bounds ((10312749124306534774230719 : ℝ) / 288000000000000000000000000) ((10312749124306534774230719 : ℝ) / 144000000000000000000000000) ((199871791284218106870834900735686293027021421 : ℝ) / 200000000000000000000000000000000000000000000) ((24983973911572329786589650936624654600882029 : ℝ) / 25000000000000000000000000000000000000000000)
      ((997436647558102259529314341196950150643305979 : ℝ) / 1000000000000000000000000000000000000000000000) ((12467958096565071233384625388442877011229573 : ℝ) / 12500000000000000000000000000000000000000000)
      (by norm_num) h4 (by norm_num) (by norm_num) (by norm_num)
  have h2 : ((19795194635677836086702572859069039605360439 : ℝ) / 20000000000000000000000000000000000000000000) ≤ Real.cos ((10312749124306534774230719 : ℝ) / 72000000000000000000000000) ∧
      Real.cos ((10312749124306534774230719 : ℝ) / 72000000000000000000000000) ≤ ((989759732450592180921707477584970858310567077 : ℝ) / 1000000000000000000000000000000000000000000000) :=
    cos_double_bounds ((10312749124306534774230719 : ℝ) / 144000000000000000000000000) ((10312749124306534774230719 : ℝ) / 72000000000000000000000000) ((997436647558102259529314341196950150643305979 : ℝ) / 1000000000000000000000000000000000000000000000) ((12467958096565071233384625388442877011229573 : ℝ) / 12500000000000000000000000000000000000000000)
      ((19795194635677836086702572859069039605360439 : ℝ) / 20000000000000000000000000000000000000000000) ((989759732450592180921707477584970858310567077 : ℝ) / 1000000000000000000000000000000000000000000000)
      (by norm_num) h3 (by norm_num) (by norm_num) (by norm_num)
  have h1 : ((95924865332184288879633895980758192825801471 : ℝ) / 100000000000000000000000000000000000000000000) ≤ Real.cos ((10312749124306534774230719 : ℝ) / 36000000000000000000000000) ∧
      Real.cos ((10312749124306534774230719 : ℝ) / 36000000000000000000000000) ≤ ((479624327980667816663762725501574292042724669 : ℝ) / 500000000000000000000000000000000000000000000) :=
    cos_double_bounds ((10312749124306534774230719 : ℝ) / 72000000000000000000000000) ((10312749124306534774230719 : ℝ) / 36000000000000000000000000) ((19795194635677836086702572859069039605360439 : ℝ) / 20000000000000000000000000000000000000000000) ((989759732450592180921707477584970858310567077 : ℝ) / 1000000000000000000000000000000000000000000000)
      ((95924865332184288879633895980758192825801471 : ℝ) / 100000000000000000000000000000000000000000000) ((479624327980667816663762725501574292042724669 : ℝ) / 500000000000000000000000000000000000000000000)
      (by norm_num) h2 (by norm_num) (by norm_num) (by norm_num)
  have h0 : ((420157978899769124214616722122460813674218417 : ℝ) / 500000000000000000000000000000000000000000000) ≤ Real.cos ((10312749124306534774230719 : ℝ) / 18000000000000000000000000) ∧
      Real.cos ((10312749124306534774230719 : ℝ) / 18000000000000000000000000) ≤ ((840315967927257704940340253222623645465921889 : ℝ) / 1000000000000000000000000000000000000000000000) :=
    cos_double_bounds ((10312749124306534774230719 : ℝ) / 36000000000000000000000000) ((10312749124306534774230719 : ℝ) / 18000000000000000000000000) ((95924865332184288879633895980758192825801471 : ℝ) / 100000000000000000000000000000000000000000000) ((479624327980667816663762725501574292042724669 : ℝ) / 500000000000000000000000000000000000000000000)
      ((420157978899769124214616722122460813674218417 : ℝ) / 500000000000000000000000000000000000000000000) ((840315967927257704940340253222623645465921889 : ℝ) / 1000000000000000000000000000000000000000000000)
      (by norm_num) h1 (by norm_num) (by norm_num) (by norm_num)
  exact cos_near_bounds (deg2rad 32.8265) ((10312749124306534774230719 : ℝ) / 18000000000000000000000000) ((420157978899769124214616722122460813674218417 : ℝ) / 500000000000000000000000000000000000000000000) ((840315967927257704940340253222623645465921889 : ℝ) / 1000000000000000000000000000000000000000000000)
    ((420157978899769124209616722122460813674218417 : ℝ) / 500000000000000000000000000000000000000000000) ((840315967927257704950340253222623645465921889 : ℝ) / 1000000000000000000000000000000000000000000000) (1 / 10 ^ 20) hm h0 (by norm_num) (by norm_num)

lemma cosDeg_32_8275 :
    ((420153248147135504540193064520630287193581393 : ℝ) / 500000000000000000000000000000000000000000000) ≤ Real.cos (deg2rad 32.8275) ∧
    Real.cos (deg2rad 32.8275) ≤ ((210076626605797521990345423153344201554254759 : ℝ) / 250000000000000000000000000000000000000000000) := by
  have hm : |deg2rad (32.8275 : ℝ) - ((229179184079375416745657 : ℝ) / 400000000000000000000000)| ≤ 1 / 10 ^ 20 :=
    deg2rad_near 32.8275 ((229179184079375416745657 : ℝ) / 400000000000000000000000) (by norm_num) (by norm_num) (by norm_num)
  have h10 : ((999999843468963718117326807846114004854325563 : ℝ) / 1000000000000000000000000000000000000000000000) ≤ Real.cos ((229179184079375416745657 : ℝ) / 409600000000000000000000000) ∧
      Real.cos ((229179184079375416745657 : ℝ) / 409600000000000000000000000) ≤ ((999999843468973927268877404106152739981494083 : ℝ) / 1000000000000000000000000000000000000000000000) :=
    cos_init_bounds ((229179184079375416745657 : ℝ) / 409600000000000000000000000) ((999999843468963718117326807846114004854325563 : ℝ) / 1000000000000000000000000000000000000000000000) ((999999843468973927268877404106152739981494083 : ℝ) / 1000000000000000000000000000000000000000000000)
      (by norm_num) (by norm_num) (by norm_num) (by norm_num)
  have h9 : ((199999874775180775279989238304815160839915829 : ℝ) / 200000000000000000000000000000000000000000000) ≤ Real.cos ((229179184079375416745657 : ℝ) / 204800000000000000000000000) ∧
      Real.cos ((229179184079375416745657 : ℝ) / 204800000000000000000000000) ≤ ((499999686937972356499878190242794903873779621 : ℝ) / 500000000000000000000000000000000000000000000) :=
    cos_double_bounds ((229179184079375416745657 : ℝ) / 409600000000000000000000000) ((229179184079375416745657 : ℝ) / 204800000000000000000000000) ((999999843468963718117326807846114004854325563 : ℝ) / 1000000000000000000000000000000000000000000000) ((999999843468973927268877404106152739981494083 : ℝ) / 1000000000000000000000000000000000000000000000)
      ((199999874775180775279989238304815160839915829 : ℝ) / 200000000000000000000000000000000000000000000) ((499999686937972356499878190242794903873779621 : ℝ) / 500000000000000000000000000000000000000000000)
      (by norm_num) h10 (by norm_num) (by norm_num) (by norm_num)
  have h8 : ((124999686938049946045909744552019913015702367 : ℝ) / 125000000000000000000000000000000000000000000) ≤ Real.cos ((229179184079375416745657 : ℝ) / 102400000000000000000000000) ∧
      Real.cos ((229179184079375416745657 : ℝ) / 102400000000000000000000000) ≤ ((199999499100912582932848719803561624445694863 : ℝ) / 200000000000000000000000000000000000000000000) :=
    cos_double_bounds ((229179184079375416745657 : ℝ) / 204800000000000000000000000) ((229179184079375416745657 : ℝ) / 102400000000000000000000000) ((199999874775180775279989238304815160839915829 : ℝ) / 200000000000000000000000000000000000000000000) ((499999686937972356499878190242794903873779621 : ℝ) / 500000000000000000000000000000000000000000000)
      ((124999686938049946045909744552019913015702367 : ℝ) / 125000000000000000000000000000000000000000000) ((199999499100912582932848719803561624445694863 : ℝ) / 200000000000000000000000000000000000000000000)
      (by norm_num) h9 (by norm_num) (by norm_num) (by norm_num)
  have h7 : ((249997495507535817473568658669426636266242231 : ℝ) / 250000000000000000000000000000000000000000000) ≤ Real.cos ((229179184079375416745657 : ℝ) / 51200000000000000000000000) ∧
      Real.cos ((229179184079375416745657 : ℝ) / 51200000000000000000000000) ≤ ((199997996406159330689147386011864773412808573 : ℝ) / 200000000000000000000000000000000000000000000) :=
    cos_double_bounds ((229179184079375416745657 : ℝ) / 102400000000000000000000000) ((229179184079375416745657 : ℝ) / 51200000000000000000000000) ((124999686938049946045909744552019913015702367 : ℝ) / 125000000000000000000000000000000000000000000) ((199999499100912582932848719803561624445694863 : ℝ) / 200000000000000000000000000000000000000000000)
      ((249997495507535817473568658669426636266242231 : ℝ) / 250000000000000000000000000000000000000000000) ((199997996406159330689147386011864773412808573 : ℝ) / 200000000000000000000000000000000000000000000)
      (by norm_num) h8 (by norm_num) (by norm_num) (by norm_num)
  have h6 : ((999959928321292519677804568777503542294523443 : ℝ) / 1000000000000000000000000000000000000000000000) ≤ Real.cos ((229179184079375416745657 : ℝ) / 25600000000000000000000000) ∧
      Real.cos ((229179184079375416745657 : ℝ) / 25600000000000000000000000) ≤ ((499979964161953013850673855196973885842411179 : ℝ) / 500000000000000000000000000000000000000000000) :=
    cos_double_bounds ((229179184079375416745657 : ℝ) / 51200000000000000000000000) ((229179184079375416745657 : ℝ) / 25600000000000000000000000) ((249997495507535817473568658669426636266242231 : ℝ) / 250000000000000000000000000000000000000000000) ((199997996406159330689147386011864773412808573 : ℝ) / 200000000000000000000000000000000000000000000)
      ((999959928321292519677804568777503542294523443 : ℝ) / 1000000000000000000000000000000000000000000000) ((499979964161953013850673855196973885842411179 : ℝ) / 500000000000000000000000000000000000000000000)
      (by norm_num) h7 (by norm_num) (by norm_num) (by norm_num)
  have h5 : ((249959929124162236895570481393279708194518997 : ℝ) / 250000000000000000000000000000000000000000000) ≤ Real.cos ((229179184079375416745657 : ℝ) / 12800000000000000000000000) ∧
      Real.cos ((229179184079375416745657 : ℝ) / 12800000000000000000000000) ≤ ((249959929126775640191463219379129980574909937 : ℝ) / 250000000000000000000000000000000000000000000) :=
    cos_double_bounds ((229179184079375416745657 : ℝ) / 25600000000000000000000000) ((229179184079375416745657 : ℝ) / 12800000000000000000000000) ((999959928321292519677804568777503542294523443 : ℝ) / 1000000000000000000000000000000000000000000000) ((499979964161953013850673855196973885842411179 : ℝ) / 500000000000000000000000000000000000000000000)
      ((249959929124162236895570481393279708194518997 : ℝ) / 250000000000000000000000000000000000000000000) ((249959929126775640191463219379129980574909937 : ℝ) / 250000000000000000000000000000000000000000000)
      (by norm_num) h6 (by norm_num) (by norm_num) (by norm_num)
  have h4 : ((249839729342049670825697735664254380861630947 : ℝ) / 250000000000000000000000000000000000000000000) ≤ Real.cos ((229179184079375416745657 : ℝ) / 6400000000000000000000000) ∧
      Real.cos ((229179184079375416745657 : ℝ) / 6400000000000000000000000) ≤ ((99935891741000643387031834848617127794269153 : ℝ) / 100000000000000000000000000000000000000000000) :=
    cos_double_bounds ((229179184079375416745657 : ℝ) / 12800000000000000000000000) ((229179184079375416745657 : ℝ) / 6400000000000000000000000) ((249959929124162236895570481393279708194518997 : ℝ) / 250000000000000000000000000000000000000000000) ((249959929126775640191463219379129980574909937 : ℝ) / 250000000000000000000000000000000000000000000)
      ((249839729342049670825697735664254380861630947 : ℝ) / 250000000000000000000000000000000000000000000) ((99935891741000643387031834848617127794269153 : ℝ) / 100000000000000000000000000000000000000000000)
      (by norm_num) h5 (by norm_num) (by norm_num) (by norm_num)
  have h3 : ((498718245723338163908176549448161211076047341 : ℝ) / 500000000000000000000000000000000000000000000) ≤ Real.cos ((229179184079375416745657 : ℝ) / 3200000000000000000000000) ∧
      Real.cos ((229179184079375416745657 : ℝ) / 3200000000000000000000000) ≤ ((49871824580690006059945220219179316863461449 : ℝ) / 50000000000000000000000000000000000000000000) :=
    cos_double_bounds ((229179184079375416745657 : ℝ) / 6400000000000000000000000) ((229179184079375416745657 : ℝ) / 3200000000000000000000000) ((249839729342049670825697735664254380861630947 : ℝ) / 250000000000000000000000000000000000000000000) ((99935891741000643387031834848617127794269153 : ℝ) / 100000000000000000000000000000000000000000000)
      ((498718245723338163908176549448161211076047341 : ℝ) / 500000000000000000000000000000000000000000000) ((49871824580690006059945220219179316863461449 : ℝ) / 50000000000000000000000000000000000000000000)
      (by norm_num) h4 (by norm_num) (by norm_num) (by norm_num)
  have h2 : ((989759108938911238518675193183499512557196929 : ℝ) / 1000000000000000000000000000000000000000000000) ≤ Real.cos ((229179184079375416745657 : ℝ) / 1600000000000000000000000) ∧
      Real.cos ((229179184079375416745657 : ℝ) / 1600000000000000000000000) ≤ ((494879554802846359504770433089408484478443963 : ℝ) / 500000000000000000000000000000000000000000000) :=
    cos_double_bounds ((229179184079375416745657 : ℝ) / 3200000000000000000000000) ((229179184079375416745657 : ℝ) / 1600000000000000000000000) ((498718245723338163908176549448161211076047341 : ℝ) / 500000000000000000000000000000000000000000000) ((49871824580690006059945220219179316863461449 : ℝ) / 50000000000000000000000000000000000000000000)
      ((989759108938911238518675193183499512557196929 : ℝ) / 1000000000000000000000000000000000000000000000) ((494879554802846359504770433089408484478443963 : ℝ) / 500000000000000000000000000000000000000000000)
      (by norm_num) h3 (by norm_num) (by norm_num) (by norm_num)
  have h1 : ((959246187455095129472785429821457791013466791 : ℝ) / 1000000000000000000000000000000000000000000000) ≤ Real.cos ((229179184079375416745657 : ℝ) / 800000000000000000000000) ∧
      Real.cos ((229179184079375416745657 : ℝ) / 800000000000000000000000) ≤ ((959246190094907306312409460555277726185433429 : ℝ) / 1000000000000000000000000000000000000000000000) :=
    cos_double_bounds ((229179184079375416745657 : ℝ) / 1600000000000000000000000) ((229179184079375416745657 : ℝ) / 800000000000000000000000) ((989759108938911238518675193183499512557196929 : ℝ) / 1000000000000000000000000000000000000000000000) ((494879554802846359504770433089408484478443963 : ℝ) / 500000000000000000000000000000000000000000000)
      ((959246187455095129472785429821457791013466791 : ℝ) / 1000000000000000000000000000000000000000000000) ((959246190094907306312409460555277726185433429 : ℝ) / 1000000000000000000000000000000000000000000000)
      (by norm_num) h2 (by norm_num) (by norm_num) (by norm_num)
  have h0 : ((420153248147135504545193064520630287193581393 : ℝ) / 500000000000000000000000000000000000000000000) ≤ Real.cos ((229179184079375416745657 : ℝ) / 400000000000000000000000) ∧
      Real.cos ((229179184079375416745657 : ℝ) / 400000000000000000000000) ≤ ((210076626605797521987845423153344201554254759 : ℝ) / 250000000000000000000000000000000000000000000) :=
    cos_double_bounds ((229179184079375416745657 : ℝ) / 800000000000000000000000) ((229179184079375416745657 : ℝ) / 400000000000000000000000) ((959246187455095129472785429821457791013466791 : ℝ) / 1000000000000000000000000000000000000000000000) ((959246190094907306312409460555277726185433429 : ℝ) / 1000000000000000000000000000000000000000000000)
      ((420153248147135504545193064520630287193581393 : ℝ) / 500000000000000000000000000000000000000000000) ((210076626605797521987845423153344201554254759 : ℝ) / 250000000000000000000000000000000000000000000)
      (by norm_num) h1 (by norm_num) (by norm_num) (by norm_num)
  exact cos_near_bounds (deg2rad 32.8275) ((229179184079375416745657 : ℝ) / 400000000000000000000000) ((420153248147135504545193064520630287193581393 : ℝ) / 500000000000000000000000000000000000000000000) ((210076626605797521987845423153344201554254759 : ℝ) / 250000000000000000000000000000000000000000000)
    ((420153248147135504540193064520630287193581393 : ℝ) / 500000000000000000000000000000000000000000000) ((210076626605797521990345423153344201554254759 : ℝ) / 250000000000000000000000000000000000000000000) (1 / 10 ^ 20) hm h0 (by norm_num) (by norm_num)

lemma cosDeg_25_4865 :
    ((22567167317400452801420166698638701637936599 : ℝ) / 25000000000000000000000000000000000000000000) ≤ Real.cos (deg2rad 25.4865) ∧
    Real.cos (deg2rad 25.4865) ≤ ((45134334822919324820753062835003345189816613 : ℝ) / 50000000000000000000000000000000000000000000) := by
  have hm : |deg2rad (25.4865 : ℝ) - ((2668940038857208845733693 : ℝ) / 6000000000000000000000000)| ≤ 1 / 10 ^ 20 :=
    deg2rad_near 25.4865 ((2668940038857208845733693 : ℝ) / 6000000000000000000000000) (by norm_num) (by norm_num) (by norm_num)
  have h10 : ((31249997051539904941951954671008675691053013 : ℝ) / 31250000000000000000000000000000000000000000) ≤ Real.cos ((2668940038857208845733693 : ℝ) / 6144000000000000000000000000) ∧
      Real.cos ((2668940038857208845733693 : ℝ) / 6144000000000000000000000000) ≤ ((124999988206160083416692639332478513053271599 : ℝ) / 125000000000000000000000000000000000000000000) :=
    cos_init_bounds ((2668940038857208845733693 : ℝ) / 6144000000000000000000000000) ((31249997051539904941951954671008675691053013 : ℝ) / 31250000000000000000000000000000000000000000) ((124999988206160083416692639332478513053271599 : ℝ) / 125000000000000000000000000000000000000000000)
      (by norm_num) (by norm_num) (by norm_num) (by norm_num)
  have h9 : ((15624994103080088073245738132856247187984689 : ℝ) / 15625000000000000000000000000000000000000000) ≤ Real.cos ((2668940038857208845733693 : ℝ) / 3072000000000000000000000000) ∧
      Real.cos ((2668940038857208845733693 : ℝ) / 3072000000000000000000000000) ≤ ((249999905649285118362660410459966453696384379 : ℝ) / 250000000000000000000000000000000000000000000) :=
    cos_double_bounds ((2668940038857208845733693 : ℝ) / 6144000000000000000000000000) ((2668940038857208845733693 : ℝ) / 3072000000000000000000000000) ((31249997051539904941951954671008675691053013 : ℝ) / 31250000000000000000000000000000000000000000) ((124999988206160083416692639332478513053271599 : ℝ) / 125000000000000000000000000000000000000000000)
      ((15624994103080088073245738132856247187984689 : ℝ) / 15625000000000000000000000000000000000000000) ((249999905649285118362660410459966453696384379 : ℝ) / 250000000000000000000000000000000000000000000)
      (by norm_num) h10 (by norm_num) (by norm_num) (by norm_num)
  have h8 : ((999998490388787412610064342147058896355727221 : ℝ) / 1000000000000000000000000000000000000000000000) ≤ Real.cos ((2668940038857208845733693 : ℝ) / 1536000000000000000000000000) ∧
      Real.cos ((2668940038857208845733693 : ℝ) / 1536000000000000000000000000) ≤ ((999998490388846759639324200055013708318210139 : ℝ) / 1000000000000000000000000000000000000000000000) :=
    cos_double_bounds ((2668940038857208845733693 : ℝ) / 3072000000000000000000000000) ((2668940038857208845733693 : ℝ) / 1536000000000000000000000000) ((15624994103080088073245738132856247187984689 : ℝ) / 15625000000000000000000000000000000000000000) ((249999905649285118362660410459966453696384379 : ℝ) / 250000000000000000000000000000000000000000000)
      ((999998490388787412610064342147058896355727221 : ℝ) / 1000000000000000000000000000000000000000000000) ((999998490388846759639324200055013708318210139 : ℝ) / 1000000000000000000000000000000000000000000000)
      (by norm_num) h9 (by norm_num) (by norm_num) (by norm_num)
  have h7 : ((199998792311941500493319301641533170575776421 : ℝ) / 200000000000000000000000000000000000000000000) ≤ Real.cos ((2668940038857208845733693 : ℝ) / 768000000000000000000000000) ∧
      Real.cos ((2668940038857208845733693 : ℝ) / 768000000000000000000000000) ≤ ((999993961559944890225272183665891236374151989 : ℝ) / 1000000000000000000000000000000000000000000000) :=
    cos_double_bounds ((2668940038857208845733693 : ℝ) / 1536000000000000000000000000) ((2668940038857208845733693 : ℝ) / 768000000000000000000000000) ((999998490388787412610064342147058896355727221 : ℝ) / 1000000000000000000000000000000000000000000000) ((999998490388846759639324200055013708318210139 : ℝ) / 1000000000000000000000000000000000000000000000)
      ((199998792311941500493319301641533170575776421 : ℝ) / 200000000000000000000000000000000000000000000) ((999993961559944890225272183665891236374151989 : ℝ) / 1000000000000000000000000000000000000000000000)
      (by norm_num) h8 (by norm_num) (by norm_num) (by norm_num)
  have h6 : ((999975846311755532198501426360201419777951487 : ℝ) / 1000000000000000000000000000000000000000000000) ≤ Real.cos ((2668940038857208845733693 : ℝ) / 384000000000000000000000000) ∧
      Real.cos ((2668940038857208845733693 : ℝ) / 384000000000000000000000000) ≤ ((249993961578176269374849253291870136185206569 : ℝ) / 250000000000000000000000000000000000000000000) :=
    cos_double_bounds ((2668940038857208845733693 : ℝ) / 768000000000000000000000000) ((2668940038857208845733693 : ℝ) / 384000000000000000000000000) ((199998792311941500493319301641533170575776421 : ℝ) / 200000000000000000000000000000000000000000000) ((999993961559944890225272183665891236374151989 : ℝ) / 1000000000000000000000000000000000000000000000)
      ((999975846311755532198501426360201419777951487 : ℝ) / 1000000000000000000000000000000000000000000000) ((249993961578176269374849253291870136185206569 : ℝ) / 250000000000000000000000000000000000000000000)
      (by norm_num) h7 (by norm_num) (by norm_num) (by norm_num)
  have h5 : ((499951693206911720207944919369869090540485991 : ℝ) / 500000000000000000000000000000000000000000000) ≤ Real.cos ((2668940038857208845733693 : ℝ) / 192000000000000000000000000) ∧
      Real.cos ((2668940038857208845733693 : ℝ) / 192000000000000000000000000) ≤ ((999903386417621529879389301915905773986217249 : ℝ) / 1000000000000000000000000000000000000000000000) :=
    cos_double_bounds ((2668940038857208845733693 : ℝ) / 384000000000000000000000000) ((2668940038857208845733693 : ℝ) / 192000000000000000000000000) ((999975846311755532198501426360201419777951487 : ℝ) / 1000000000000000000000000000000000000000000000) ((249993961578176269374849253291870136185206569 : ℝ) / 250000000000000000000000000000000000000000000)
      ((499951693206911720207944919369869090540485991 : ℝ) / 500000000000000000000000000000000000000000000) ((999903386417621529879389301915905773986217249 : ℝ) / 1000000000000000000000000000000000000000000000)
      (by norm_num) h6 (by norm_num) (by norm_num) (by norm_num)
  have h4 : ((999613564323663829454569671510719775324603691 : ℝ) / 1000000000000000000000000000000000000000000000) ≤ Real.cos ((2668940038857208845733693 : ℝ) / 96000000000000000000000000) ∧
      Real.cos ((2668940038857208845733693 : ℝ) / 96000000000000000000000000) ≤ ((999613564338854719520421622829165185619181263 : ℝ) / 1000000000000000000000000000000000000000000000) :=
    cos_double_bounds ((2668940038857208845733693 : ℝ) / 192000000000000000000000000) ((2668940038857208845733693 : ℝ) / 96000000000000000000000000) ((499951693206911720207944919369869090540485991 : ℝ) / 500000000000000000000000000000000000000000000) ((999903386417621529879389301915905773986217249 : ℝ) / 1000000000000000000000000000000000000000000000)
      ((999613564323663829454569671510719775324603691 : ℝ) / 1000000000000000000000000000000000000000000000) ((999613564338854719520421622829165185619181263 : ℝ) / 1000000000000000000000000000000000000000000000)
      (by norm_num) h5 (by norm_num) (by norm_num) (by norm_num)
  have h3 : ((99845455595971920860539881069495295939701969 : ℝ) / 100000000000000000000000000000000000000000000) ≤ Real.cos ((2668940038857208845733693 : ℝ) / 48000000000000000000000000) ∧
      Real.cos ((2668940038857208845733693 : ℝ) / 48000000000000000000000000) ≤ ((31201704875639352739430036206194672217778927 : ℝ) / 31250000000000000000000000000000000000000000) :=
    cos_double_bounds ((2668940038857208845733693 : ℝ) / 96000000000000000000000000) ((2668940038857208845733693 : ℝ) / 48000000000000000000000000) ((999613564323663829454569671510719775324603691 : ℝ) / 1000000000000000000000000000000000000000000000) ((999613564338854719520421622829165185619181263 : ℝ) / 1000000000000000000000000000000000000000000000)
      ((99845455595971920860539881069495295939701969 : ℝ) / 100000000000000000000000000000000000000000000) ((31201704875639352739430036206194672217778927 : ℝ) / 31250000000000000000000000000000000000000000)
      (by norm_num) h4 (by norm_num) (by norm_num) (by norm_num)
  have h2 : ((496911500316720056627172239626089994256480813 : ℝ) / 500000000000000000000000000000000000000000000) ≤ Real.cos ((2668940038857208845733693 : ℝ) / 24000000000000000000000000) ∧
      Real.cos ((2668940038857208845733693 : ℝ) / 24000000000000000000000000) ≤ ((496911500438012473957218614024108349897506829 : ℝ) / 500000000000000000000000000000000000000000000) :=
    cos_double_bounds ((2668940038857208845733693 : ℝ) / 48000000000000000000000000) ((2668940038857208845733693 : ℝ) / 24000000000000000000000000) ((99845455595971920860539881069495295939701969 : ℝ) / 100000000000000000000000000000000000000000000) ((31201704875639352739430036206194672217778927 : ℝ) / 31250000000000000000000000000000000000000000)
      ((496911500316720056627172239626089994256480813 : ℝ) / 500000000000000000000000000000000000000000000) ((496911500438012473957218614024108349897506829 : ℝ) / 500000000000000000000000000000000000000000000)
      (by norm_num) h3 (by norm_num) (by norm_num) (by norm_num)
  have h1 : ((487684156588054707750791163887355305869379333 : ℝ) / 500000000000000000000000000000000000000000000) ≤ Real.cos ((2668940038857208845733693 : ℝ) / 12000000000000000000000000) ∧
      Real.cos ((2668940038857208845733693 : ℝ) / 12000000000000000000000000) ≤ ((195073662828090993755903683179847275515394823 : ℝ) / 200000000000000000000000000000000000000000000) :=
    cos_double_bounds ((2668940038857208845733693 : ℝ) / 24000000000000000000000000) ((2668940038857208845733693 : ℝ) / 12000000000000000000000000) ((496911500316720056627172239626089994256480813 : ℝ) / 500000000000000000000000000000000000000000000) ((496911500438012473957218614024108349897506829 : ℝ) / 500000000000000000000000000000000000000000000)
      ((487684156588054707750791163887355305869379333 : ℝ) / 500000000000000000000000000000000000000000000) ((195073662828090993755903683179847275515394823 : ℝ) / 200000000000000000000000000000000000000000000)
      (by norm_num) h2 (by norm_num) (by norm_num) (by norm_num)
  have h0 : ((22567167317400452801670166698638701637936599 : ℝ) / 25000000000000000000000000000000000000000000) ≤ Real.cos ((2668940038857208845733693 : ℝ) / 6000000000000000000000000) ∧
      Real.cos ((2668940038857208845733693 : ℝ) / 6000000000000000000000000) ≤ ((45134334822919324820253062835003345189816613 : ℝ) / 50000000000000000000000000000000000000000000) :=
    cos_double_bounds ((2668940038857208845733693 : ℝ) / 12000000000000000000000000) ((2668940038857208845733693 : ℝ) / 6000000000000000000000000) ((487684156588054707750791163887355305869379333 : ℝ) / 500000000000000000000000000000000000000000000) ((195073662828090993755903683179847275515394823 : ℝ) / 200000000000000000000000000000000000000000000)
      ((22567167317400452801670166698638701637936599 : ℝ) / 25000000000000000000000000000000000000000000) ((45134334822919324820253062835003345189816613 : ℝ) / 50000000000000000000000000000000000000000000)
      (by norm_num) h1 (by norm_num) (by norm_num) (by norm_num)
  exact cos_near_bounds (deg2rad 25.4865) ((2668940038857208845733693 : ℝ) / 6000000000000000000000000) ((22567167317400452801670166698638701637936599 : ℝ) / 25000000000000000000000000000000000000000000) ((45134334822919324820253062835003345189816613 : ℝ) / 50000000000000000000000000000000000000000000)
    ((22567167317400452801420166698638701637936599 : ℝ) / 25000000000000000000000000000000000000000000) ((45134334822919324820753062835003345189816613 : ℝ) / 50000000000000000000000000000000000000000000) (1 / 10 ^ 20) hm h0 (by norm_num) (by norm_num)

lemma cosDeg_25_4875 :
    ((902679182433844925018303560848440334698289539 : ℝ) / 1000000000000000000000000000000000000000000000) ≤ Real.cos (deg2rad 25.4875) ∧
    Real.cos (deg2rad 25.4875) ≤ ((90267918619679396299541670647552843363148529 : ℝ) / 100000000000000000000000000000000000000000000) := by
  have hm : |deg2rad (25.4875 : ℝ) - ((320285371033479420660997 : ℝ) / 720000000000000000000000)| ≤ 1 / 10 ^ 20 :=
    deg2rad_near 25.4875 ((320285371033479420660997 : ℝ) / 720000000000000000000000) (by norm_num) (by norm_num) (by norm_num)
  have h10 : ((999999905641872836282595533268482505907313047 : ℝ) / 1000000000000000000000000000000000000000000000) ≤ Real.cos ((320285371033479420660997 : ℝ) / 737280000000000000000000000) ∧
      Real.cos ((320285371033479420660997 : ℝ) / 737280000000000000000000000) ≤ ((31249997051308642064245326521556967698656859 : ℝ) / 31250000000000000000000000000000000000000000) :=
    cos_init_bounds ((320285371033479420660997 : ℝ) / 737280000000000000000000000) ((999999905641872836282595533268482505907313047 : ℝ) / 1000000000000000000000000000000000000000000000) ((31249997051308642064245326521556967698656859 : ℝ) / 31250000000000000000000000000000000000000000)
      (by norm_num) (by norm_num) (by norm_num) (by norm_num)
  have h9 : ((249999905641877288010676455400638689821378319 : ℝ) / 250000000000000000000000000000000000000000000) ≤ Real.cos ((320285371033479420660997 : ℝ) / 368640000000000000000000000) ∧
      Real.cos ((320285371033479420660997 : ℝ) / 368640000000000000000000000) ≤ ((499999811283761995567162647144648983845942223 : ℝ) / 500000000000000000000000000000000000000000000) :=
    cos_double_bounds ((320285371033479420660997 : ℝ) / 737280000000000000000000000) ((320285371033479420660997 : ℝ) / 368640000000000000000000000) ((999999905641872836282595533268482505907313047 : ℝ) / 1000000000000000000000000000000000000000000000) ((31249997051308642064245326521556967698656859 : ℝ) / 31250000000000000000000000000000000000000000)
      ((249999905641877288010676455400638689821378319 : ℝ) / 250000000000000000000000000000000000000000000) ((499999811283761995567162647144648983845942223 : ℝ) / 500000000000000000000000000000000000000000000)
      (by norm_num) h10 (by norm_num) (by norm_num) (by norm_num)
  have h8 : ((62499905641895094921319917071467422530963823 : ℝ) / 62500000000000000000000000000000000000000000) ≤ Real.cos ((320285371033479420660997 : ℝ) / 184320000000000000000000000) ∧
      Real.cos ((320285371033479420660997 : ℝ) / 184320000000000000000000000) ≤ ((999998490270380875085193543083414375814344769 : ℝ) / 1000000000000000000000000000000000000000000000) :=
    cos_double_bounds ((320285371033479420660997 : ℝ) / 368640000000000000000000000) ((320285371033479420660997 : ℝ) / 184320000000000000000000000) ((249999905641877288010676455400638689821378319 : ℝ) / 250000000000000000000000000000000000000000000) ((499999811283761995567162647144648983845942223 : ℝ) / 500000000000000000000000000000000000000000000)
      ((62499905641895094921319917071467422530963823 : ℝ) / 62500000000000000000000000000000000000000000) ((999998490270380875085193543083414375814344769 : ℝ) / 1000000000000000000000000000000000000000000000)
      (by norm_num) h9 (by norm_num) (by norm_num) (by norm_num)
  have h7 : ((124999245135730580296081117900767400429706137 : ℝ) / 125000000000000000000000000000000000000000000) ≤ Real.cos ((320285371033479420660997 : ℝ) / 92160000000000000000000000) ∧
      Real.cos ((320285371033479420660997 : ℝ) / 92160000000000000000000000) ≤ ((199998792217216413477300058597665469668408029 : ℝ) / 200000000000000000000000000000000000000000000) :=
    cos_double_bounds ((320285371033479420660997 : ℝ) / 184320000000000000000000000) ((320285371033479420660997 : ℝ) / 92160000000000000000000000) ((62499905641895094921319917071467422530963823 : ℝ) / 62500000000000000000000000000000000000000000) ((999998490270380875085193543083414375814344769 : ℝ) / 1000000000000000000000000000000000000000000000)
      ((124999245135730580296081117900767400429706137 : ℝ) / 125000000000000000000000000000000000000000000) ((199998792217216413477300058597665469668408029 : ℝ) / 200000000000000000000000000000000000000000000)
      (by norm_num) h8 (by norm_num) (by norm_num) (by norm_num)
  have h6 : ((999975844416315537826153320987487200736639639 : ℝ) / 1000000000000000000000000000000000000000000000) ≤ Real.cos ((320285371033479420660997 : ℝ) / 46080000000000000000000000) ∧
      Real.cos ((320285371033479420660997 : ℝ) / 46080000000000000000000000) ≤ ((999975844417265232162401628303299922097662283 : ℝ) / 1000000000000000000000000000000000000000000000) :=
    cos_double_bounds ((320285371033479420660997 : ℝ) / 92160000000000000000000000) ((320285371033479420660997 : ℝ) / 46080000000000000000000000) ((124999245135730580296081117900767400429706137 : ℝ) / 125000000000000000000000000000000000000000000) ((199998792217216413477300058597665469668408029 : ℝ) / 200000000000000000000000000000000000000000000)
      ((999975844416315537826153320987487200736639639 : ℝ) / 1000000000000000000000000000000000000000000000) ((999975844417265232162401628303299922097662283 : ℝ) / 1000000000000000000000000000000000000000000000)
      (by norm_num) h7 (by norm_num) (by norm_num) (by norm_num)
  have h5 : ((199980675766449319515744724756484060246657923 : ℝ) / 200000000000000000000000000000000000000000000) ≤ Real.cos ((320285371033479420660997 : ℝ) / 23040000000000000000000000) ∧
      Real.cos ((320285371033479420660997 : ℝ) / 23040000000000000000000000) ≤ ((999903378836045283162034601261352370836341779 : ℝ) / 1000000000000000000000000000000000000000000000) :=
    cos_double_bounds ((320285371033479420660997 : ℝ) / 46080000000000000000000000) ((320285371033479420660997 : ℝ) / 23040000000000000000000000) ((999975844416315537826153320987487200736639639 : ℝ) / 1000000000000000000000000000000000000000000000) ((999975844417265232162401628303299922097662283 : ℝ) / 1000000000000000000000000000000000000000000000)
      ((199980675766449319515744724756484060246657923 : ℝ) / 200000000000000000000000000000000000000000000) ((999903378836045283162034601261352370836341779 : ℝ) / 1000000000000000000000000000000000000000000000)
      (by norm_num) h6 (by norm_num) (by norm_num) (by norm_num)
  have h4 : ((99961353400028650637715828775649666953132773 : ℝ) / 100000000000000000000000000000000000000000000) ≤ Real.cos ((320285371033479420660997 : ℝ) / 11520000000000000000000000) ∧
      Real.cos ((320285371033479420660997 : ℝ) / 11520000000000000000000000) ≤ ((15618961468991871571510673556428287814252121 : ℝ) / 15625000000000000000000000000000000000000000) :=
    cos_double_bounds ((320285371033479420660997 : ℝ) / 23040000000000000000000000) ((320285371033479420660997 : ℝ) / 11520000000000000000000000) ((199980675766449319515744724756484060246657923 : ℝ) / 200000000000000000000000000000000000000000000) ((999903378836045283162034601261352370836341779 : ℝ) / 1000000000000000000000000000000000000000000000)
      ((99961353400028650637715828775649666953132773 : ℝ) / 100000000000000000000000000000000000000000000) ((15618961468991871571510673556428287814252121 : ℝ) / 15625000000000000000000000000000000000000000)
      (by norm_num) h5 (by norm_num) (by norm_num) (by norm_num)
  have h3 : ((499227217356541947304369547889225286945913571 : ℝ) / 500000000000000000000000000000000000000000000) ≤ Real.cos ((320285371033479420660997 : ℝ) / 5760000000000000000000000) ∧
      Real.cos ((320285371033479420660997 : ℝ) / 5760000000000000000000000) ≤ ((499227217386916752335845142001790793149078699 : ℝ) / 500000000000000000000000000000000000000000000) :=
    cos_double_bounds ((320285371033479420660997 : ℝ) / 11520000000000000000000000) ((320285371033479420660997 : ℝ) / 5760000000000000000000000) ((99961353400028650637715828775649666953132773 : ℝ) / 100000000000000000000000000000000000000000000) ((15618961468991871571510673556428287814252121 : ℝ) / 15625000000000000000000000000000000000000000)
      ((499227217356541947304369547889225286945913571 : ℝ) / 500000000000000000000000000000000000000000000) ((499227217386916752335845142001790793149078699 : ℝ) / 500000000000000000000000000000000000000000000)
      (by norm_num) h4 (by norm_num) (by norm_num) (by norm_num)
  have h2 : ((124227814549555977320164282852164160092578793 : ℝ) / 125000000000000000000000000000000000000000000) ≤ Real.cos ((320285371033479420660997 : ℝ) / 2880000000000000000000000) ∧
      Real.cos ((320285371033479420660997 : ℝ) / 2880000000000000000000000) ≤ ((496911258319535344433236049628661522037959013 : ℝ) / 500000000000000000000000000000000000000000000) :=
    cos_double_bounds ((320285371033479420660997 : ℝ) / 5760000000000000000000000) ((320285371033479420660997 : ℝ) / 2880000000000000000000000) ((499227217356541947304369547889225286945913571 : ℝ) / 500000000000000000000000000000000000000000000) ((499227217386916752335845142001790793149078699 : ℝ) / 500000000000000000000000000000000000000000000)
      ((124227814549555977320164282852164160092578793 : ℝ) / 125000000000000000000000000000000000000000000) ((496911258319535344433236049628661522037959013 : ℝ) / 500000000000000000000000000000000000000000000)
      (by norm_num) h3 (by norm_num) (by norm_num) (by norm_num)
  have h1 : ((975366388193135586335609109443199639558427301 : ℝ) / 1000000000000000000000000000000000000000000000) ≤ Real.cos ((320285371033479420660997 : ℝ) / 1440000000000000000000000) ∧
      Real.cos ((320285371033479420660997 : ℝ) / 1440000000000000000000000) ≤ ((30480199661175996014417020301481014008609553 : ℝ) / 31250000000000000000000000000000000000000000) :=
    cos_double_bounds ((320285371033479420660997 : ℝ) / 2880000000000000000000000) ((320285371033479420660997 : ℝ) / 1440000000000000000000000) ((124227814549555977320164282852164160092578793 : ℝ) / 125000000000000000000000000000000000000000000) ((496911258319535344433236049628661522037959013 : ℝ) / 500000000000000000000000000000000000000000000)
      ((975366388193135586335609109443199639558427301 : ℝ) / 1000000000000000000000000000000000000000000000) ((30480199661175996014417020301481014008609553 : ℝ) / 31250000000000000000000000000000000000000000)
      (by norm_num) h2 (by norm_num) (by norm_num) (by norm_num)
  have h0 : ((902679182433844925028303560848440334698289539 : ℝ) / 1000000000000000000000000000000000000000000000) ≤ Real.cos ((320285371033479420660997 : ℝ) / 720000000000000000000000) ∧
      Real.cos ((320285371033479420660997 : ℝ) / 720000000000000000000000) ≤ ((90267918619679396298541670647552843363148529 : ℝ) / 100000000000000000000000000000000000000000000) :=
    cos_double_bounds ((320285371033479420660997 : ℝ) / 1440000000000000000000000) ((320285371033479420660997 : ℝ) / 720000000000000000000000) ((975366388193135586335609109443199639558427301 : ℝ) / 1000000000000000000000000000000000000000000000) ((30480199661175996014417020301481014008609553 : ℝ) / 31250000000000000000000000000000000000000000)
      ((902679182433844925028303560848440334698289539 : ℝ) / 1000000000000000000000000000000000000000000000) ((90267918619679396298541670647552843363148529 : ℝ) / 100000000000000000000000000000000000000000000)
      (by norm_num) h1 (by norm_num) (by norm_num) (by norm_num)
  exact cos_near_bounds (deg2rad 25.4875) ((320285371033479420660997 : ℝ) / 720000000000000000000000) ((902679182433844925028303560848440334698289539 : ℝ) / 1000000000000000000000000000000000000000000000) ((90267918619679396298541670647552843363148529 : ℝ) / 100000000000000000000000000000000000000000000)
    ((902679182433844925018303560848440334698289539 : ℝ) / 1000000000000000000000000000000000000000000000) ((90267918619679396299541670647552843363148529 : ℝ) / 100000000000000000000000000000000000000000000) (1 / 10 ^ 20) hm h0 (by norm_num) (by norm_num)

lemma cosDeg_30_1145 :
    ((27032014614248280570517076240703952707888647 : ℝ) / 31250000000000000000000000000000000000000000) ≤ Real.cos (deg2rad 30.1145) ∧
    Real.cos (deg2rad 30.1145) ≤ ((432512237446465445874145278524059160931982891 : ℝ) / 500000000000000000000000000000000000000000000) := by
  have hm : |deg2rad (30.1145 : ℝ) - ((9460749196652982847960367 : ℝ) / 18000000000000000000000000)| ≤ 1 / 10 ^ 20 :=
    deg2rad_near 30.1145 ((9460749196652982847960367 : ℝ) / 18000000000000000000000000) (by norm_num) (by norm_num) (by norm_num)
  have h10 : ((62499991767036894746049890105372393494965063 : ℝ) / 62500000000000000000000000000000000000000000) ≤ Real.cos ((9460749196652982847960367 : ℝ) / 18432000000000000000000000000) ∧
      Real.cos ((9460749196652982847960367 : ℝ) / 18432000000000000000000000000) ≤ ((999999868272597545982427274126894145726123067 : ℝ) / 1000000000000000000000000000000000000000000000) :=
    cos_init_bounds ((9460749196652982847960367 : ℝ) / 18432000000000000000000000000) ((62499991767036894746049890105372393494965063 : ℝ) / 62500000000000000000000000000000000000000000) ((999999868272597545982427274126894145726123067 : ℝ) / 1000000000000000000000000000000000000000000000)
      (by norm_num) (by norm_num) (by norm_num) (by norm_num)
  have h9 : ((999999473090395967968117112799408536417451689 : ℝ) / 1000000000000000000000000000000000000000000000) ≤ Real.cos ((9460749196652982847960367 : ℝ) / 9216000000000000000000000000) ∧
      Real.cos ((9460749196652982847960367 : ℝ) / 9216000000000000000000000000) ≤ ((999999473090424888146823661937258948106843473 : ℝ) / 1000000000000000000000000000000000000000000000) :=
    cos_double_bounds ((9460749196652982847960367 : ℝ) / 18432000000000000000000000000) ((9460749196652982847960367 : ℝ) / 9216000000000000000000000000) ((62499991767036894746049890105372393494965063 : ℝ) / 62500000000000000000000000000000000000000000) ((999999868272597545982427274126894145726123067 : ℝ) / 1000000000000000000000000000000000000000000000)
      ((999999473090395967968117112799408536417451689 : ℝ) / 1000000000000000000000000000000000000000000000) ((999999473090424888146823661937258948106843473 : ℝ) / 1000000000000000000000000000000000000000000000)
      (by norm_num) h10 (by norm_num) (by norm_num) (by norm_num)
  have h8 : ((499998946181069569667055418228273037357057961 : ℝ) / 500000000000000000000000000000000000000000000) ≤ Real.cos ((9460749196652982847960367 : ℝ) / 4608000000000000000000000000) ∧
      Real.cos ((9460749196652982847960367 : ℝ) / 4608000000000000000000000000) ≤ ((124999736545281852498497969379685946184291459 : ℝ) / 125000000000000000000000000000000000000000000) :=
    cos_double_bounds ((9460749196652982847960367 : ℝ) / 9216000000000000000000000000) ((9460749196652982847960367 : ℝ) / 4608000000000000000000000000) ((999999473090395967968117112799408536417451689 : ℝ) / 1000000000000000000000000000000000000000000000) ((999999473090424888146823661937258948106843473 : ℝ) / 1000000000000000000000000000000000000000000000)
      ((499998946181069569667055418228273037357057961 : ℝ) / 500000000000000000000000000000000000000000000) ((124999736545281852498497969379685946184291459 : ℝ) / 125000000000000000000000000000000000000000000)
      (by norm_num) h9 (by norm_num) (by norm_num) (by norm_num)
  have h7 : ((499995784728720416020754996539456191031497713 : ℝ) / 500000000000000000000000000000000000000000000) ≤ Real.cos ((9460749196652982847960367 : ℝ) / 2304000000000000000000000000) ∧
      Real.cos ((9460749196652982847960367 : ℝ) / 2304000000000000000000000000) ≤ ((31249736545559486052554687208749400974329571 : ℝ) / 31250000000000000000000000000000000000000000) :=
    cos_double_bounds ((9460749196652982847960367 : ℝ) / 4608000000000000000000000000) ((9460749196652982847960367 : ℝ) / 2304000000000000000000000000) ((499998946181069569667055418228273037357057961 : ℝ) / 500000000000000000000000000000000000000000000) ((124999736545281852498497969379685946184291459 : ℝ) / 125000000000000000000000000000000000000000000)
      ((499995784728720416020754996539456191031497713 : ℝ) / 500000000000000000000000000000000000000000000) ((31249736545559486052554687208749400974329571 : ℝ) / 31250000000000000000000000000000000000000000)
      (by norm_num) h8 (by norm_num) (by norm_num) (by norm_num)
  have h6 : ((999966277971911423849924434070300846095582857 : ℝ) / 1000000000000000000000000000000000000000000000) ≤ Real.cos ((9460749196652982847960367 : ℝ) / 1152000000000000000000000000) ∧
      Real.cos ((9460749196652982847960367 : ℝ) / 1152000000000000000000000000) ≤ ((999966277973762294806906928331988223930520957 : ℝ) / 1000000000000000000000000000000000000000000000) :=
    cos_double_bounds ((9460749196652982847960367 : ℝ) / 2304000000000000000000000000) ((9460749196652982847960367 : ℝ) / 1152000000000000000000000000) ((499995784728720416020754996539456191031497713 : ℝ) / 500000000000000000000000000000000000000000000) ((31249736545559486052554687208749400974329571 : ℝ) / 31250000000000000000000000000000000000000000)
      ((999966277971911423849924434070300846095582857 : ℝ) / 1000000000000000000000000000000000000000000000) ((999966277973762294806906928331988223930520957 : ℝ) / 1000000000000000000000000000000000000000000000)
      (by norm_num) h7 (by norm_num) (by norm_num) (by norm_num)
  have h5 : ((999865114161996052213135403894417697444286099 : ℝ) / 1000000000000000000000000000000000000000000000) ≤ Real.cos ((9460749196652982847960367 : ℝ) / 576000000000000000000000000) ∧
      Real.cos ((9460749196652982847960367 : ℝ) / 576000000000000000000000000) ≤ ((999865114169399286380582633613803376776980761 : ℝ) / 1000000000000000000000000000000000000000000000) :=
    cos_double_bounds ((9460749196652982847960367 : ℝ) / 1152000000000000000000000000) ((9460749196652982847960367 : ℝ) / 576000000000000000000000000) ((999966277971911423849924434070300846095582857 : ℝ) / 1000000000000000000000000000000000000000000000) ((999966277973762294806906928331988223930520957 : ℝ) / 1000000000000000000000000000000000000000000000)
      ((999865114161996052213135403894417697444286099 : ℝ) / 1000000000000000000000000000000000000000000000) ((999865114169399286380582633613803376776980761 : ℝ) / 1000000000000000000000000000000000000000000000)
      (by norm_num) h6 (by norm_num) (by norm_num) (by norm_num)
  have h4 : ((249865123259090699226757943378648441013783071 : ℝ) / 250000000000000000000000000000000000000000000) ≤ Real.cos ((9460749196652982847960367 : ℝ) / 288000000000000000000000000) ∧
      Real.cos ((9460749196652982847960367 : ℝ) / 288000000000000000000000000) ≤ ((499730246532985869605575922915622139530600567 : ℝ) / 500000000000000000000000000000000000000000000) :=
    cos_double_bounds ((9460749196652982847960367 : ℝ) / 576000000000000000000000000) ((9460749196652982847960367 : ℝ) / 288000000000000000000000000) ((999865114161996052213135403894417697444286099 : ℝ) / 1000000000000000000000000000000000000000000000) ((999865114169399286380582633613803376776980761 : ℝ) / 1000000000000000000000000000000000000000000000)
      ((249865123259090699226757943378648441013783071 : ℝ) / 250000000000000000000000000000000000000000000) ((499730246532985869605575922915622139530600567 : ℝ) / 500000000000000000000000000000000000000000000)
      (by norm_num) h5 (by norm_num) (by norm_num) (by norm_num)
  have h3 : ((997842554280978813696887912092044983497803547 : ℝ) / 1000000000000000000000000000000000000000000000) ≤ Real.cos ((9460749196652982847960367 : ℝ) / 144000000000000000000000000) ∧
      Real.cos ((9460749196652982847960367 : ℝ) / 144000000000000000000000000) ≤ ((997842554399350685992885560478510067755109197 : ℝ) / 1000000000000000000000000000000000000000000000) :=
    cos_double_bounds ((9460749196652982847960367 : ℝ) / 288000000000000000000000000) ((9460749196652982847960367 : ℝ) / 144000000000000000000000000) ((249865123259090699226757943378648441013783071 : ℝ) / 250000000000000000000000000000000000000000000) ((499730246532985869605575922915622139530600567 : ℝ) / 500000000000000000000000000000000000000000000)
      ((997842554280978813696887912092044983497803547 : ℝ) / 1000000000000000000000000000000000000000000000) ((997842554399350685992885560478510067755109197 : ℝ) / 1000000000000000000000000000000000000000000000)
      (by norm_num) h4 (by norm_num) (by norm_num) (by norm_num)
  have h2 : ((991379526267976300474669451707635489971334687 : ℝ) / 1000000000000000000000000000000000000000000000) ≤ Real.cos ((9460749196652982847960367 : ℝ) / 72000000000000000000000000) ∧
      Real.cos ((9460749196652982847960367 : ℝ) / 72000000000000000000000000) ≤ ((991379526740442266130133754796368359280335997 : ℝ) / 1000000000000000000000000000000000000000000000) :=
    cos_double_bounds ((9460749196652982847960367 : ℝ) / 144000000000000000000000000) ((9460749196652982847960367 : ℝ) / 72000000000000000000000000) ((997842554280978813696887912092044983497803547 : ℝ) / 1000000000000000000000000000000000000000000000) ((997842554399350685992885560478510067755109197 : ℝ) / 1000000000000000000000000000000000000000000000)
      ((991379526267976300474669451707635489971334687 : ℝ) / 1000000000000000000000000000000000000000000000) ((991379526740442266130133754796368359280335997 : ℝ) / 1000000000000000000000000000000000000000000000)
      (by norm_num) h3 (by norm_num) (by norm_num) (by norm_num)
  have h1 : ((3017708531895731947246462810608009076660699 : ℝ) / 3125000000000000000000000000000000000000000) ≤ Real.cos ((9460749196652982847960367 : ℝ) / 36000000000000000000000000) ∧
      Real.cos ((9460749196652982847960367 : ℝ) / 36000000000000000000000000) ≤ ((482833366040103282201170461765175601675431911 : ℝ) / 500000000000000000000000000000000000000000000) :=
    cos_double_bounds ((9460749196652982847960367 : ℝ) / 72000000000000000000000000) ((9460749196652982847960367 : ℝ) / 36000000000000000000000000) ((991379526267976300474669451707635489971334687 : ℝ) / 1000000000000000000000000000000000000000000000) ((991379526740442266130133754796368359280335997 : ℝ) / 1000000000000000000000000000000000000000000000)
      ((3017708531895731947246462810608009076660699 : ℝ) / 3125000000000000000000000000000000000000000) ((482833366040103282201170461765175601675431911 : ℝ) / 500000000000000000000000000000000000000000000)
      (by norm_num) h2 (by norm_num) (by norm_num) (by norm_num)
  have h0 : ((27032014614248280570829576240703952707888647 : ℝ) / 31250000000000000000000000000000000000000000) ≤ Real.cos ((9460749196652982847960367 : ℝ) / 18000000000000000000000000) ∧
      Real.cos ((9460749196652982847960367 : ℝ) / 18000000000000000000000000) ≤ ((432512237446465445869145278524059160931982891 : ℝ) / 500000000000000000000000000000000000000000000) :=
    cos_double_bounds ((9460749196652982847960367 : ℝ) / 36000000000000000000000000) ((9460749196652982847960367 : ℝ) / 18000000000000000000000000) ((3017708531895731947246462810608009076660699 : ℝ) / 3125000000000000000000000000000000000000000) ((482833366040103282201170461765175601675431911 : ℝ) / 500000000000000000000000000000000000000000000)
      ((27032014614248280570829576240703952707888647 : ℝ) / 31250000000000000000000000000000000000000000) ((432512237446465445869145278524059160931982891 : ℝ) / 500000000000000000000000000000000000000000000)
      (by norm_num) h1 (by norm_num) (by norm_num) (by norm_num)
  exact cos_near_bounds (deg2rad 30.1145) ((9460749196652982847960367 : ℝ) / 18000000000000000000000000) ((27032014614248280570829576240703952707888647 : ℝ) / 31250000000000000000000000000000000000000000) ((432512237446465445869145278524059160931982891 : ℝ) / 500000000000000000000000000000000000000000000)
    ((27032014614248280570517076240703952707888647 : ℝ) / 31250000000000000000000000000000000000000000) ((432512237446465445874145278524059160931982891 : ℝ) / 500000000000000000000000000000000000000000000) (1 / 10 ^ 20) hm h0 (by norm_num) (by norm_num)

lemma cosDeg_30_1155 :
    ((432507855344349886953443644332487640200580819 : ℝ) / 500000000000000000000000000000000000000000000) ≤ Real.cos (deg2rad 30.1155) ∧
    Real.cos (deg2rad 30.1155) ≤ ((216253929481656111687743751319674061296888049 : ℝ) / 250000000000000000000000000000000000000000000) := by
  have hm : |deg2rad (30.1155 : ℝ) - ((3153687785306113942428071 : ℝ) / 6000000000000000000000000)| ≤ 1 / 10 ^ 20 :=
    deg2rad_near 30.1155 ((3153687785306113942428071 : ℝ) / 6000000000000000000000000) (by norm_num) (by norm_num) (by norm_num)
  have h10 : ((999999868263841733001086421451794158545967887 : ℝ) / 1000000000000000000000000000000000000000000000) ≤ Real.cos ((3153687785306113942428071 : ℝ) / 6144000000000000000000000000) ∧
      Real.cos ((3153687785306113942428071 : ℝ) / 6144000000000000000000000000) ≤ ((999999868263848964007104072637670098632699851 : ℝ) / 1000000000000000000000000000000000000000000000) :=
    cos_init_bounds ((3153687785306113942428071 : ℝ) / 6144000000000000000000000000) ((999999868263841733001086421451794158545967887 : ℝ) / 1000000000000000000000000000000000000000000000) ((999999868263848964007104072637670098632699851 : ℝ) / 1000000000000000000000000000000000000000000000)
      (by norm_num) (by norm_num) (by norm_num) (by norm_num)
  have h9 : ((999999473055401640835135581379579258910997183 : ℝ) / 1000000000000000000000000000000000000000000000) ≤ Real.cos ((3153687785306113942428071 : ℝ) / 3072000000000000000000000000) ∧
      Real.cos ((3153687785306113942428071 : ℝ) / 3072000000000000000000000000) ≤ ((499999736527715282427697923207487121331804137 : ℝ) / 500000000000000000000000000000000000000000000) :=
    cos_double_bounds ((3153687785306113942428071 : ℝ) / 6144000000000000000000000000) ((3153687785306113942428071 : ℝ) / 3072000000000000000000000000) ((999999868263841733001086421451794158545967887 : ℝ) / 1000000000000000000000000000000000000000000000) ((999999868263848964007104072637670098632699851 : ℝ) / 1000000000000000000000000000000000000000000000)
      ((999999473055401640835135581379579258910997183 : ℝ) / 1000000000000000000000000000000000000000000000) ((499999736527715282427697923207487121331804137 : ℝ) / 500000000000000000000000000000000000000000000)
      (by norm_num) h10 (by norm_num) (by norm_num) (by norm_num)
  have h8 : ((24999947305554047614000553216674055305223561 : ℝ) / 25000000000000000000000000000000000000000000) ≤ Real.cos ((3153687785306113942428071 : ℝ) / 1536000000000000000000000000) ∧
      Real.cos ((3153687785306113942428071 : ℝ) / 1536000000000000000000000000) ≤ ((999997892222277600580097765525829218192291271 : ℝ) / 1000000000000000000000000000000000000000000000) :=
    cos_double_bounds ((3153687785306113942428071 : ℝ) / 3072000000000000000000000000) ((3153687785306113942428071 : ℝ) / 1536000000000000000000000000) ((999999473055401640835135581379579258910997183 : ℝ) / 1000000000000000000000000000000000000000000000) ((499999736527715282427697923207487121331804137 : ℝ) / 500000000000000000000000000000000000000000000)
      ((24999947305554047614000553216674055305223561 : ℝ) / 25000000000000000000000000000000000000000000) ((999997892222277600580097765525829218192291271 : ℝ) / 1000000000000000000000000000000000000000000000)
      (by norm_num) h9 (by norm_num) (by norm_num) (by norm_num)
  have h7 : ((999991568897533073069621088236732691184787211 : ℝ) / 1000000000000000000000000000000000000000000000) ≤ Real.cos ((3153687785306113942428071 : ℝ) / 768000000000000000000000000) ∧
      Real.cos ((3153687785306113942428071 : ℝ) / 768000000000000000000000000) ≤ ((999991568897995856174477634158248915996000349 : ℝ) / 1000000000000000000000000000000000000000000000) :=
    cos_double_bounds ((3153687785306113942428071 : ℝ) / 1536000000000000000000000000) ((3153687785306113942428071 : ℝ) / 768000000000000000000000000) ((24999947305554047614000553216674055305223561 : ℝ) / 25000000000000000000000000000000000000000000) ((999997892222277600580097765525829218192291271 : ℝ) / 1000000000000000000000000000000000000000000000)
      ((999991568897533073069621088236732691184787211 : ℝ) / 1000000000000000000000000000000000000000000000) ((999991568897995856174477634158248915996000349 : ℝ) / 1000000000000000000000000000000000000000000000)
      (by norm_num) h8 (by norm_num) (by norm_num) (by norm_num)
  have h6 : ((99996627573229926989412709527446229131151013 : ℝ) / 100000000000000000000000000000000000000000000) ≤ Real.cos ((3153687785306113942428071 : ℝ) / 384000000000000000000000000) ∧
      Real.cos ((3153687785306113942428071 : ℝ) / 384000000000000000000000000) ≤ ((62497892233384399169154162454026063523788367 : ℝ) / 62500000000000000000000000000000000000000000) :=
    cos_double_bounds ((3153687785306113942428071 : ℝ) / 768000000000000000000000000) ((3153687785306113942428071 : ℝ) / 384000000000000000000000000) ((999991568897533073069621088236732691184787211 : ℝ) / 1000000000000000000000000000000000000000000000) ((999991568897995856174477634158248915996000349 : ℝ) / 1000000000000000000000000000000000000000000000)
      ((99996627573229926989412709527446229131151013 : ℝ) / 100000000000000000000000000000000000000000000) ((62497892233384399169154162454026063523788367 : ℝ) / 62500000000000000000000000000000000000000000)
      (by norm_num) h7 (by norm_num) (by norm_num) (by norm_num)
  have h5 : ((999865105203849543477524104727639836932197483 : ℝ) / 1000000000000000000000000000000000000000000000) ≤ Real.cos ((3153687785306113942428071 : ℝ) / 192000000000000000000000000) ∧
      Real.cos ((3153687785306113942428071 : ℝ) / 192000000000000000000000000) ≤ ((99986510521125376101665327531593619484945213 : ℝ) / 100000000000000000000000000000000000000000000) :=
    cos_double_bounds ((3153687785306113942428071 : ℝ) / 384000000000000000000000000) ((3153687785306113942428071 : ℝ) / 192000000000000000000000000) ((99996627573229926989412709527446229131151013 : ℝ) / 100000000000000000000000000000000000000000000) ((62497892233384399169154162454026063523788367 : ℝ) / 62500000000000000000000000000000000000000000)
      ((999865105203849543477524104727639836932197483 : ℝ) / 1000000000000000000000000000000000000000000000) ((99986510521125376101665327531593619484945213 : ℝ) / 100000000000000000000000000000000000000000000)
      (by norm_num) h6 (by norm_num) (by norm_num) (by norm_num)
  have h4 : ((499730228604305115428268044603060194181245339 : ℝ) / 500000000000000000000000000000000000000000000) ≤ Real.cos ((3153687785306113942428071 : ℝ) / 96000000000000000000000000) ∧
      Real.cos ((3153687785306113942428071 : ℝ) / 96000000000000000000000000) ≤ ((499730228619111552925750019288406158360093127 : ℝ) / 500000000000000000000000000000000000000000000) :=
    cos_double_bounds ((3153687785306113942428071 : ℝ) / 192000000000000000000000000) ((3153687785306113942428071 : ℝ) / 96000000000000000000000000) ((999865105203849543477524104727639836932197483 : ℝ) / 1000000000000000000000000000000000000000000000) ((99986510521125376101665327531593619484945213 : ℝ) / 100000000000000000000000000000000000000000000)
      ((499730228604305115428268044603060194181245339 : ℝ) / 500000000000000000000000000000000000000000000) ((499730228619111552925750019288406158360093127 : ℝ) / 500000000000000000000000000000000000000000000)
      (by norm_num) h5 (by norm_num) (by norm_num) (by norm_num)
  have h3 : ((997842411047288404754032701455801965956834969 : ℝ) / 1000000000000000000000000000000000000000000000) ≤ Real.cos ((3153687785306113942428071 : ℝ) / 48000000000000000000000000) ∧
      Real.cos ((3153687785306113942428071 : ℝ) / 48000000000000000000000000) ≤ ((498921205582837997541349453544531927264600527 : ℝ) / 500000000000000000000000000000000000000000000) :=
    cos_double_bounds ((3153687785306113942428071 : ℝ) / 96000000000000000000000000) ((3153687785306113942428071 : ℝ) / 48000000000000000000000000) ((499730228604305115428268044603060194181245339 : ℝ) / 500000000000000000000000000000000000000000000) ((499730228619111552925750019288406158360093127 : ℝ) / 500000000000000000000000000000000000000000000)
      ((997842411047288404754032701455801965956834969 : ℝ) / 1000000000000000000000000000000000000000000000) ((498921205582837997541349453544531927264600527 : ℝ) / 500000000000000000000000000000000000000000000)
      (by norm_num) h4 (by norm_num) (by norm_num) (by norm_num)
  have h2 : ((198275790913866269050580759524473003959075309 : ℝ) / 200000000000000000000000000000000000000000000) ≤ Real.cos ((3153687785306113942428071 : ℝ) / 24000000000000000000000000) ∧
      Real.cos ((3153687785306113942428071 : ℝ) / 24000000000000000000000000) ≤ ((61961184690116248722967172377534426139296003 : ℝ) / 62500000000000000000000000000000000000000000) :=
    cos_double_bounds ((3153687785306113942428071 : ℝ) / 48000000000000000000000000) ((3153687785306113942428071 : ℝ) / 24000000000000000000000000) ((997842411047288404754032701455801965956834969 : ℝ) / 1000000000000000000000000000000000000000000000) ((498921205582837997541349453544531927264600527 : ℝ) / 500000000000000000000000000000000000000000000)
      ((198275790913866269050580759524473003959075309 : ℝ) / 200000000000000000000000000000000000000000000) ((61961184690116248722967172377534426139296003 : ℝ) / 62500000000000000000000000000000000000000000)
      (by norm_num) h3 (by norm_num) (by norm_num) (by norm_num)
  have h1 : ((965664463125960686793222890772913968475434949 : ℝ) / 1000000000000000000000000000000000000000000000) ≤ Real.cos ((3153687785306113942428071 : ℝ) / 12000000000000000000000000) ∧
      Real.cos ((3153687785306113942428071 : ℝ) / 12000000000000000000000000) ≤ ((965664464999780461203202426239255279662482533 : ℝ) / 1000000000000000000000000000000000000000000000) :=
    cos_double_bounds ((3153687785306113942428071 : ℝ) / 24000000000000000000000000) ((3153687785306113942428071 : ℝ) / 12000000000000000000000000) ((198275790913866269050580759524473003959075309 : ℝ) / 200000000000000000000000000000000000000000000) ((61961184690116248722967172377534426139296003 : ℝ) / 62500000000000000000000000000000000000000000)
      ((965664463125960686793222890772913968475434949 : ℝ) / 1000000000000000000000000000000000000000000000) ((965664464999780461203202426239255279662482533 : ℝ) / 1000000000000000000000000000000000000000000000)
      (by norm_num) h2 (by norm_num) (by norm_num) (by norm_num)
  have h0 : ((432507855344349886958443644332487640200580819 : ℝ) / 500000000000000000000000000000000000000000000) ≤ Real.cos ((3153687785306113942428071 : ℝ) / 6000000000000000000000000) ∧
      Real.cos ((3153687785306113942428071 : ℝ) / 6000000000000000000000000) ≤ ((216253929481656111685243751319674061296888049 : ℝ) / 250000000000000000000000000000000000000000000) :=
    cos_double_bounds ((3153687785306113942428071 : ℝ) / 12000000000000000000000000) ((3153687785306113942428071 : ℝ) / 6000000000000000000000000) ((965664463125960686793222890772913968475434949 : ℝ) / 1000000000000000000000000000000000000000000000) ((965664464999780461203202426239255279662482533 : ℝ) / 1000000000000000000000000000000000000000000000)
      ((432507855344349886958443644332487640200580819 : ℝ) / 500000000000000000000000000000000000000000000) ((216253929481656111685243751319674061296888049 : ℝ) / 250000000000000000000000000000000000000000000)
      (by norm_num) h1 (by norm_num) (by norm_num) (by norm_num)
  exact cos_near_bounds (deg2rad 30.1155) ((3153687785306113942428071 : ℝ) / 6000000000000000000000000) ((432507855344349886958443644332487640200580819 : ℝ) / 500000000000000000000000000000000000000000000) ((216253929481656111685243751319674061296888049 : ℝ) / 250000000000000000000000000000000000000000000)
    ((432507855344349886953443644332487640200580819 : ℝ) / 500000000000000000000000000000000000000000000) ((216253929481656111687743751319674061296888049 : ℝ) / 250000000000000000000000000000000000000000000) (1 / 10 ^ 20) hm h0 (by norm_num) (by norm_num)

lemma theta_case_A :
    (30.1355 : ℝ) ≤ rad2deg (Real.arccos (Real.cos (deg2rad 25) * Real.cos (deg2rad 17.4))) ∧
    rad2deg (Real.arccos (Real.cos (deg2rad 25) * Real.cos (deg2rad 17.4))) ≤ 30.1365 := by
  have hP := interval_mul (Real.cos (deg2rad 25)) (Real.cos (deg2rad 17.4))
    ((906307783897791282993577888972540429624499117 : ℝ) / 1000000000000000000000000000000000000000000000) ((453153893692706024214041929132853186831198261 : ℝ) / 500000000000000000000000000000000000000000000) ((954240327767449608600447972333855841900016729 : ℝ) / 1000000000000000000000000000000000000000000000) ((477120164299739954296168120557123934113448633 : ℝ) / 500000000000000000000000000000000000000000000)
    cosDeg_25 cosDeg_17_4 (by norm_num) (by norm_num)
  refine rad2deg_arccos_bounds _ 30.1355 30.1365 (by norm_num) (by norm_num) (by norm_num) ?_ ?_
  · have h1 : Real.cos (deg2rad 30.1365) ≤ ((216207940192516039735003448792569578184399499 : ℝ) / 250000000000000000000000000000000000000000000) := cosDeg_30_1365.2
    have h2 : ((216207940192516039735003448792569578184399499 : ℝ) / 250000000000000000000000000000000000000000000) ≤ ((906307783897791282993577888972540429624499117 : ℝ) / 1000000000000000000000000000000000000000000000) * ((954240327767449608600447972333855841900016729 : ℝ) / 1000000000000000000000000000000000000000000000) := by norm_num
    exact le_trans (le_trans h1 h2) hP.1
  · have h1 : ((864840516012567514438388904508519304225822407 : ℝ) / 1000000000000000000000000000000000000000000000) ≤ Real.cos (deg2rad 30.1355) := cosDeg_30_1355.1
    have h2 : ((453153893692706024214041929132853186831198261 : ℝ) / 500000000000000000000000000000000000000000000) * ((477120164299739954296168120557123934113448633 : ℝ) / 500000000000000000000000000000000000000000000) ≤ ((864840516012567514438388904508519304225822407 : ℝ) / 1000000000000000000000000000000000000000000000) := by norm_num
    exact le_trans hP.2 (le_trans h2 h1)

lemma theta_case_B :
    (32.8265 : ℝ) ≤ rad2deg (Real.arccos (Real.cos (deg2rad 25) * Real.cos (deg2rad 22))) ∧
    rad2deg (Real.arccos (Real.cos (deg2rad 25) * Real.cos (deg2rad 22))) ≤ 32.8275 := by
  have hP := interval_mul (Real.cos (deg2rad 25)) (Real.cos (deg2rad 22))
    ((906307783897791282993577888972540429624499117 : ℝ) / 1000000000000000000000000000000000000000000000) ((453153893692706024214041929132853186831198261 : ℝ) / 500000000000000000000000000000000000000000000) ((92718385267074984853396213609179094709591887 : ℝ) / 100000000000000000000000000000000000000000000) ((231795963694364561105452328705435776599109191 : ℝ) / 250000000000000000000000000000000000000000000)
    cosDeg_25 cosDeg_22 (by norm_num) (by norm_num)
  refine rad2deg_arccos_bounds _ 32.8265 32.8275 (by norm_num) (by norm_num) (by norm_num) ?_ ?_
  · have h1 : Real.cos (deg2rad 32.8275) ≤ ((210076626605797521990345423153344201554254759 : ℝ) / 250000000000000000000000000000000000000000000) := cosDeg_32_8275.2
    have h2 : ((210076626605797521990345423153344201554254759 : ℝ) / 250000000000000000000000000000000000000000000) ≤ ((906307783897791282993577888972540429624499117 : ℝ) / 1000000000000000000000000000000000000000000000) * ((92718385267074984853396213609179094709591887 : ℝ) / 100000000000000000000000000000000000000000000) := by norm_num
    exact le_trans (le_trans h1 h2) hP.1
  · have h1 : ((420157978899769124209616722122460813674218417 : ℝ) / 500000000000000000000000000000000000000000000) ≤ Real.cos (deg2rad 32.8265) := cosDeg_32_8265.1
    have h2 : ((453153893692706024214041929132853186831198261 : ℝ) / 500000000000000000000000000000000000000000000) * ((231795963694364561105452328705435776599109191 : ℝ) / 250000000000000000000000000000000000000000000) ≤ ((420157978899769124209616722122460813674218417 : ℝ) / 500000000000000000000000000000000000000000000) := by norm_num
    exact le_trans hP.2 (le_trans h2 h1)

lemma theta_case_C :
    (25.4865 : ℝ) ≤ rad2deg (Real.arccos (Real.cos (deg2rad 13.2) * Real.cos (deg2rad 22))) ∧
    rad2deg (Real.arccos (Real.cos (deg2rad 13.2) * Real.cos (deg2rad 22))) ≤ 25.4875 := by
  have hP := interval_mul (Real.cos (deg2rad 13.2)) (Real.cos (deg2rad 22))
    ((121697362827939044525233182651683083399213673 : ℝ) / 125000000000000000000000000000000000000000000) ((38943156116035956899201276634900433307448313 : ℝ) / 40000000000000000000000000000000000000000000) ((92718385267074984853396213609179094709591887 : ℝ) / 100000000000000000000000000000000000000000000) ((231795963694364561105452328705435776599109191 : ℝ) / 250000000000000000000000000000000000000000000)
    cosDeg_13_2 cosDeg_22 (by norm_num) (by norm_num)
  refine rad2deg_arccos_bounds _ 25.4865 25.4875 (by norm_num) (by norm_num) (by norm_num) ?_ ?_
  · have h1 : Real.cos (deg2rad 25.4875) ≤ ((90267918619679396299541670647552843363148529 : ℝ) / 100000000000000000000000000000000000000000000) := cosDeg_25_4875.2
    have h2 : ((90267918619679396299541670647552843363148529 : ℝ) / 100000000000000000000000000000000000000000000) ≤ ((121697362827939044525233182651683083399213673 : ℝ) / 125000000000000000000000000000000000000000000) * ((92718385267074984853396213609179094709591887 : ℝ) / 100000000000000000000000000000000000000000000) := by norm_num
    exact le_trans (le_trans h1 h2) hP.1
  · have h1 : ((22567167317400452801420166698638701637936599 : ℝ) / 25000000000000000000000000000000000000000000) ≤ Real.cos (deg2rad 25.4865) := cosDeg_25_4865.1
    have h2 : ((38943156116035956899201276634900433307448313 : ℝ) / 40000000000000000000000000000000000000000000) * ((231795963694364561105452328705435776599109191 : ℝ) / 250000000000000000000000000000000000000000000) ≤ ((22567167317400452801420166698638701637936599 : ℝ) / 25000000000000000000000000000000000000000000) := by norm_num
    exact le_trans hP.2 (le_trans h2 h1)

lemma theta_case_D :
    (30.1145 : ℝ) ≤ rad2deg (Real.arccos (Real.cos (deg2rad 21.1) * Real.cos (deg2rad 22))) ∧
    rad2deg (Real.arccos (Real.cos (deg2rad 21.1) * Real.cos (deg2rad 22))) ≤ 30.1155 := by
  have hP := interval_mul (Real.cos (deg2rad 21.1)) (Real.cos (deg2rad 22))
    ((932953533217994579805966615014418114797125743 : ℝ) / 1000000000000000000000000000000000000000000000) ((466476767502049780699648306570507991045382321 : ℝ) / 500000000000000000000000000000000000000000000) ((92718385267074984853396213609179094709591887 : ℝ) / 100000000000000000000000000000000000000000000) ((231795963694364561105452328705435776599109191 : ℝ) / 250000000000000000000000000000000000000000000)
    cosDeg_21_1 cosDeg_22 (by norm_num) (by norm_num)
  refine rad2deg_arccos_bounds _ 30.1145 30.1155 (by norm_num) (by norm_num) (by norm_num) ?_ ?_
  · have h1 : Real.cos (deg2rad 30.1155) ≤ ((216253929481656111687743751319674061296888049 : ℝ) / 250000000000000000000000000000000000000000000) := cosDeg_30_1155.2
    have h2 : ((216253929481656111687743751319674061296888049 : ℝ) / 250000000000000000000000000000000000000000000) ≤ ((932953533217994579805966615014418114797125743 : ℝ) / 1000000000000000000000000000000000000000000000) * ((92718385267074984853396213609179094709591887 : ℝ) / 100000000000000000000000000000000000000000000) := by norm_num
    exact le_trans (le_trans h1 h2) hP.1
  · have h1 : ((27032014614248280570517076240703952707888647 : ℝ) / 31250000000000000000000000000000000000000000) ≤ Real.cos (deg2rad 30.1145) := cosDeg_30_1145.1
    have h2 : ((466476767502049780699648306570507991045382321 : ℝ) / 500000000000000000000000000000000000000000000) * ((231795963694364561105452328705435776599109191 : ℝ) / 250000000000000000000000000000000000000000000) ≤ ((27032014614248280570517076240703952707888647 : ℝ) / 31250000000000000000000000000000000000000000) := by norm_num
    exact le_trans hP.2 (le_trans h2 h1)
/-! ## Flat-attitude helper lemmas -/

lemma rad2deg_arccos_mem (x : ℝ) :
    0 ≤ rad2deg (Real.arccos x) ∧ rad2deg (Real.arccos x) ≤ 180 :=
  ⟨rad2deg_nonneg (Real.arccos_nonneg x), rad2deg_le_180 (Real.arccos_le_pi x)⟩

/-- With roll flat, the fore beam angle is exactly `fore_aft - pitch`
whenever that difference is in `[0, 180]` degrees. -/
lemma theta1_flat_exact (fa ps p : ℝ) (h0 : 0 ≤ fa - p) (h1 : fa - p ≤ 180) :
    (angle_from_vertical fa ps p 0).1 = fa - p := by
  have he : (angle_from_vertical fa ps p 0).1
      = rad2deg (Real.arccos (Real.cos (deg2rad (fa - p)))) := by
    show rad2deg (Real.arccos (Real.cos (deg2rad fa - deg2rad p) * Real.cos (deg2rad 0))) = _
    rw [deg2rad_zero, Real.cos_zero, mul_one, deg2rad_sub]
  rw [he, arccos_cos_deg h0 h1]

/-- With roll flat, the aft beam angle is exactly `fore_aft + pitch`
whenever that sum is in `[0, 180]` degrees. -/
lemma theta3_flat_exact (fa ps p : ℝ) (h0 : 0 ≤ fa + p) (h1 : fa + p ≤ 180) :
    (angle_from_vertical fa ps p 0).2.2.1 = fa + p := by
  have he : (angle_from_vertical fa ps p 0).2.2.1
      = rad2deg (Real.arccos (Real.cos (deg2rad (fa + p)))) := by
    show rad2deg (Real.arccos (Real.cos (deg2rad fa + deg2rad p) * Real.cos (deg2rad 0))) = _
    rw [deg2rad_zero, Real.cos_zero, mul_one, deg2rad_add]
  rw [he, arccos_cos_deg h0 h1]

/-- With pitch flat, the port beam angle is exactly
`port_starboard - roll` whenever that difference is in `[0, 180]`. -/
lemma theta2_pitch0_exact (fa ps r : ℝ) (h0 : 0 ≤ ps - r) (h1 : ps - r ≤ 180) :
    (angle_from_vertical fa ps 0 r).2.1 = ps - r := by
  have he : (angle_from_vertical fa ps 0 r).2.1
      = rad2deg (Real.arccos (Real.cos (deg2rad (ps - r)))) := by
    show rad2deg (Real.arccos (Real.cos (deg2rad ps - deg2rad r) * Real.cos (deg2rad 0))) = _
    rw [deg2rad_zero, Real.cos_zero, mul_one, deg2rad_sub]
  rw [he, arccos_cos_deg h0 h1]

/-- With pitch flat, the starboard beam angle is exactly
`port_starboard + roll` whenever that sum is in `[0, 180]`. -/
lemma theta4_pitch0_exact (fa ps r : ℝ) (h0 : 0 ≤ ps + r) (h1 : ps + r ≤ 180) :
    (angle_from_vertical fa ps 0 r).2.2.2 = ps + r := by
  have he : (angle_from_vertical fa ps 0 r).2.2.2
      = rad2deg (Real.arccos (Real.cos (deg2rad (ps + r)))) := by
    show rad2deg (Real.arccos (Real.cos (deg2rad ps + deg2rad r) * Real.cos (deg2rad 0))) = _
    rw [deg2rad_zero, Real.cos_zero, mul_one, deg2rad_add]
  rw [he, arccos_cos_deg h0 h1]

/-- With roll flat, the port beam angle in product form. -/
lemma theta2_flat_form (fa ps p : ℝ) :
    (angle_from_vertical fa ps p 0).2.1
      = rad2deg (Real.arccos (Real.cos (deg2rad ps) * Real.cos (deg2rad p))) := by
  show rad2deg (Real.arccos (Real.cos (deg2rad ps - deg2rad 0) * Real.cos (deg2rad p))) = _
  rw [deg2rad_zero, sub_zero]

/-- With roll flat, the starboard beam angle in product form. -/
lemma theta4_flat_form (fa ps p : ℝ) :
    (angle_from_vertical fa ps p 0).2.2.2
      = rad2deg (Real.arccos (Real.cos (deg2rad ps) * Real.cos (deg2rad p))) := by
  show rad2deg (Real.arccos (Real.cos (deg2rad ps + deg2rad 0) * Real.cos (deg2rad p))) = _
  rw [deg2rad_zero, add_zero]

/-! ## Claims -/

/-- Claim C1: for every real-valued inputs, `angle_from_vertical`
converts each input to radians and returns the ordered 4-tuple given
by the spec's four arccos-of-product-of-cosines formulas, converted
back to degrees, in the order fore, port, aft, starboard. -/
theorem claim_C1 (fa ps p r : ℝ) :
    angle_from_vertical fa ps p r = angle_from_vertical_spec fa ps p r := rfl

/-- Claim C2: for all real pitch, roll, fore-aft and port-starboard
angles, each of the four angles returned by `angle_from_vertical` lies
in `[0, 180]` degrees. -/
theorem claim_C2 (fa ps p r : ℝ) :
    (0 ≤ (angle_from_vertical fa ps p r).1 ∧ (angle_from_vertical fa ps p r).1 ≤ 180) ∧
    (0 ≤ (angle_from_vertical fa ps p r).2.1 ∧ (angle_from_vertical fa ps p r).2.1 ≤ 180) ∧
    (0 ≤ (angle_from_vertical fa ps p r).2.2.1 ∧ (angle_from_vertical fa ps p r).2.2.1 ≤ 180) ∧
    (0 ≤ (angle_from_vertical fa ps p r).2.2.2 ∧ (angle_from_vertical fa ps p r).2.2.2 ≤ 180) :=
  ⟨rad2deg_arccos_mem _, rad2deg_arccos_mem _, rad2deg_arccos_mem _, rad2deg_arccos_mem _⟩

/-- Claim C3: for every real-valued inputs, the argument passed to
`arccos` in each of the four formulas is a product of two cosines and
lies in `[-1, 1]`, so the function is defined for any real degree
value; the returned tuple is exactly `arccos` applied to these four
in-domain arguments, converted to degrees. -/
theorem claim_C3 (fa ps p r : ℝ) :
    (-1 ≤ Real.cos (deg2rad fa - deg2rad p) * Real.cos (deg2rad r) ∧
      Real.cos (deg2rad fa - deg2rad p) * Real.cos (deg2rad r) ≤ 1) ∧
    (-1 ≤ Real.cos (deg2rad ps - deg2rad r) * Real.cos (deg2rad p) ∧
      Real.cos (deg2rad ps - deg2rad r) * Real.cos (deg2rad p) ≤ 1) ∧
    (-1 ≤ Real.cos (deg2rad fa + deg2rad p) * Real.cos (deg2rad r) ∧
      Real.cos (deg2rad fa + deg2rad p) * Real.cos (deg2rad r) ≤ 1) ∧
    (-1 ≤ Real.cos (deg2rad ps + deg2rad r) * Real.cos (deg2rad p) ∧
      Real.cos (deg2rad ps + deg2rad r) * Real.cos (deg2rad p) ≤ 1) ∧
    angle_from_vertical fa ps p r =
      (rad2deg (Real.arccos (Real.cos (deg2rad fa - deg2rad p) * Real.cos (deg2rad r))),
       rad2deg (Real.arccos (Real.cos (deg2rad ps - deg2rad r) * Real.cos (deg2rad p))),
       rad2deg (Real.arccos (Real.cos (deg2rad fa + deg2rad p) * Real.cos (deg2rad r))),
       rad2deg (Real.arccos (Real.cos (deg2rad ps + deg2rad r) * Real.cos (deg2rad p)))) :=
  ⟨cos_mul_cos_mem, cos_mul_cos_mem, cos_mul_cos_mem, cos_mul_cos_mem, rfl⟩

/-- Claim C4: with roll = 0, flipping the sign of pitch swaps the fore
and aft beam angles: `theta_3(pitch) = theta_1(-pitch)` and
`theta_1(pitch) = theta_3(-pitch)`. -/
theorem claim_C4 (fa ps p : ℝ) :
    (angle_from_vertical fa ps p 0).2.2.1 = (angle_from_vertical fa ps (-p) 0).1 ∧
    (angle_from_vertical fa ps p 0).1 = (angle_from_vertical fa ps (-p) 0).2.2.1 := by
  constructor
  · show rad2deg (Real.arccos (Real.cos (deg2rad fa + deg2rad p) * Real.cos (deg2rad 0)))
      = rad2deg (Real.arccos (Real.cos (deg2rad fa - deg2rad (-p)) * Real.cos (deg2rad 0)))
    rw [deg2rad_neg, sub_neg_eq_add]
  · show rad2deg (Real.arccos (Real.cos (deg2rad fa - deg2rad p) * Real.cos (deg2rad 0)))
      = rad2deg (Real.arccos (Real.cos (deg2rad fa + deg2rad (-p)) * Real.cos (deg2rad 0)))
    rw [deg2rad_neg, ← sub_eq_add_neg]

/-- Claim C5: the pair (theta_2, theta_4) is invariant under flipping
the sign of roll combined with swapping the port and starboard labels:
`theta_2(-roll) = theta_4(roll)` and `theta_4(-roll) = theta_2(roll)`,
for every inputs. -/
theorem claim_C5 (fa ps p r : ℝ) :
    (angle_from_vertical fa ps p (-r)).2.1 = (angle_from_vertical fa ps p r).2.2.2 ∧
    (angle_from_vertical fa ps p (-r)).2.2.2 = (angle_from_vertical fa ps p r).2.1 := by
  constructor
  · show rad2deg (Real.arccos (Real.cos (deg2rad ps - deg2rad (-r)) * Real.cos (deg2rad p)))
      = rad2deg (Real.arccos (Real.cos (deg2rad ps + deg2rad r) * Real.cos (deg2rad p)))
    rw [deg2rad_neg, sub_neg_eq_add]
  · show rad2deg (Real.arccos (Real.cos (deg2rad ps + deg2rad (-r)) * Real.cos (deg2rad p)))
      = rad2deg (Real.arccos (Real.cos (deg2rad ps - deg2rad r) * Real.cos (deg2rad p)))
    rw [deg2rad_neg, ← sub_eq_add_neg]

/-- Claim C6: with the source's default arguments (fore-aft 47.5,
port-starboard 25, pitch 0, roll 0) the function returns exactly
`(47.5, 25, 47.5, 25)` in the real-number model (hence within any
floating-point tolerance such as 1e-9). -/
theorem claim_C6 : angle_from_vertical 47.5 25 0 0 = (47.5, 25, 47.5, 25) := by
  have h1 : (angle_from_vertical 47.5 25 0 0).1 = 47.5 := by
    rw [theta1_flat_exact 47.5 25 0 (by norm_num) (by norm_num)]
    norm_num
  have h2 : (angle_from_vertical 47.5 25 0 0).2.1 = 25 := by
    rw [theta2_pitch0_exact 47.5 25 0 (by norm_num) (by norm_num)]
    norm_num
  have h3 : (angle_from_vertical 47.5 25 0 0).2.2.1 = 47.5 := by
    rw [theta3_flat_exact 47.5 25 0 (by norm_num) (by norm_num)]
    norm_num
  have h4 : (angle_from_vertical 47.5 25 0 0).2.2.2 = 25 := by
    rw [theta4_pitch0_exact 47.5 25 0 (by norm_num) (by norm_num)]
    norm_num
  exact Prod.ext h1 (Prod.ext h2 (Prod.ext h3 h4))

/-- Claim C7: `angle_from_vertical` reproduces, to three-decimal
tolerance (within 0.0005 of the printed value), each of the listed
test evaluations: pitch 17.4 gives about (30.100, 30.136, 64.900,
30.136); pitch -17.4 gives (64.900, 30.136, 30.100, 30.136); pitch 22
with fore-aft 54.8 gives (32.800, 32.827, 76.800, 32.827); pitch 22
with port-starboard 13.2 gives (25.500, 25.487, 69.500, 25.487);
pitch 22 with port-starboard 21.1 and fore-aft 52.1 gives (30.100,
30.115, 74.100, 30.115). -/
theorem claim_C7 :
    (|(angle_from_vertical 47.5 25 17.4 0).1 - 30.100| ≤ 1 / 2000 ∧
     |(angle_from_vertical 47.5 25 17.4 0).2.1 - 30.136| ≤ 1 / 2000 ∧
     |(angle_from_vertical 47.5 25 17.4 0).2.2.1 - 64.900| ≤ 1 / 2000 ∧
     |(angle_from_vertical 47.5 25 17.4 0).2.2.2 - 30.136| ≤ 1 / 2000) ∧
    (|(angle_from_vertical 47.5 25 (-17.4) 0).1 - 64.900| ≤ 1 / 2000 ∧
     |(angle_from_vertical 47.5 25 (-17.4) 0).2.1 - 30.136| ≤ 1 / 2000 ∧
     |(angle_from_vertical 47.5 25 (-17.4) 0).2.2.1 - 30.100| ≤ 1 / 2000 ∧
     |(angle_from_vertical 47.5 25 (-17.4) 0).2.2.2 - 30.136| ≤ 1 / 2000) ∧
    (|(angle_from_vertical 54.8 25 22 0).1 - 32.800| ≤ 1 / 2000 ∧
     |(angle_from_vertical 54.8 25 22 0).2.1 - 32.827| ≤ 1 / 2000 ∧
     |(angle_from_vertical 54.8 25 22 0).2.2.1 - 76.800| ≤ 1 / 2000 ∧
     |(angle_from_vertical 54.8 25 22 0).2.2.2 - 32.827| ≤ 1 / 2000) ∧
    (|(angle_from_vertical 47.5 13.2 22 0).1 - 25.500| ≤ 1 / 2000 ∧
     |(angle_from_vertical 47.5 13.2 22 0).2.1 - 25.487| ≤ 1 / 2000 ∧
     |(angle_from_vertical 47.5 13.2 22 0).2.2.1 - 69.500| ≤ 1 / 2000 ∧
     |(angle_from_vertical 47.5 13.2 22 0).2.2.2 - 25.487| ≤ 1 / 2000) ∧
    (|(angle_from_vertical 52.1 21.1 22 0).1 - 30.100| ≤ 1 / 2000 ∧
     |(angle_from_vertical 52.1 21.1 22 0).2.1 - 30.115| ≤ 1 / 2000 ∧
     |(angle_from_vertical 52.1 21.1 22 0).2.2.1 - 74.100| ≤ 1 / 2000 ∧
     |(angle_from_vertical 52.1 21.1 22 0).2.2.2 - 30.115| ≤ 1 / 2000) := by
  refine ⟨⟨?_, ?_, ?_, ?_⟩, ⟨?_, ?_, ?_, ?_⟩, ⟨?_, ?_, ?_, ?_⟩,
    ⟨?_, ?_, ?_, ?_⟩, ⟨?_, ?_, ?_, ?_⟩⟩
  · rw [theta1_flat_exact 47.5 25 17.4 (by norm_num) (by norm_num)]
    norm_num
  · rw [theta2_flat_form, abs_le]
    exact ⟨by linarith [theta_case_A.1], by linarith [theta_case_A.2]⟩
  · rw [theta3_flat_exact 47.5 25 17.4 (by norm_num) (by norm_num)]
    norm_num
  · rw [theta4_flat_form, abs_le]
    exact ⟨by linarith [theta_case_A.1], by linarith [theta_case_A.2]⟩
  · rw [theta1_flat_exact 47.5 25 (-17.4) (by norm_num) (by norm_num)]
    norm_num
  · rw [theta2_flat_form, deg2rad_neg, Real.cos_neg, abs_le]
    exact ⟨by linarith [theta_case_A.1], by linarith [theta_case_A.2]⟩
  · rw [theta3_flat_exact 47.5 25 (-17.4) (by norm_num) (by norm_num)]
    norm_num
  · rw [theta4_flat_form, deg2rad_neg, Real.cos_neg, abs_le]
    exact ⟨by linarith [theta_case_A.1], by linarith [theta_case_A.2]⟩
  · rw [theta1_flat_exact 54.8 25 22 (by norm_num) (by norm_num)]
    norm_num
  · rw [theta2_flat_form, abs_le]
    exact ⟨by linarith [theta_case_B.1], by linarith [theta_case_B.2]⟩
  · rw [theta3_flat_exact 54.8 25 22 (by norm_num) (by norm_num)]
    norm_num
  · rw [theta4_flat_form, abs_le]
    exact ⟨by linarith [theta_case_B.1], by linarith [theta_case_B.2]⟩
  · rw [theta1_flat_exact 47.5 13.2 22 (by norm_num) (by norm_num)]
    norm_num
  · rw [theta2_flat_form, abs_le]
    exact ⟨by linarith [theta_case_C.1], by linarith [theta_case_C.2]⟩
  · rw [theta3_flat_exact 47.5 13.2 22 (by norm_num) (by norm_num)]
    norm_num
  · rw [theta4_flat_form, abs_le]
    exact ⟨by linarith [theta_case_C.1], by linarith [theta_case_C.2]⟩
  · rw [theta1_flat_exact 52.1 21.1 22 (by norm_num) (by norm_num)]
    norm_num
  · rw [theta2_flat_form, abs_le]
    exact ⟨by linarith [theta_case_D.1], by linarith [theta_case_D.2]⟩
  · rw [theta3_flat_exact 52.1 21.1 22 (by norm_num) (by norm_num)]
    norm_num
  · rw [theta4_flat_form, abs_le]
    exact ⟨by linarith [theta_case_D.1], by linarith [theta_case_D.2]⟩

/-- Claim C8: in addition to returning the tuple, the function prints
each of the four values formatted to three decimal places, one per
line, with the fixed labels "fore angle: ", "port angle: ",
"aft angle: " and "stbd angle: " in that order; the printed numbers
are the components of the returned tuple. -/
theorem claim_C8 (fa ps p r : ℝ) :
    angle_from_vertical_output fa ps p r =
      [("fore angle: ", fmt3 (angle_from_vertical fa ps p r).1),
       ("port angle: ", fmt3 (angle_from_vertical fa ps p r).2.1),
       ("aft angle: ", fmt3 (angle_from_vertical fa ps p r).2.2.1),
       ("stbd angle: ", fmt3 (angle_from_vertical fa ps p r).2.2.2)] := rfl

/-- Claim C9: with roll flat, when `fore_aft - pitch` lies in
`[0, 180]` the fore output equals exactly `fore_aft - pitch`, and when
`fore_aft + pitch` lies in `[0, 180]` the aft output equals exactly
`fore_aft + pitch`; symmetrically, with pitch flat the port and
starboard outputs equal `port_starboard - roll` and
`port_starboard + roll` on `[0, 180]`. -/
theorem claim_C9 (fa ps p r : ℝ) :
    (0 ≤ fa - p → fa - p ≤ 180 → (angle_from_vertical fa ps p 0).1 = fa - p) ∧
    (0 ≤ fa + p → fa + p ≤ 180 → (angle_from_vertical fa ps p 0).2.2.1 = fa + p) ∧
    (0 ≤ ps - r → ps - r ≤ 180 → (angle_from_vertical fa ps 0 r).2.1 = ps - r) ∧
    (0 ≤ ps + r → ps + r ≤ 180 → (angle_from_vertical fa ps 0 r).2.2.2 = ps + r) :=
  ⟨theta1_flat_exact fa ps p, theta3_flat_exact fa ps p,
   theta2_pitch0_exact fa ps r, theta4_pitch0_exact fa ps r⟩

/-- Witness for claim C9 at the concrete input (47.5, 25, 17.4, 10):
all side conditions hold there and the four flat-case identities
evaluate as stated. -/
theorem claim_C9_witness :
    ((0:ℝ) ≤ 47.5 - 17.4 ∧ (47.5:ℝ) - 17.4 ≤ 180 ∧
      (angle_from_vertical 47.5 25 17.4 0).1 = 47.5 - 17.4) ∧
    ((0:ℝ) ≤ 47.5 + 17.4 ∧ (47.5:ℝ) + 17.4 ≤ 180 ∧
      (angle_from_vertical 47.5 25 17.4 0).2.2.1 = 47.5 + 17.4) ∧
    ((0:ℝ) ≤ 25 - 10 ∧ (25:ℝ) - 10 ≤ 180 ∧
      (angle_from_vertical 47.5 25 0 10).2.1 = 25 - 10) ∧
    ((0:ℝ) ≤ 25 + 10 ∧ (25:ℝ) + 10 ≤ 180 ∧
      (angle_from_vertical 47.5 25 0 10).2.2.2 = 25 + 10) :=
  ⟨⟨by norm_num, by norm_num, (claim_C9 47.5 25 17.4 10).1 (by norm_num) (by norm_num)⟩,
   ⟨by norm_num, by norm_num, (claim_C9 47.5 25 17.4 10).2.1 (by norm_num) (by norm_num)⟩,
   ⟨by norm_num, by norm_num, (claim_C9 47.5 25 17.4 10).2.2.1 (by norm_num) (by norm_num)⟩,
   ⟨by norm_num, by norm_num, (claim_C9 47.5 25 17.4 10).2.2.2 (by norm_num) (by norm_num)⟩⟩

/-- Claim C10: swapping the roles of the parameter pairs maps the
fore/aft outputs onto the port/starboard outputs:
`theta_2(fa, ps, pitch, roll) = theta_1(ps, fa, roll, pitch)` and
`theta_4(fa, ps, pitch, roll) = theta_3(ps, fa, roll, pitch)`;
consequently theta_2 and theta_4 are even in pitch and theta_1 and
theta_3 are even in roll. -/
theorem claim_C10 (fa ps p r : ℝ) :
    ((angle_from_vertical fa ps p r).2.1 = (angle_from_vertical ps fa r p).1 ∧
     (angle_from_vertical fa ps p r).2.2.2 = (angle_from_vertical ps fa r p).2.2.1) ∧
    ((angle_from_vertical fa ps (-p) r).2.1 = (angle_from_vertical fa ps p r).2.1 ∧
     (angle_from_vertical fa ps (-p) r).2.2.2 = (angle_from_vertical fa ps p r).2.2.2) ∧
    ((angle_from_vertical fa ps p (-r)).1 = (angle_from_vertical fa ps p r).1 ∧
     (angle_from_vertical fa ps p (-r)).2.2.1 = (angle_from_vertical fa ps p r).2.2.1) := by
  refine ⟨⟨rfl, rfl⟩, ⟨?_, ?_⟩, ⟨?_, ?_⟩⟩
  · show rad2deg (Real.arccos (Real.cos (deg2rad ps - deg2rad r) * Real.cos (deg2rad (-p))))
      = rad2deg (Real.arccos (Real.cos (deg2rad ps - deg2rad r) * Real.cos (deg2rad p)))
    rw [deg2rad_neg, Real.cos_neg]
  · show rad2deg (Real.arccos (Real.cos (deg2rad ps + deg2rad r) * Real.cos (deg2rad (-p))))
      = rad2deg (Real.arccos (Real.cos (deg2rad ps + deg2rad r) * Real.cos (deg2rad p)))
    rw [deg2rad_neg, Real.cos_neg]
  · show rad2deg (Real.arccos (Real.cos (deg2rad fa - deg2rad p) * Real.cos (deg2rad (-r))))
      = rad2deg (Real.arccos (Real.cos (deg2rad fa - deg2rad p) * Real.cos (deg2rad r)))
    rw [deg2rad_neg, Real.cos_neg]
  · show rad2deg (Real.arccos (Real.cos (deg2rad fa + deg2rad p) * Real.cos (deg2rad (-r))))
      = rad2deg (Real.arccos (Real.cos (deg2rad fa + deg2rad p) * Real.cos (deg2rad r)))
    rw [deg2rad_neg, Real.cos_neg]

end AD2CP
